import Mathlib

/-!
# libezsp: APS option word and EZSP dongle dispatcher

A shallow embedding of

* `src/domain/zbmessage/apsoption.cpp` (`CAPSOption`),
* `src/ezsp/ash-driver.cpp` (`AshDriver`),
* `src/ezsp/ezsp-dongle.cpp` (`CEzspDongle`).

Bytes and machine words are natural numbers; a conversion to an unsigned type of
width `w` is written as an explicit `% 2^w`.
-/

/-! ## `CAPSOption` (apsoption.cpp) -/

/-- The nine boolean members of `CAPSOption`. -/
structure CAPSOption where
  dest_ieee : Bool
  enable_addr_discovery : Bool
  enable_route_discovery : Bool
  encryption : Bool
  force_route_discovery : Bool
  fragment : Bool
  retry : Bool
  src_ieee : Bool
  zdo_rsp_requiered : Bool
deriving DecidableEq, Repr

namespace CAPSOption

/-- Conversion of an `int` expression to `uint16_t`. -/
def u16 (n : Nat) : Nat := n % 65536

/-- The constructor `CAPSOption::CAPSOption()` (apsoption.cpp 8-42). -/
def ctor : CAPSOption :=
  { dest_ieee := false
    enable_addr_discovery := true
    enable_route_discovery := true
    encryption := false
    force_route_discovery := false
    fragment := false
    retry := true
    src_ieee := true
    zdo_rsp_requiered := false }

/-- The method `CAPSOption::GetEmberApsOption` (apsoption.cpp 44-59): a `bool` is promoted to
`int` (0 or 1), shifted, masked, and accumulated with `|=` into the `uint16_t lo_option`. -/
def GetEmberApsOption (self : CAPSOption) : Nat :=
  let lo_option := u16 ((self.encryption.toNat <<< 5) &&& 0x0020)
  let lo_option := u16 (lo_option ||| ((self.retry.toNat <<< 6) &&& 0x0040))
  let lo_option := u16 (lo_option ||| ((self.enable_route_discovery.toNat <<< 8) &&& 0x0100))
  let lo_option := u16 (lo_option ||| ((self.force_route_discovery.toNat <<< 9) &&& 0x0200))
  let lo_option := u16 (lo_option ||| ((self.src_ieee.toNat <<< 10) &&& 0x0400))
  let lo_option := u16 (lo_option ||| ((self.dest_ieee.toNat <<< 11) &&& 0x0800))
  let lo_option := u16 (lo_option ||| ((self.enable_addr_discovery.toNat <<< 12) &&& 0x1000))
  let lo_option := u16 (lo_option ||| ((self.zdo_rsp_requiered.toNat <<< 14) &&& 0x4000))
  let lo_option := u16 (lo_option ||| ((self.fragment.toNat <<< 15) &&& 0x8000))
  lo_option

/-- The method `CAPSOption::SetEmberApsOption` (apsoption.cpp 61-72): every member is
overwritten from one bit of `i_option`; `self` is the object before the call. -/
def SetEmberApsOption (self : CAPSOption) (i_option : Nat) : CAPSOption :=
  { self with
    encryption := decide (0 ≠ (i_option &&& 0x0020))
    retry := decide (0 ≠ (i_option &&& 0x0040))
    enable_route_discovery := decide (0 ≠ (i_option &&& 0x0100))
    force_route_discovery := decide (0 ≠ (i_option &&& 0x0200))
    src_ieee := decide (0 ≠ (i_option &&& 0x0400))
    dest_ieee := decide (0 ≠ (i_option &&& 0x0800))
    enable_addr_discovery := decide (0 ≠ (i_option &&& 0x1000))
    zdo_rsp_requiered := decide (0 ≠ (i_option &&& 0x4000))
    fragment := decide (0 ≠ (i_option &&& 0x8000)) }

end CAPSOption

/-! ## Shared enumerations and the observable trace -/

/-- The adapter modes of `CEzspDongle::Mode` (the list `EZSP_DONGLE_MODE_LIST` of ezsp-dongle.h). -/
inductive Mode where
  | UNKNOWN
  | EZSP_NCP
  | BOOTLOADER_FIRMWARE_UPGRADE
  | BOOTLOADER_EXIT_TO_EZSP_NCP
deriving DecidableEq, Repr

/-- The dongle states notified to observers (`EDongleState`). -/
inductive EDongleState where
  | DONGLE_READY
  | DONGLE_REMOVE
  | DONGLE_NOT_RESPONDING
  | DONGLE_VERSION_RETRIEVED
deriving DecidableEq, Repr

/-- The notifications of `AshCodec::EAshInfo`; `OTHER` stands for any enumerator that
`CEzspDongle::ashCbInfo` sends to its `default:` branch. -/
inductive EAshInfo where
  | ASH_RESET_FAILED
  | ASH_NACK
  | ASH_STATE_CONNECTED
  | ASH_STATE_DISCONNECTED
  | OTHER
deriving DecidableEq, Repr

/-- What the dispatcher and the ASH driver do to their collaborators, in program order.
Observers are identified by a number (their address); the observer callbacks, the timer, the
serial writer and the bootloader prompt driver are external, so a call to one of them is
recorded and nothing more. Log output is not recorded. -/
inductive Event where
  | handleDongleState (observer : Nat) (i_state : EDongleState)
  | handleEzspRxMessage (observer : Nat) (i_cmd : Nat) (i_message : List Nat)
  | handleBootloaderPrompt (observer : Nat)
  | handleFirmwareXModemXfr (observer : Nat)
  | sendResetNCPFrame
  | sendAckFrame
  | sendDataFrame (i_data : List Nat)
  | serialWrite (frame : List Nat)
  | timerStop
  | timerStart (ms : Nat)
  | blpSelectModeRun
  | blpSelectModeUpgradeFw
  | blpReset
deriving DecidableEq, Repr

/-- Number of calls of the serial write functor recorded in a trace. -/
def serialWrites (tr : List Event) : Nat :=
  (tr.filter (fun e => match e with | .serialWrite _ => true | _ => false)).length

/-- The arguments of the `sendDataFrame` calls recorded in a trace, in order. -/
def dataFramesOf (tr : List Event) : List (List Nat) :=
  tr.filterMap (fun e => match e with | .sendDataFrame d => some d | _ => none)

/-- Number of `sendAckFrame` calls recorded in a trace. -/
def ackFramesOf (tr : List Event) : Nat :=
  (tr.filter (fun e => match e with | .sendAckFrame => true | _ => false)).length

/-- The `handleEzspRxMessage` calls recorded in a trace, in order. -/
def rxMessagesOf (tr : List Event) : List Event :=
  tr.filter (fun e => match e with | .handleEzspRxMessage _ _ _ => true | _ => false)

/-- The parts of the program that `src/` uses but does not contain: the enumerator
`EZSP_LAUNCH_STANDALONE_BOOTLOADER` (ezsp-enum.h), the frame forging methods and the state test
of `AshCodec` over its own state `σ`, and the serial write functor. The write functor is given the
number of earlier writes and the frame, and answers with its return value and the value it
stores into `writtenCnt`. -/
structure Env (σ : Type) where
  EZSP_LAUNCH_STANDALONE_BOOTLOADER : Nat
  forgeResetNCPFrame : σ → List Nat × σ
  forgeAckFrame : σ → List Nat × σ
  forgeDataFrame : List Nat → σ → List Nat × σ
  isInConnectedState : σ → Bool
  serialWriteFunc : Nat → List Nat → Int × Nat

/-! ## `AshDriver` (ash-driver.cpp) -/

def T_RX_ACK_MIN : Nat := 400
def T_RX_ACK_INIT : Nat := 1600
def T_RX_ACK_MAX : Nat := 3200
def T_ACK_ASH_RESET : Nat := 5000

/-- State of an `AshDriver`: `ackTimer` is `none` when the timer is stopped and `some ms` when it
runs with duration `ms`; `serialWriteFunc` tells whether a write functor is registered.
Modelled from the spec: `enabled`, the attachment of the driver to the incoming byte observable
that `enable()` and `disable()` (not in `src/`) switch on and off. -/
structure AshDriver (σ : Type) where
  enabled : Bool
  ackTimer : Option Nat
  ashCodec : σ
  serialWriteFunc : Bool
deriving DecidableEq, Repr

namespace AshDriver

/-- Modelled from the spec: `AshDriver::enable()`, attach to the incoming byte observable. -/
def enable {σ : Type} (self : AshDriver σ) : AshDriver σ := { self with enabled := true }

/-- Modelled from the spec: `AshDriver::disable()`, detach from the incoming byte observable. -/
def disable {σ : Type} (self : AshDriver σ) : AshDriver σ := { self with enabled := false }

/-- The method `AshDriver::sendAshFrame` (ash-driver.cpp 76-92). -/
def sendAshFrame {σ : Type} (env : Env σ) (self : AshDriver σ) (tr : List Event)
    (frame : List Nat) : Bool × List Event :=
  if !self.serialWriteFunc then (false, tr)
  else
    let r := env.serialWriteFunc (serialWrites tr) frame
    let tr := tr ++ [Event.serialWrite frame]
    if r.1 < 0 then (false, tr)
    else if frame.length ≠ r.2 then (false, tr)
    else (true, tr)

/-- The method `AshDriver::sendResetNCPFrame` (ash-driver.cpp 94-105). -/
def sendResetNCPFrame {σ : Type} (env : Env σ) (self : AshDriver σ) (tr : List Event) :
    Bool × AshDriver σ × List Event :=
  let tr := tr ++ [Event.sendResetNCPFrame]
  let self := { self with ackTimer := none }
  let tr := tr ++ [Event.timerStop]
  let forged := env.forgeResetNCPFrame self.ashCodec
  let self := { self with ashCodec := forged.2 }
  let sent := sendAshFrame env self tr forged.1
  if !sent.1 then (false, self, sent.2)
  else (true, { self with ackTimer := some T_ACK_ASH_RESET },
    sent.2 ++ [Event.timerStart T_ACK_ASH_RESET])

/-- The method `AshDriver::sendAckFrame` (ash-driver.cpp 107-109). -/
def sendAckFrame {σ : Type} (env : Env σ) (self : AshDriver σ) (tr : List Event) :
    Bool × AshDriver σ × List Event :=
  let tr := tr ++ [Event.sendAckFrame]
  let forged := env.forgeAckFrame self.ashCodec
  let self := { self with ashCodec := forged.2 }
  let sent := sendAshFrame env self tr forged.1
  (sent.1, self, sent.2)

/-- The method `AshDriver::sendDataFrame` (ash-driver.cpp 111-122). -/
def sendDataFrame {σ : Type} (env : Env σ) (self : AshDriver σ) (tr : List Event)
    (i_data : List Nat) : Bool × AshDriver σ × List Event :=
  let tr := tr ++ [Event.sendDataFrame i_data]
  let self := { self with ackTimer := none }
  let tr := tr ++ [Event.timerStop]
  let forged := env.forgeDataFrame i_data self.ashCodec
  let self := { self with ashCodec := forged.2 }
  let sent := sendAshFrame env self tr forged.1
  if !sent.1 then (false, self, sent.2)
  else (true, { self with ackTimer := some T_RX_ACK_INIT },
    sent.2 ++ [Event.timerStart T_RX_ACK_INIT])

end AshDriver

/-! ## `CEzspDongle` (ezsp-dongle.cpp) -/

/-- The two closures that `CEzspDongle::setMode` registers as prompt-detection callback:
the one of ezsp-dongle.cpp 245-253 and the one of ezsp-dongle.cpp 266-272. -/
inductive PromptDetectCallback where
  | exitToEzspNcp
  | firmwareUpgrade
deriving DecidableEq, Repr

/-- Modelled from the spec: the part of the bootloader prompt driver (not in `src/`) that the
dispatcher acts on: whether it is attached to the incoming byte observable, and which
prompt-detection callback is registered. -/
structure BootloaderPromptDriver where
  enabled : Bool
  promptDetectCallback : Option PromptDetectCallback
deriving DecidableEq, Repr

/-- An outgoing message record `SMsg`. -/
structure SMsg where
  i_cmd : Nat
  payload : List Nat
deriving DecidableEq, Repr

/-- The members of `CEzspDongle` that its methods read or write, and the trace of its calls to
collaborators. `uartHandle` tells whether a UART handle is set; `observers` is the `std::set`
of observers, listed in iteration order. -/
structure CEzspDongle (σ : Type) where
  firstStartup : Bool
  lastKnownMode : Mode
  switchToFirmwareUpgradeOnInitTimeout : Bool
  uartHandle : Bool
  ash : AshDriver σ
  blp : BootloaderPromptDriver
  sendingMsgQueue : List SMsg
  wait_rsp : Bool
  observers : List Nat
  trace : List Event
deriving DecidableEq, Repr

/-- A failed bounds check in `handleInputData`: `at(2)` on a buffer of fewer than three bytes,
or `erase(end()-2, end())` on a buffer of fewer than two bytes. -/
inductive Fault where
  | at_out_of_range
  | erase_out_of_range
deriving DecidableEq, Repr

namespace CEzspDongle

/-- The method `CEzspDongle::registerObserver` (ezsp-dongle.cpp 224-227): `std::set::emplace`. -/
def registerObserver {σ : Type} (self : CEzspDongle σ) (observer : Nat) : Bool × CEzspDongle σ :=
  if observer ∈ self.observers then (false, self)
  else (true, { self with observers := self.observers.orderedInsert (· ≤ ·) observer })

/-- The method `CEzspDongle::unregisterObserver` (ezsp-dongle.cpp 229-232). -/
def unregisterObserver {σ : Type} (self : CEzspDongle σ) (observer : Nat) : Bool × CEzspDongle σ :=
  (decide (observer ∈ self.observers), { self with observers := self.observers.erase observer })

/-- The constructor `CEzspDongle::CEzspDongle` (ezsp-dongle.cpp 14-35); `codec` is the state of
a freshly constructed `AshCodec`. -/
def ctor {σ : Type} (codec : σ) (ip_observer : Option Nat) : CEzspDongle σ :=
  let self : CEzspDongle σ :=
    { firstStartup := true
      lastKnownMode := Mode.UNKNOWN
      switchToFirmwareUpgradeOnInitTimeout := false
      uartHandle := false
      ash := { enabled := false, ackTimer := none, ashCodec := codec, serialWriteFunc := false }
      blp := { enabled := false, promptDetectCallback := none }
      sendingMsgQueue := []
      wait_rsp := false
      observers := []
      trace := [] }
  let self := match ip_observer with
    | some o => (registerObserver self o).2
    | none => self
  let self := { self with ash := self.ash.disable }
  let self := { self with blp := { self.blp with enabled := false } }
  self

/-- The method `CEzspDongle::setUart` (ezsp-dongle.cpp 43-52). -/
def setUart {σ : Type} (self : CEzspDongle σ) : CEzspDongle σ :=
  { self with uartHandle := true, ash := { self.ash with serialWriteFunc := true } }

/-- The method `CEzspDongle::forceFirmwareUpgradeOnInitTimeout` (ezsp-dongle.cpp 234-237). -/
def forceFirmwareUpgradeOnInitTimeout {σ : Type} (self : CEzspDongle σ) : CEzspDongle σ :=
  { self with switchToFirmwareUpgradeOnInitTimeout := true }

/-- The method `CEzspDongle::notifyObserversOfDongleState` (ezsp-dongle.cpp 281-285). -/
def notifyObserversOfDongleState {σ : Type} (self : CEzspDongle σ) (i_state : EDongleState) :
    CEzspDongle σ :=
  { self with trace := self.trace ++ self.observers.map (fun o => Event.handleDongleState o i_state) }

/-- The method `CEzspDongle::notifyObserversOfEzspRxMessage` (ezsp-dongle.cpp 287-291). -/
def notifyObserversOfEzspRxMessage {σ : Type} (self : CEzspDongle σ) (i_cmd : Nat)
    (i_message : List Nat) : CEzspDongle σ :=
  { self with
    trace := self.trace ++ self.observers.map (fun o => Event.handleEzspRxMessage o i_cmd i_message) }

/-- The method `CEzspDongle::notifyObserversOfBootloaderPrompt` (ezsp-dongle.cpp 293-297). -/
def notifyObserversOfBootloaderPrompt {σ : Type} (self : CEzspDongle σ) : CEzspDongle σ :=
  { self with trace := self.trace ++ self.observers.map (fun o => Event.handleBootloaderPrompt o) }

/-- The method `CEzspDongle::notifyObserversOfFirmwareXModemXfrReady` (ezsp-dongle.cpp 299-303). -/
def notifyObserversOfFirmwareXModemXfrReady {σ : Type} (self : CEzspDongle σ) : CEzspDongle σ :=
  { self with trace := self.trace ++ self.observers.map (fun o => Event.handleFirmwareXModemXfr o) }

/-- The method `CEzspDongle::reset` (ezsp-dongle.cpp 54-76). -/
def reset {σ : Type} (env : Env σ) (self : CEzspDongle σ) : Bool × CEzspDongle σ :=
  if !self.uartHandle then (false, self)
  else
    let self := { self with blp := { self.blp with enabled := false } }
    let self := { self with ash := self.ash.enable }
    let r := AshDriver.sendResetNCPFrame env self.ash self.trace
    let self := { self with ash := r.2.1, trace := r.2.2 }
    if !r.1 then (false, self) else (true, self)

/-- The call `this->ash.sendAckFrame()` made by the dispatcher; its result is discarded. -/
def ashSendAckFrame {σ : Type} (env : Env σ) (self : CEzspDongle σ) : CEzspDongle σ :=
  let r := AshDriver.sendAckFrame env self.ash self.trace
  { self with ash := r.2.1, trace := r.2.2 }

/-- The call `this->ash.sendDataFrame(li_data)` made by the dispatcher, with its result. -/
def ashSendDataFrame {σ : Type} (env : Env σ) (self : CEzspDongle σ) (li_data : List Nat) :
    Bool × CEzspDongle σ :=
  let r := AshDriver.sendDataFrame env self.ash self.trace li_data
  (r.1, { self with ash := r.2.1, trace := r.2.2 })

/-- The method `CEzspDongle::sendNextMsg` (ezsp-dongle.cpp 196-218). -/
def sendNextMsg {σ : Type} (env : Env σ) (self : CEzspDongle σ) : CEzspDongle σ :=
  if self.lastKnownMode ≠ Mode.EZSP_NCP ∧ self.lastKnownMode ≠ Mode.UNKNOWN then self
  else if !self.wait_rsp && !self.sendingMsgQueue.isEmpty then
    match self.sendingMsgQueue with
    | [] => self
    | l_msg :: _ =>
      let li_data := [l_msg.i_cmd % 256] ++ l_msg.payload
      let r := ashSendDataFrame env self li_data
      if r.1 then { r.2 with wait_rsp := true } else r.2
  else self

/-- The method `CEzspDongle::sendCommand` (ezsp-dongle.cpp 177-187). -/
def sendCommand {σ : Type} (env : Env σ) (self : CEzspDongle σ) (i_cmd : Nat)
    (i_cmd_payload : List Nat) : CEzspDongle σ :=
  let l_msg : SMsg := { i_cmd := i_cmd, payload := i_cmd_payload }
  let self := { self with sendingMsgQueue := self.sendingMsgQueue ++ [l_msg] }
  sendNextMsg env self

/-- The method `CEzspDongle::handleResponse` (ezsp-dongle.cpp 310-336). -/
def handleResponse {σ : Type} (env : Env σ) (self : CEzspDongle σ) (i_cmd : Nat) : CEzspDongle σ :=
  match self.sendingMsgQueue with
  | [] => self
  | l_msgQ :: rest =>
    if l_msgQ.i_cmd = i_cmd then
      let self := { self with sendingMsgQueue := rest }
      let self := { self with wait_rsp := false }
      sendNextMsg env self
    else self

/-- The method `CEzspDongle::handleInputData` (ezsp-dongle.cpp 139-175). -/
def handleInputData {σ : Type} (env : Env σ) (self : CEzspDongle σ) (dataIn : List Nat) :
    Except Fault (CEzspDongle σ) :=
  let li_data := dataIn
  if self.lastKnownMode = Mode.EZSP_NCP ∨ self.lastKnownMode = Mode.UNKNOWN then
    if !li_data.isEmpty then
      match li_data[2]? with
      | none => Except.error Fault.at_out_of_range
      | some l_cmd =>
        let li_data := li_data.drop 3
        if li_data.length < 2 then Except.error Fault.erase_out_of_range
        else
          let li_data := li_data.take (li_data.length - 2)
          let self :=
            if l_cmd ≠ env.EZSP_LAUNCH_STANDALONE_BOOTLOADER then
              let self := ashSendAckFrame env self
              handleResponse env self l_cmd
            else self
          Except.ok (notifyObserversOfEzspRxMessage self l_cmd li_data)
    else Except.ok self
  else Except.ok self

/-- The method `CEzspDongle::setMode` (ezsp-dongle.cpp 239-279). -/
def setMode {σ : Type} (self : CEzspDongle σ) (requestedMode : Mode) : CEzspDongle σ :=
  if self.lastKnownMode ≠ Mode.EZSP_NCP
      ∧ (requestedMode = Mode.EZSP_NCP ∨ requestedMode = Mode.BOOTLOADER_EXIT_TO_EZSP_NCP) then
    let self := { self with lastKnownMode := requestedMode }
    let self := { self with
      blp := { self.blp with promptDetectCallback := some PromptDetectCallback.exitToEzspNcp } }
    let self := { self with blp := { self.blp with enabled := true } }
    let self := { self with trace := self.trace ++ [Event.blpReset] }
    self
  else if (self.lastKnownMode = Mode.EZSP_NCP ∨ self.lastKnownMode = Mode.UNKNOWN)
      ∧ requestedMode = Mode.BOOTLOADER_FIRMWARE_UPGRADE then
    let self := { self with lastKnownMode := requestedMode }
    let self := { self with ash := self.ash.disable }
    let self := { self with blp := { self.blp with enabled := true } }
    let self := { self with
      blp := { self.blp with promptDetectCallback := some PromptDetectCallback.firmwareUpgrade } }
    let self := { self with trace := self.trace ++ [Event.blpReset] }
    self
  else self

/-- The bodies of the two prompt-detection closures of `setMode` (ezsp-dongle.cpp 245-253 and
266-272), run when the bootloader prompt driver invokes the registered callback. -/
def promptDetectCallback {σ : Type} (env : Env σ) (self : CEzspDongle σ) :
    PromptDetectCallback → CEzspDongle σ
  | PromptDetectCallback.exitToEzspNcp =>
    let self := notifyObserversOfBootloaderPrompt self
    let self := { self with trace := self.trace ++ [Event.blpSelectModeRun] }
    let self := { self with lastKnownMode := Mode.EZSP_NCP }
    let self := { self with ash := self.ash.enable }
    let self := { self with blp := { self.blp with enabled := false } }
    (reset env self).2
  | PromptDetectCallback.firmwareUpgrade =>
    let self := notifyObserversOfBootloaderPrompt self
    let self := { self with trace := self.trace ++ [Event.blpSelectModeUpgradeFw] }
    let self := { self with lastKnownMode := Mode.BOOTLOADER_FIRMWARE_UPGRADE }
    self

/-- The bootloader prompt driver detects a prompt: it invokes the registered callback, if any. -/
def promptDetected {σ : Type} (env : Env σ) (self : CEzspDongle σ) : CEzspDongle σ :=
  match self.blp.promptDetectCallback with
  | some cb => promptDetectCallback env self cb
  | none => self

/-- The method `CEzspDongle::ashCbInfo` (ezsp-dongle.cpp 97-137). -/
def ashCbInfo {σ : Type} (env : Env σ) (self : CEzspDongle σ) (info : EAshInfo) : CEzspDongle σ :=
  match info with
  | EAshInfo.ASH_STATE_CONNECTED =>
    let self := notifyObserversOfDongleState self EDongleState.DONGLE_READY
    { self with lastKnownMode := Mode.EZSP_NCP }
  | EAshInfo.ASH_STATE_DISCONNECTED =>
    notifyObserversOfDongleState self EDongleState.DONGLE_REMOVE
  | EAshInfo.ASH_NACK =>
    let self := { self with wait_rsp := false }
    sendNextMsg env self
  | EAshInfo.ASH_RESET_FAILED =>
    if self.firstStartup then
      let self :=
        if self.switchToFirmwareUpgradeOnInitTimeout then
          setMode self Mode.BOOTLOADER_FIRMWARE_UPGRADE
        else
          setMode self Mode.BOOTLOADER_EXIT_TO_EZSP_NCP
      { self with firstStartup := false }
    else
      notifyObserversOfDongleState self EDongleState.DONGLE_NOT_RESPONDING
  | EAshInfo.OTHER => self

end CEzspDongle

/-- The `(i_cmd, i_message)` arguments of the `handleEzspRxMessage` calls made to one observer,
in order. -/
def rxCallsTo (observer : Nat) (tr : List Event) : List (Nat × List Nat) :=
  tr.filterMap (fun e => match e with
    | .handleEzspRxMessage o c p => if o = observer then some (c, p) else none
    | _ => none)

/-- Exactly one of the two decoders (ASH driver, bootloader prompt driver) is enabled. -/
def exactlyOneDecoderEnabled {σ : Type} (s : CEzspDongle σ) : Bool :=
  xor s.ash.enabled s.blp.enabled

/-- The events the dispatcher reacts to: a `sendCommand` call, a decoded EZSP frame handed to
`handleInputData`, and an ASH notification handed to `ashCbInfo`. -/
inductive DongleEvent where
  | sendCommand (i_cmd : Nat) (i_cmd_payload : List Nat)
  | handleInputData (dataIn : List Nat)
  | ashCbInfo (info : EAshInfo)
deriving DecidableEq, Repr

/-- The dispatcher handles one event. -/
def CEzspDongle.step {σ : Type} (env : Env σ) (s : CEzspDongle σ) :
    DongleEvent → Except Fault (CEzspDongle σ)
  | DongleEvent.sendCommand c p => Except.ok (CEzspDongle.sendCommand env s c p)
  | DongleEvent.handleInputData f => CEzspDongle.handleInputData env s f
  | DongleEvent.ashCbInfo i => Except.ok (CEzspDongle.ashCbInfo env s i)

/-- The dispatcher handles a sequence of events, stopping at the first fault. -/
def CEzspDongle.run {σ : Type} (env : Env σ) :
    CEzspDongle σ → List DongleEvent → Except Fault (CEzspDongle σ)
  | s, [] => Except.ok s
  | s, e :: es =>
    match CEzspDongle.step env s e with
    | Except.ok s1 => CEzspDongle.run env s1 es
    | Except.error x => Except.error x

/-- A frame event is well formed when the frame is empty or has at least 5 bytes (3 header
bytes and 2 trailing bytes); the other events always are. -/
def DongleEvent.wellFormed : DongleEvent → Bool
  | DongleEvent.handleInputData f => f.isEmpty || decide (5 ≤ f.length)
  | _ => true

/-- The events that end the wait for a response in state `s`: an `ASH_NACK`, and a frame
received in mode `EZSP_NCP` or `UNKNOWN` whose cmdId is not `EZSP_LAUNCH_STANDALONE_BOOTLOADER`
and equals the cmdId of the head of the queue. -/
def CEzspDongle.endsWait {σ : Type} (env : Env σ) (s : CEzspDongle σ) : DongleEvent → Bool
  | DongleEvent.ashCbInfo EAshInfo.ASH_NACK => true
  | DongleEvent.handleInputData f =>
    decide (s.lastKnownMode = Mode.EZSP_NCP ∨ s.lastKnownMode = Mode.UNKNOWN)
    && (match s.sendingMsgQueue with
        | [] => false
        | m :: _ =>
          decide (5 ≤ f.length) && decide (f.getD 2 0 ≠ env.EZSP_LAUNCH_STANDALONE_BOOTLOADER)
          && decide (m.i_cmd = f.getD 2 0))
  | _ => false

/-- No event of the sequence ends the wait for a response in the state in which it is
handled. -/
def CEzspDongle.keepsWaiting {σ : Type} (env : Env σ) :
    CEzspDongle σ → List DongleEvent → Bool
  | _, [] => true
  | s, e :: es =>
    !CEzspDongle.endsWait env s e
    && (match CEzspDongle.step env s e with
        | Except.ok s1 => CEzspDongle.keepsWaiting env s1 es
        | Except.error _ => true)

/-- The `ms` arguments of the timer `start` calls recorded in a trace, in order. -/
def timerStartsOf (tr : List Event) : List Nat :=
  tr.filterMap (fun e => match e with | .timerStart ms => some ms | _ => none)

/-- The `i_state` arguments of the `handleDongleState` calls made to one observer, in order. -/
def stateCallsTo (observer : Nat) (tr : List Event) : List EDongleState :=
  tr.filterMap (fun e => match e with
    | .handleDongleState o st => if o = observer then some st else none
    | _ => none)

/-- The method `AshDriver::trigger` (ash-driver.cpp 51-60), run when the ACK timer fires.
`pCb` tells whether the callback pointer of the codec is set. The result is the notification
handed to `pCb->ashCbInfo`, if any, with the driver state and the trace, which the method
leaves as they are. -/
def AshDriver.trigger {σ : Type} (env : Env σ) (self : AshDriver σ) (tr : List Event)
    (pCb : Bool) : Option EAshInfo × AshDriver σ × List Event :=
  if !env.isInConnectedState self.ashCodec then
    if pCb then (some EAshInfo.ASH_RESET_FAILED, self, tr)
    else (none, self, tr)
  else (none, self, tr)

/-- The ACK timer of the dispatcher's ASH driver fires: `AshDriver::trigger` runs with the
dispatcher as callback (the constructor passes `this` to the driver, ezsp-dongle.cpp 22). -/
def CEzspDongle.ackTimerFired {σ : Type} (env : Env σ) (s : CEzspDongle σ) : CEzspDongle σ :=
  match (AshDriver.trigger env s.ash s.trace true).1 with
  | some info => CEzspDongle.ashCbInfo env s info
  | none => s

/-- The calls that reach the dispatcher: its public methods and the prompt-detection callback
it registers on the bootloader prompt driver. -/
inductive DongleCall where
  | registerObserver (observer : Nat)
  | unregisterObserver (observer : Nat)
  | setUart
  | reset
  | forceFirmwareUpgradeOnInitTimeout
  | sendCommand (i_cmd : Nat) (i_cmd_payload : List Nat)
  | handleInputData (dataIn : List Nat)
  | ashCbInfo (info : EAshInfo)
  | setMode (requestedMode : Mode)
  | promptDetected
deriving DecidableEq, Repr

/-- A `handleInputData` call is well formed when the frame is empty or has at least 5 bytes;
the other calls always are. -/
def DongleCall.wellFormed : DongleCall → Bool
  | DongleCall.handleInputData f => f.isEmpty || decide (5 ≤ f.length)
  | _ => true

/-- The dispatcher executes one call. -/
def CEzspDongle.call {σ : Type} (env : Env σ) (s : CEzspDongle σ) :
    DongleCall → Except Fault (CEzspDongle σ)
  | DongleCall.registerObserver o => Except.ok (CEzspDongle.registerObserver s o).2
  | DongleCall.unregisterObserver o => Except.ok (CEzspDongle.unregisterObserver s o).2
  | DongleCall.setUart => Except.ok (CEzspDongle.setUart s)
  | DongleCall.reset => Except.ok (CEzspDongle.reset env s).2
  | DongleCall.forceFirmwareUpgradeOnInitTimeout =>
    Except.ok (CEzspDongle.forceFirmwareUpgradeOnInitTimeout s)
  | DongleCall.sendCommand c p => Except.ok (CEzspDongle.sendCommand env s c p)
  | DongleCall.handleInputData f => CEzspDongle.handleInputData env s f
  | DongleCall.ashCbInfo i => Except.ok (CEzspDongle.ashCbInfo env s i)
  | DongleCall.setMode m => Except.ok (CEzspDongle.setMode s m)
  | DongleCall.promptDetected => Except.ok (CEzspDongle.promptDetected env s)

/-- The dispatcher executes a sequence of calls, stopping at the first fault. -/
def CEzspDongle.calls {σ : Type} (env : Env σ) :
    CEzspDongle σ → List DongleCall → Except Fault (CEzspDongle σ)
  | s, [] => Except.ok s
  | s, c :: cs =>
    match CEzspDongle.call env s c with
    | Except.ok s1 => CEzspDongle.calls env s1 cs
    | Except.error x => Except.error x

/-! ## Concrete environments and states used to evaluate the model -/

/-- An environment over a codec whose state is the number of DATA frames forged so far.
`EZSP_LAUNCH_STANDALONE_BOOTLOADER` is `0x8F`; a forged frame is a control byte, the payload
and the flag byte `0x7E`; the serial write functor returns `ret` and reports every byte of
the frame as written. -/
def Env.sample (ret : Int) : Env Nat :=
  { EZSP_LAUNCH_STANDALONE_BOOTLOADER := 0x8F
    forgeResetNCPFrame := fun _ => ([0x1A, 0xC0, 0x38, 0xBC, 0x7E], 0)
    forgeAckFrame := fun n => ([0x80 + n % 8, 0x7E], n)
    forgeDataFrame := fun d n => ((n % 8) :: d ++ [0x7E], n + 1)
    isInConnectedState := fun _ => true
    serialWriteFunc := fun _ frame => (ret, frame.length) }

/-- A dispatcher with observer `1`, a UART, mode `EZSP_NCP` after `ASH_STATE_CONNECTED`. -/
def CEzspDongle.sampleConnected : CEzspDongle Nat :=
  CEzspDongle.ashCbInfo (Env.sample 0)
    (CEzspDongle.setUart (CEzspDongle.ctor 0 (some 1))) EAshInfo.ASH_STATE_CONNECTED

/-- The environment `Env.sample ret` with a codec that is not in the connected state. -/
def Env.sampleDisconnected (ret : Int) : Env Nat :=
  { Env.sample ret with isInConnectedState := fun _ => false }

/-- A dispatcher with observer `1` and a UART, after `reset()`: mode `UNKNOWN`, the RST frame
written and the ACK timer running. -/
def CEzspDongle.sampleReset : CEzspDongle Nat :=
  (CEzspDongle.reset (Env.sample 0) (CEzspDongle.setUart (CEzspDongle.ctor 0 (some 1)))).2

/-! ## Theorems: APS option word -/

section APSOption

open CAPSOption

theorem and_bit_of_decide (b k : Nat) :
    ((decide (0 ≠ (b &&& 2^k))).toNat <<< k) &&& 2^k = b &&& 2^k := by
  have h := Nat.and_two_pow b k
  cases ht : b.testBit k
  · simp [ht] at h
    simp [h]
  · simp [ht] at h
    have hp : ¬ (0 = 2 ^ k) := (Nat.pos_of_ne_zero (by simp)).ne
    simp [h, Nat.shiftLeft_eq, hp]

theorem decide_and_bit (b k : Nat) : decide (0 ≠ (b &&& 2^k)) = b.testBit k := by
  have h := Nat.and_two_pow b k
  cases ht : b.testBit k
  · simp [ht] at h
    simp [h]
  · simp [ht] at h
    have hp : ¬ (0 = 2 ^ k) := (Nat.pos_of_ne_zero (by simp)).ne
    simp [h, hp]

theorem u16_and (b m : Nat) (hm : m < 65536) : u16 (b &&& m) = b &&& m :=
  Nat.mod_eq_of_lt (lt_of_le_of_lt Nat.and_le_right hm)

/-- C1 (counterexample): for the bitmap `0x0800` (only bit 11, `dest_ieee`),
`SetEmberApsOption` followed by `GetEmberApsOption` returns `0x0800`, which is not
`0x0800 & 0xD7E0 = 0`. -/
theorem aps_set_get_mask_D7E0_fails :
    GetEmberApsOption (SetEmberApsOption ctor 0x0800) ≠ 0x0800 &&& 0xD7E0 := by
  decide

/-- C1 (amended): for every bitmap `b` and every option object, calling `SetEmberApsOption(b)`
and then `GetEmberApsOption()` returns `b & 0xDF60`, the mask of bits 5, 6, 8, 9, 10, 11, 12, 14
and 15. -/
theorem aps_set_get_mask_DF60 (self : CAPSOption) (b : Nat) :
    GetEmberApsOption (SetEmberApsOption self b) = b &&& 0xDF60 := by
  have e5 : ((decide (0 ≠ (b &&& 0x0020))).toNat <<< 5) &&& 0x0020 = b &&& 0x0020 :=
    and_bit_of_decide b 5
  have e6 : ((decide (0 ≠ (b &&& 0x0040))).toNat <<< 6) &&& 0x0040 = b &&& 0x0040 :=
    and_bit_of_decide b 6
  have e8 : ((decide (0 ≠ (b &&& 0x0100))).toNat <<< 8) &&& 0x0100 = b &&& 0x0100 :=
    and_bit_of_decide b 8
  have e9 : ((decide (0 ≠ (b &&& 0x0200))).toNat <<< 9) &&& 0x0200 = b &&& 0x0200 :=
    and_bit_of_decide b 9
  have e10 : ((decide (0 ≠ (b &&& 0x0400))).toNat <<< 10) &&& 0x0400 = b &&& 0x0400 :=
    and_bit_of_decide b 10
  have e11 : ((decide (0 ≠ (b &&& 0x0800))).toNat <<< 11) &&& 0x0800 = b &&& 0x0800 :=
    and_bit_of_decide b 11
  have e12 : ((decide (0 ≠ (b &&& 0x1000))).toNat <<< 12) &&& 0x1000 = b &&& 0x1000 :=
    and_bit_of_decide b 12
  have e14 : ((decide (0 ≠ (b &&& 0x4000))).toNat <<< 14) &&& 0x4000 = b &&& 0x4000 :=
    and_bit_of_decide b 14
  have e15 : ((decide (0 ≠ (b &&& 0x8000))).toNat <<< 15) &&& 0x8000 = b &&& 0x8000 :=
    and_bit_of_decide b 15
  simp only [GetEmberApsOption, SetEmberApsOption]
  rw [e5, e6, e8, e9, e10, e11, e12, e14, e15]
  rw [u16_and b _ (by decide), ← Nat.and_or_distrib_left, u16_and b _ (by decide),
    ← Nat.and_or_distrib_left, u16_and b _ (by decide),
    ← Nat.and_or_distrib_left, u16_and b _ (by decide),
    ← Nat.and_or_distrib_left, u16_and b _ (by decide),
    ← Nat.and_or_distrib_left, u16_and b _ (by decide),
    ← Nat.and_or_distrib_left, u16_and b _ (by decide),
    ← Nat.and_or_distrib_left, u16_and b _ (by decide),
    ← Nat.and_or_distrib_left, u16_and b _ (by decide)]
  rfl

/-- C2: for every assignment `s` of the nine booleans and every option object `prev`,
`SetEmberApsOption` applied to `prev` with the word `GetEmberApsOption(s)` yields exactly `s`. -/
theorem aps_get_set_roundtrip (s prev : CAPSOption) :
    SetEmberApsOption prev (GetEmberApsOption s) = s := by
  obtain ⟨a1, a2, a3, a4, a5, a6, a7, a8, a9⟩ := s
  simp only [SetEmberApsOption]
  cases a1 <;> cases a2 <;> cases a3 <;> cases a4 <;> cases a5 <;> cases a6 <;> cases a7 <;>
    cases a8 <;> cases a9 <;> decide

theorem SetEmberApsOption_testBit (p : CAPSOption) (b : Nat) :
    SetEmberApsOption p b =
      { dest_ieee := b.testBit 11
        enable_addr_discovery := b.testBit 12
        enable_route_discovery := b.testBit 8
        encryption := b.testBit 5
        force_route_discovery := b.testBit 9
        fragment := b.testBit 15
        retry := b.testBit 6
        src_ieee := b.testBit 10
        zdo_rsp_requiered := b.testBit 14 } := by
  have e5 : decide (0 ≠ (b &&& 0x0020)) = b.testBit 5 := decide_and_bit b 5
  have e6 : decide (0 ≠ (b &&& 0x0040)) = b.testBit 6 := decide_and_bit b 6
  have e8 : decide (0 ≠ (b &&& 0x0100)) = b.testBit 8 := decide_and_bit b 8
  have e9 : decide (0 ≠ (b &&& 0x0200)) = b.testBit 9 := decide_and_bit b 9
  have e10 : decide (0 ≠ (b &&& 0x0400)) = b.testBit 10 := decide_and_bit b 10
  have e11 : decide (0 ≠ (b &&& 0x0800)) = b.testBit 11 := decide_and_bit b 11
  have e12 : decide (0 ≠ (b &&& 0x1000)) = b.testBit 12 := decide_and_bit b 12
  have e14 : decide (0 ≠ (b &&& 0x4000)) = b.testBit 14 := decide_and_bit b 14
  have e15 : decide (0 ≠ (b &&& 0x8000)) = b.testBit 15 := decide_and_bit b 15
  simp only [SetEmberApsOption]
  rw [e5, e6, e8, e9, e10, e11, e12, e14, e15]

theorem GetEmberApsOption_bits (o : CAPSOption) :
    (GetEmberApsOption o).testBit 5 = o.encryption
    ∧ (GetEmberApsOption o).testBit 6 = o.retry
    ∧ (GetEmberApsOption o).testBit 8 = o.enable_route_discovery
    ∧ (GetEmberApsOption o).testBit 9 = o.force_route_discovery
    ∧ (GetEmberApsOption o).testBit 10 = o.src_ieee
    ∧ (GetEmberApsOption o).testBit 11 = o.dest_ieee
    ∧ (GetEmberApsOption o).testBit 12 = o.enable_addr_discovery
    ∧ (GetEmberApsOption o).testBit 14 = o.zdo_rsp_requiered
    ∧ (GetEmberApsOption o).testBit 15 = o.fragment
    ∧ (GetEmberApsOption o).testBit 0 = false
    ∧ (GetEmberApsOption o).testBit 1 = false
    ∧ (GetEmberApsOption o).testBit 2 = false
    ∧ (GetEmberApsOption o).testBit 3 = false
    ∧ (GetEmberApsOption o).testBit 4 = false
    ∧ (GetEmberApsOption o).testBit 7 = false
    ∧ (GetEmberApsOption o).testBit 13 = false
    ∧ GetEmberApsOption o < 65536 := by
  obtain ⟨a1, a2, a3, a4, a5, a6, a7, a8, a9⟩ := o
  cases a1 <;> cases a2 <;> cases a3 <;> cases a4 <;> cases a5 <;> cases a6 <;> cases a7 <;>
    cases a8 <;> cases a9 <;> decide

/-- C3: bit layout of the APS option word. For every option value, bits 5, 6, 8, 9, 10, 11, 12,
14 and 15 of `GetEmberApsOption()` equal `encryption`, `retry`, `enable_route_discovery`,
`force_route_discovery`, `src_ieee`, `dest_ieee`, `enable_addr_discovery`, `zdo_rsp_requiered`
and `fragment`, bits 0-4, 7 and 13 are zero and the word fits in 16 bits. For every word `b`,
`SetEmberApsOption(b)` sets each flag to the value of its bit in `b`, and flipping any of the
bits 0-4, 7 and 13 of `b` (the bits of `x & 0x209F`) changes nothing. Only `retry`, `src_ieee` and
`enable_addr_discovery` true encodes to `0x1440`, and decoding `0x1440` gives exactly those
three flags. -/
theorem aps_bit_layout :
    (∀ o : CAPSOption,
      (GetEmberApsOption o).testBit 5 = o.encryption
      ∧ (GetEmberApsOption o).testBit 6 = o.retry
      ∧ (GetEmberApsOption o).testBit 8 = o.enable_route_discovery
      ∧ (GetEmberApsOption o).testBit 9 = o.force_route_discovery
      ∧ (GetEmberApsOption o).testBit 10 = o.src_ieee
      ∧ (GetEmberApsOption o).testBit 11 = o.dest_ieee
      ∧ (GetEmberApsOption o).testBit 12 = o.enable_addr_discovery
      ∧ (GetEmberApsOption o).testBit 14 = o.zdo_rsp_requiered
      ∧ (GetEmberApsOption o).testBit 15 = o.fragment
      ∧ (GetEmberApsOption o).testBit 0 = false
      ∧ (GetEmberApsOption o).testBit 1 = false
      ∧ (GetEmberApsOption o).testBit 2 = false
      ∧ (GetEmberApsOption o).testBit 3 = false
      ∧ (GetEmberApsOption o).testBit 4 = false
      ∧ (GetEmberApsOption o).testBit 7 = false
      ∧ (GetEmberApsOption o).testBit 13 = false
      ∧ GetEmberApsOption o < 65536)
    ∧ (∀ (p : CAPSOption) (b : Nat),
      (SetEmberApsOption p b).encryption = b.testBit 5
      ∧ (SetEmberApsOption p b).retry = b.testBit 6
      ∧ (SetEmberApsOption p b).enable_route_discovery = b.testBit 8
      ∧ (SetEmberApsOption p b).force_route_discovery = b.testBit 9
      ∧ (SetEmberApsOption p b).src_ieee = b.testBit 10
      ∧ (SetEmberApsOption p b).dest_ieee = b.testBit 11
      ∧ (SetEmberApsOption p b).enable_addr_discovery = b.testBit 12
      ∧ (SetEmberApsOption p b).zdo_rsp_requiered = b.testBit 14
      ∧ (SetEmberApsOption p b).fragment = b.testBit 15)
    ∧ (∀ (p : CAPSOption) (b x : Nat),
      SetEmberApsOption p (b ^^^ (x &&& 0x209F)) = SetEmberApsOption p b)
    ∧ GetEmberApsOption
        { dest_ieee := false, enable_addr_discovery := true, enable_route_discovery := false,
          encryption := false, force_route_discovery := false, fragment := false,
          retry := true, src_ieee := true, zdo_rsp_requiered := false } = 0x1440
    ∧ (∀ p : CAPSOption, SetEmberApsOption p 0x1440 =
        { dest_ieee := false, enable_addr_discovery := true, enable_route_discovery := false,
          encryption := false, force_route_discovery := false, fragment := false,
          retry := true, src_ieee := true, zdo_rsp_requiered := false }) := by
  refine ⟨GetEmberApsOption_bits, ?_, ?_, by decide, ?_⟩
  · intro p b
    rw [SetEmberApsOption_testBit]
    simp
  · intro p b x
    rw [SetEmberApsOption_testBit, SetEmberApsOption_testBit]
    have h : ∀ k, Nat.testBit 0x209F k = false → (b ^^^ (x &&& 0x209F)).testBit k = b.testBit k := by
      intro k hk
      rw [Nat.testBit_xor, Nat.testBit_and, hk]
      simp
    rw [h 5 (by decide), h 6 (by decide), h 8 (by decide), h 9 (by decide), h 10 (by decide),
      h 11 (by decide), h 12 (by decide), h 14 (by decide), h 15 (by decide)]
  · intro p
    rw [SetEmberApsOption_testBit]
    decide

end APSOption

/-! ## Lemmas: the driver calls of the dispatcher -/

section DriverCalls

variable {σ : Type}

open CEzspDongle

theorem sendAshFrame_trace (env : Env σ) (d : AshDriver σ) (tr : List Event) (frame : List Nat) :
    (AshDriver.sendAshFrame env d tr frame).2 =
      tr ++ (if d.serialWriteFunc then [Event.serialWrite frame] else []) := by
  unfold AshDriver.sendAshFrame
  cases d.serialWriteFunc
  · simp
  · simp only [Bool.not_true, Bool.false_eq_true, if_false, if_true]
    split_ifs <;> rfl

theorem ashSendAckFrame_trace (env : Env σ) (s : CEzspDongle σ) :
    (ashSendAckFrame env s).trace =
      s.trace ++ Event.sendAckFrame ::
        (if s.ash.serialWriteFunc then
          [Event.serialWrite (env.forgeAckFrame s.ash.ashCodec).1] else []) := by
  simp [ashSendAckFrame, AshDriver.sendAckFrame, sendAshFrame_trace]

theorem ashSendDataFrame_trace (env : Env σ) (s : CEzspDongle σ) (d : List Nat) :
    (ashSendDataFrame env s d).2.trace =
      s.trace ++ Event.sendDataFrame d :: Event.timerStop ::
        ((if s.ash.serialWriteFunc then
          [Event.serialWrite (env.forgeDataFrame d s.ash.ashCodec).1] else [])
         ++ (if (ashSendDataFrame env s d).1 then [Event.timerStart T_RX_ACK_INIT] else [])) := by
  simp only [ashSendDataFrame, AshDriver.sendDataFrame]
  split <;> simp_all [sendAshFrame_trace]

end DriverCalls

/-! ## Lemmas: the send and receive pipelines -/

section Pipelines

variable {σ : Type}

open CEzspDongle

theorem sendNextMsg_blocked (env : Env σ) (s : CEzspDongle σ)
    (h : (s.lastKnownMode ≠ Mode.EZSP_NCP ∧ s.lastKnownMode ≠ Mode.UNKNOWN)
      ∨ s.wait_rsp = true ∨ s.sendingMsgQueue = []) :
    sendNextMsg env s = s := by
  unfold sendNextMsg
  rcases h with h | h | h
  · rw [if_pos h]
  · split_ifs with h1 h2
    · rfl
    · simp [h] at h2
    · rfl
  · split_ifs with h1 h2
    · rfl
    · simp [h] at h2
    · rfl

theorem sendNextMsg_send (env : Env σ) (s : CEzspDongle σ) (m : SMsg) (rest : List SMsg)
    (hm : s.lastKnownMode = Mode.EZSP_NCP ∨ s.lastKnownMode = Mode.UNKNOWN)
    (hw : s.wait_rsp = false) (hq : s.sendingMsgQueue = m :: rest) :
    sendNextMsg env s =
      if (ashSendDataFrame env s ([m.i_cmd % 256] ++ m.payload)).1
      then { (ashSendDataFrame env s ([m.i_cmd % 256] ++ m.payload)).2 with wait_rsp := true }
      else (ashSendDataFrame env s ([m.i_cmd % 256] ++ m.payload)).2 := by
  unfold sendNextMsg
  have h1 : ¬ (s.lastKnownMode ≠ Mode.EZSP_NCP ∧ s.lastKnownMode ≠ Mode.UNKNOWN) := by
    rcases hm with hm | hm <;> simp [hm]
  rw [if_neg h1]
  simp [hw, hq]

theorem sendNextMsg_cases (env : Env σ) (s : CEzspDongle σ) :
    sendNextMsg env s = s ∨
    ∃ m rest, (s.lastKnownMode = Mode.EZSP_NCP ∨ s.lastKnownMode = Mode.UNKNOWN)
      ∧ s.wait_rsp = false ∧ s.sendingMsgQueue = m :: rest
      ∧ sendNextMsg env s =
        if (ashSendDataFrame env s ([m.i_cmd % 256] ++ m.payload)).1
        then { (ashSendDataFrame env s ([m.i_cmd % 256] ++ m.payload)).2 with wait_rsp := true }
        else (ashSendDataFrame env s ([m.i_cmd % 256] ++ m.payload)).2 := by
  by_cases hm : s.lastKnownMode = Mode.EZSP_NCP ∨ s.lastKnownMode = Mode.UNKNOWN
  · cases hw : s.wait_rsp
    · cases hq : s.sendingMsgQueue with
      | nil => exact Or.inl (sendNextMsg_blocked env s (Or.inr (Or.inr hq)))
      | cons m rest => exact Or.inr ⟨m, rest, hm, rfl, rfl, sendNextMsg_send env s m rest hm hw hq⟩
    · exact Or.inl (sendNextMsg_blocked env s (Or.inr (Or.inl hw)))
  · refine Or.inl (sendNextMsg_blocked env s (Or.inl ?_))
    constructor
    · intro h
      exact hm (Or.inl h)
    · intro h
      exact hm (Or.inr h)

theorem sendNextMsg_queue (env : Env σ) (s : CEzspDongle σ) :
    (sendNextMsg env s).sendingMsgQueue = s.sendingMsgQueue := by
  rcases sendNextMsg_cases env s with h | ⟨m, rest, _, _, _, h⟩
  · rw [h]
  · rw [h]
    split_ifs <;> rfl

theorem sendNextMsg_mode (env : Env σ) (s : CEzspDongle σ) :
    (sendNextMsg env s).lastKnownMode = s.lastKnownMode := by
  rcases sendNextMsg_cases env s with h | ⟨m, rest, _, _, _, h⟩
  · rw [h]
  · rw [h]
    split_ifs <;> rfl

theorem sendNextMsg_observers (env : Env σ) (s : CEzspDongle σ) :
    (sendNextMsg env s).observers = s.observers := by
  rcases sendNextMsg_cases env s with h | ⟨m, rest, _, _, _, h⟩
  · rw [h]
  · rw [h]
    split_ifs <;> rfl

theorem handleResponse_match (env : Env σ) (s : CEzspDongle σ) (m : SMsg) (rest : List SMsg)
    (hq : s.sendingMsgQueue = m :: rest) :
    handleResponse env s m.i_cmd =
      sendNextMsg env { s with sendingMsgQueue := rest, wait_rsp := false } := by
  unfold handleResponse
  rw [hq]
  simp

theorem handleResponse_async (env : Env σ) (s : CEzspDongle σ) (c : Nat)
    (hq : s.sendingMsgQueue = [] ∨ ∃ m rest, s.sendingMsgQueue = m :: rest ∧ m.i_cmd ≠ c) :
    handleResponse env s c = s := by
  unfold handleResponse
  rcases hq with hq | ⟨m, rest, hq, hne⟩
  · rw [hq]
  · rw [hq]
    simp [hne]

theorem handleInputData_discard (env : Env σ) (s : CEzspDongle σ) (f : List Nat)
    (hm : s.lastKnownMode ≠ Mode.EZSP_NCP ∧ s.lastKnownMode ≠ Mode.UNKNOWN) :
    handleInputData env s f = Except.ok s := by
  unfold handleInputData
  have h : ¬ (s.lastKnownMode = Mode.EZSP_NCP ∨ s.lastKnownMode = Mode.UNKNOWN) := by
    rintro (h | h)
    · exact hm.1 h
    · exact hm.2 h
  simp only [if_neg h]

theorem handleInputData_accept (env : Env σ) (s : CEzspDongle σ) (f : List Nat)
    (hm : s.lastKnownMode = Mode.EZSP_NCP ∨ s.lastKnownMode = Mode.UNKNOWN)
    (hf : 5 ≤ f.length) :
    handleInputData env s f =
      Except.ok (notifyObserversOfEzspRxMessage
        (if f.getD 2 0 ≠ env.EZSP_LAUNCH_STANDALONE_BOOTLOADER
         then handleResponse env (ashSendAckFrame env s) (f.getD 2 0) else s)
        (f.getD 2 0) ((f.drop 3).take (f.length - 5))) := by
  match f, hf with
  | a :: b :: c :: d :: e :: t, _ =>
    unfold handleInputData
    simp only [if_pos hm]
    simp

end Pipelines

/-! ## Theorems: response correlation (receive pipeline) -/

section Receive

variable {σ : Type}

open CEzspDongle

/-- C4 (counterexample): in mode `EZSP_NCP` with `EZSP_LAUNCH_STANDALONE_BOOTLOADER` (`0x8F`)
at the head of the queue, the received frame `[0x00, 0x80, 0x8F, 0x00, 0x00]` has the head's
cmdId at index 2, and `handleInputData` returns with the head still in the queue. -/
theorem handleInputData_launch_head_not_popped :
    (sendCommand (Env.sample 0) sampleConnected 0x8F []).lastKnownMode = Mode.EZSP_NCP
    ∧ (sendCommand (Env.sample 0) sampleConnected 0x8F []).sendingMsgQueue = [⟨0x8F, []⟩]
    ∧ [0x00, 0x80, 0x8F, 0x00, 0x00].getD 2 0 = 0x8F
    ∧ ∃ s', handleInputData (Env.sample 0) (sendCommand (Env.sample 0) sampleConnected 0x8F [])
          [0x00, 0x80, 0x8F, 0x00, 0x00] = Except.ok s'
        ∧ s'.sendingMsgQueue = [⟨0x8F, []⟩] :=
  ⟨rfl, rfl, rfl, _, rfl, rfl⟩

/-- C4 (amended): for every dispatcher state with a non-empty outgoing queue `m :: rest` and
every decoded EZSP frame `f` of at least 5 bytes, `handleInputData` returns, and the head of
the queue is popped (the queue becomes `rest`) if and only if the mode is `EZSP_NCP` or
`UNKNOWN`, the frame's cmdId (byte index 2) is not `EZSP_LAUNCH_STANDALONE_BOOTLOADER`, and
it equals the head's cmdId; otherwise the queue is unchanged. -/
theorem handleInputData_pop_iff (env : Env σ) (s : CEzspDongle σ) (m : SMsg) (rest : List SMsg)
    (f : List Nat) (hq : s.sendingMsgQueue = m :: rest) (hf : 5 ≤ f.length) :
    ∃ s', handleInputData env s f = Except.ok s'
      ∧ (s'.sendingMsgQueue = rest ↔
          ((s.lastKnownMode = Mode.EZSP_NCP ∨ s.lastKnownMode = Mode.UNKNOWN)
            ∧ f.getD 2 0 ≠ env.EZSP_LAUNCH_STANDALONE_BOOTLOADER
            ∧ f.getD 2 0 = m.i_cmd))
      ∧ (s'.sendingMsgQueue = rest ∨ s'.sendingMsgQueue = m :: rest) := by
  have hne : ¬ (m :: rest = rest) := by
    intro h
    have := congrArg List.length h
    simp at this
  by_cases hm : s.lastKnownMode = Mode.EZSP_NCP ∨ s.lastKnownMode = Mode.UNKNOWN
  · rw [handleInputData_accept env s f hm hf]
    refine ⟨_, rfl, ?_⟩
    by_cases hl : f.getD 2 0 = env.EZSP_LAUNCH_STANDALONE_BOOTLOADER
    · have e : (notifyObserversOfEzspRxMessage
          (if f.getD 2 0 ≠ env.EZSP_LAUNCH_STANDALONE_BOOTLOADER
            then handleResponse env (ashSendAckFrame env s) (f.getD 2 0) else s)
          (f.getD 2 0) ((f.drop 3).take (f.length - 5))).sendingMsgQueue = m :: rest := by
        rw [if_neg (not_not.mpr hl)]
        exact hq
      rw [e]
      exact ⟨⟨fun h => absurd h hne, fun h => absurd hl h.2.1⟩, Or.inr rfl⟩
    · by_cases hc : f.getD 2 0 = m.i_cmd
      · have e : (notifyObserversOfEzspRxMessage
            (if f.getD 2 0 ≠ env.EZSP_LAUNCH_STANDALONE_BOOTLOADER
              then handleResponse env (ashSendAckFrame env s) (f.getD 2 0) else s)
            (f.getD 2 0) ((f.drop 3).take (f.length - 5))).sendingMsgQueue = rest := by
          rw [if_pos hl, hc, handleResponse_match env (ashSendAckFrame env s) m rest hq]
          exact sendNextMsg_queue env _
        rw [e]
        exact ⟨⟨fun _ => ⟨hm, hl, hc⟩, fun _ => rfl⟩, Or.inl rfl⟩
      · have e : (notifyObserversOfEzspRxMessage
            (if f.getD 2 0 ≠ env.EZSP_LAUNCH_STANDALONE_BOOTLOADER
              then handleResponse env (ashSendAckFrame env s) (f.getD 2 0) else s)
            (f.getD 2 0) ((f.drop 3).take (f.length - 5))).sendingMsgQueue = m :: rest := by
          rw [if_pos hl, handleResponse_async env (ashSendAckFrame env s) (f.getD 2 0)
            (Or.inr ⟨m, rest, hq, fun h => hc h.symm⟩)]
          exact hq
        rw [e]
        exact ⟨⟨fun h => absurd h hne, fun h => absurd h.2.2 hc⟩, Or.inr rfl⟩
  · have hm2 : s.lastKnownMode ≠ Mode.EZSP_NCP ∧ s.lastKnownMode ≠ Mode.UNKNOWN :=
      ⟨fun h => hm (Or.inl h), fun h => hm (Or.inr h)⟩
    rw [handleInputData_discard env s f hm2]
    refine ⟨_, rfl, ?_⟩
    rw [hq]
    exact ⟨⟨fun h => absurd h hne, fun h => absurd h.1 hm⟩, Or.inr rfl⟩

/-- Witness of `handleInputData_pop_iff`: `EZSP_VERSION` (`0x00`) at the head of the queue in
mode `EZSP_NCP` and the frame `[0x00, 0x80, 0x00, 0x01, 0x02, 0x03, 0x04]`. -/
theorem handleInputData_pop_iff_witness :
    ∃ s', handleInputData (Env.sample 0) (sendCommand (Env.sample 0) sampleConnected 0x00 [0x08])
          [0x00, 0x80, 0x00, 0x01, 0x02, 0x03, 0x04] = Except.ok s'
      ∧ (s'.sendingMsgQueue = [] ↔
          (((sendCommand (Env.sample 0) sampleConnected 0x00 [0x08]).lastKnownMode = Mode.EZSP_NCP
              ∨ (sendCommand (Env.sample 0) sampleConnected 0x00 [0x08]).lastKnownMode
                = Mode.UNKNOWN)
            ∧ [0x00, 0x80, 0x00, 0x01, 0x02, 0x03, 0x04].getD 2 0
                ≠ (Env.sample 0).EZSP_LAUNCH_STANDALONE_BOOTLOADER
            ∧ [0x00, 0x80, 0x00, 0x01, 0x02, 0x03, 0x04].getD 2 0 = (⟨0x00, [0x08]⟩ : SMsg).i_cmd))
      ∧ (s'.sendingMsgQueue = [] ∨ s'.sendingMsgQueue = [⟨0x00, [0x08]⟩]) :=
  handleInputData_pop_iff (Env.sample 0) (sendCommand (Env.sample 0) sampleConnected 0x00 [0x08])
    ⟨0x00, [0x08]⟩ [] [0x00, 0x80, 0x00, 0x01, 0x02, 0x03, 0x04] rfl (by decide)

end Receive

/-! ## Theorems: the adapter-mode machine and the two decoders -/

section Decoders

variable {σ : Type}

open CEzspDongle

theorem ashSendDataFrame_enabled (env : Env σ) (s : CEzspDongle σ) (d : List Nat) :
    (ashSendDataFrame env s d).2.ash.enabled = s.ash.enabled
    ∧ (ashSendDataFrame env s d).2.blp = s.blp := by
  unfold ashSendDataFrame AshDriver.sendDataFrame
  dsimp only
  split_ifs <;> exact ⟨rfl, rfl⟩

theorem sendNextMsg_enabled (env : Env σ) (s : CEzspDongle σ) :
    (sendNextMsg env s).ash.enabled = s.ash.enabled ∧ (sendNextMsg env s).blp = s.blp := by
  rcases sendNextMsg_cases env s with h | ⟨m, rest, _, _, _, h⟩
  · rw [h]
    exact ⟨rfl, rfl⟩
  · rw [h]
    split_ifs <;> exact ashSendDataFrame_enabled env s _

theorem reset_enabled (env : Env σ) (s : CEzspDongle σ) (hu : s.uartHandle = true) :
    (reset env s).2.ash.enabled = true ∧ (reset env s).2.blp.enabled = false := by
  unfold reset
  rw [hu]
  unfold AshDriver.sendResetNCPFrame AshDriver.enable
  dsimp only
  simp only [Bool.not_true, Bool.false_eq_true, if_false]
  split_ifs <;> exact ⟨rfl, rfl⟩

/-- C5 (counterexample): the constructed dispatcher, and the dispatcher after `reset()` called
before any UART is set, have neither decoder enabled. -/
theorem ctor_no_decoder_enabled :
    exactlyOneDecoderEnabled (ctor (0 : Nat) (some 1)) = false
    ∧ (ctor (0 : Nat) (some 1)).ash.enabled = false
    ∧ (ctor (0 : Nat) (some 1)).blp.enabled = false
    ∧ exactlyOneDecoderEnabled (reset (Env.sample 0) (ctor (0 : Nat) (some 1))).2 = false := by
  decide

/-- After `setUart`, `reset()` and a first `ASH_RESET_FAILED`, the request for
`BOOTLOADER_EXIT_TO_EZSP_NCP` taken by `setMode` (ezsp-dongle.cpp 240-257) enables the
bootloader prompt driver without disabling the ASH driver: both decoders are enabled. -/
theorem setMode_exit_keeps_ash_enabled :
    (ashCbInfo (Env.sample 0) (reset (Env.sample 0) (setUart (ctor (0 : Nat) (some 1)))).2
        EAshInfo.ASH_RESET_FAILED).lastKnownMode = Mode.BOOTLOADER_EXIT_TO_EZSP_NCP
    ∧ (ashCbInfo (Env.sample 0) (reset (Env.sample 0) (setUart (ctor (0 : Nat) (some 1)))).2
        EAshInfo.ASH_RESET_FAILED).ash.enabled = true
    ∧ (ashCbInfo (Env.sample 0) (reset (Env.sample 0) (setUart (ctor (0 : Nat) (some 1)))).2
        EAshInfo.ASH_RESET_FAILED).blp.enabled = true := by
  decide

/-- C5 (amended): the constructed dispatcher has neither decoder enabled, and `reset()`
without a UART changes nothing. `reset()` with a UART, and the prompt-detection callback
installed for the exit to EZSP/NCP, leave exactly the ASH driver enabled. An accepted
`setMode(BOOTLOADER_FIRMWARE_UPGRADE)` (mode `EZSP_NCP` or `UNKNOWN`) leaves exactly the
bootloader prompt driver enabled. The prompt-detection callback installed for the firmware
upgrade, and every ASH notification other than `ASH_RESET_FAILED`, leave both enable flags as
they were. -/
theorem decoder_enable_flags (env : Env σ) :
    (∀ (codec : σ) (obs : Option Nat),
        (ctor codec obs).ash.enabled = false ∧ (ctor codec obs).blp.enabled = false)
    ∧ (∀ s : CEzspDongle σ, s.uartHandle = false → (reset env s).2 = s)
    ∧ (∀ s : CEzspDongle σ, s.uartHandle = true →
        (reset env s).2.ash.enabled = true ∧ (reset env s).2.blp.enabled = false
        ∧ exactlyOneDecoderEnabled (reset env s).2 = true)
    ∧ (∀ s : CEzspDongle σ,
        (promptDetectCallback env s PromptDetectCallback.exitToEzspNcp).ash.enabled = true
        ∧ (promptDetectCallback env s PromptDetectCallback.exitToEzspNcp).blp.enabled = false
        ∧ exactlyOneDecoderEnabled
            (promptDetectCallback env s PromptDetectCallback.exitToEzspNcp) = true)
    ∧ (∀ s : CEzspDongle σ,
        s.lastKnownMode = Mode.EZSP_NCP ∨ s.lastKnownMode = Mode.UNKNOWN →
        (setMode s Mode.BOOTLOADER_FIRMWARE_UPGRADE).ash.enabled = false
        ∧ (setMode s Mode.BOOTLOADER_FIRMWARE_UPGRADE).blp.enabled = true
        ∧ exactlyOneDecoderEnabled (setMode s Mode.BOOTLOADER_FIRMWARE_UPGRADE) = true)
    ∧ (∀ s : CEzspDongle σ,
        (promptDetectCallback env s PromptDetectCallback.firmwareUpgrade).ash.enabled
          = s.ash.enabled
        ∧ (promptDetectCallback env s PromptDetectCallback.firmwareUpgrade).blp.enabled
          = s.blp.enabled)
    ∧ (∀ (s : CEzspDongle σ) (info : EAshInfo), info ≠ EAshInfo.ASH_RESET_FAILED →
        (ashCbInfo env s info).ash.enabled = s.ash.enabled
        ∧ (ashCbInfo env s info).blp.enabled = s.blp.enabled) := by
  refine ⟨?_, ?_, ?_, ?_, ?_, ?_, ?_⟩
  · intro codec obs
    cases obs <;> exact ⟨rfl, rfl⟩
  · intro s hu
    unfold reset
    rw [hu]
    rfl
  · intro s hu
    have h := reset_enabled env s hu
    refine ⟨h.1, h.2, ?_⟩
    simp [exactlyOneDecoderEnabled, h.1, h.2]
  · intro s
    have h : (promptDetectCallback env s PromptDetectCallback.exitToEzspNcp).ash.enabled = true
        ∧ (promptDetectCallback env s PromptDetectCallback.exitToEzspNcp).blp.enabled = false := by
      cases hu : s.uartHandle
      · unfold promptDetectCallback reset notifyObserversOfBootloaderPrompt
        dsimp only
        rw [hu]
        exact ⟨rfl, rfl⟩
      · unfold promptDetectCallback
        exact reset_enabled env _ hu
    refine ⟨h.1, h.2, ?_⟩
    simp [exactlyOneDecoderEnabled, h.1, h.2]
  · intro s hm
    have h : (setMode s Mode.BOOTLOADER_FIRMWARE_UPGRADE).ash.enabled = false
        ∧ (setMode s Mode.BOOTLOADER_FIRMWARE_UPGRADE).blp.enabled = true := by
      unfold setMode
      rcases hm with hm | hm <;> simp [hm, AshDriver.disable]
    refine ⟨h.1, h.2, ?_⟩
    simp [exactlyOneDecoderEnabled, h.1, h.2]
  · intro s
    exact ⟨rfl, rfl⟩
  · intro s info hi
    cases info with
    | ASH_RESET_FAILED => exact absurd rfl hi
    | ASH_NACK =>
      have h := sendNextMsg_enabled env { s with wait_rsp := false }
      exact ⟨h.1, congrArg BootloaderPromptDriver.enabled h.2⟩
    | ASH_STATE_CONNECTED => exact ⟨rfl, rfl⟩
    | ASH_STATE_DISCONNECTED => exact ⟨rfl, rfl⟩
    | OTHER => exact ⟨rfl, rfl⟩

/-- Witness of `decoder_enable_flags`: `reset()` on a constructed dispatcher with a UART, and
`setMode(BOOTLOADER_FIRMWARE_UPGRADE)` and `ASH_NACK` on a connected dispatcher. -/
theorem decoder_enable_flags_witness :
    ((reset (Env.sample 0) (setUart (ctor (0 : Nat) (some 1)))).2.ash.enabled = true
      ∧ (reset (Env.sample 0) (setUart (ctor (0 : Nat) (some 1)))).2.blp.enabled = false
      ∧ exactlyOneDecoderEnabled (reset (Env.sample 0) (setUart (ctor (0 : Nat) (some 1)))).2
        = true)
    ∧ ((setMode sampleConnected Mode.BOOTLOADER_FIRMWARE_UPGRADE).ash.enabled = false
      ∧ (setMode sampleConnected Mode.BOOTLOADER_FIRMWARE_UPGRADE).blp.enabled = true
      ∧ exactlyOneDecoderEnabled (setMode sampleConnected Mode.BOOTLOADER_FIRMWARE_UPGRADE)
        = true)
    ∧ ((ashCbInfo (Env.sample 0) sampleConnected EAshInfo.ASH_NACK).ash.enabled
        = sampleConnected.ash.enabled
      ∧ (ashCbInfo (Env.sample 0) sampleConnected EAshInfo.ASH_NACK).blp.enabled
        = sampleConnected.blp.enabled) :=
  ⟨(decoder_enable_flags (Env.sample 0)).2.2.1 (setUart (ctor (0 : Nat) (some 1))) rfl,
   (decoder_enable_flags (Env.sample 0)).2.2.2.2.1 sampleConnected (Or.inl rfl),
   (decoder_enable_flags (Env.sample 0)).2.2.2.2.2.2 sampleConnected EAshInfo.ASH_NACK
     (by decide)⟩

end Decoders

/-! ## Lemmas: projections of the trace -/

section TraceProjections

variable {σ : Type}

open CEzspDongle

theorem dataFramesOf_append (a b : List Event) :
    dataFramesOf (a ++ b) = dataFramesOf a ++ dataFramesOf b := by
  simp [dataFramesOf]

theorem dataFramesOf_map_rx (l : List Nat) (c : Nat) (p : List Nat) :
    dataFramesOf (l.map (fun o => Event.handleEzspRxMessage o c p)) = [] := by
  induction l with
  | nil => rfl
  | cons o l _ => simp [dataFramesOf]

theorem dataFramesOf_map_state (l : List Nat) (st : EDongleState) :
    dataFramesOf (l.map (fun o => Event.handleDongleState o st)) = [] := by
  induction l with
  | nil => rfl
  | cons o l _ => simp [dataFramesOf]

theorem rxMessagesOf_append (a b : List Event) :
    rxMessagesOf (a ++ b) = rxMessagesOf a ++ rxMessagesOf b := by
  simp [rxMessagesOf]

theorem rxMessagesOf_map_rx (l : List Nat) (c : Nat) (p : List Nat) :
    rxMessagesOf (l.map (fun o => Event.handleEzspRxMessage o c p))
      = l.map (fun o => Event.handleEzspRxMessage o c p) := by
  induction l with
  | nil => rfl
  | cons o l _ => simp [rxMessagesOf]

theorem ashSendAckFrame_dataFrames (env : Env σ) (s : CEzspDongle σ) :
    dataFramesOf (ashSendAckFrame env s).trace = dataFramesOf s.trace := by
  rw [ashSendAckFrame_trace, dataFramesOf_append]
  split_ifs <;> simp [dataFramesOf]

theorem ashSendAckFrame_rxMessages (env : Env σ) (s : CEzspDongle σ) :
    rxMessagesOf (ashSendAckFrame env s).trace = rxMessagesOf s.trace := by
  rw [ashSendAckFrame_trace, rxMessagesOf_append]
  split_ifs <;> simp [rxMessagesOf]

theorem ashSendDataFrame_dataFrames (env : Env σ) (s : CEzspDongle σ) (d : List Nat) :
    dataFramesOf (ashSendDataFrame env s d).2.trace = dataFramesOf s.trace ++ [d] := by
  rw [ashSendDataFrame_trace, dataFramesOf_append]
  split_ifs <;> simp [dataFramesOf]

theorem ashSendDataFrame_rxMessages (env : Env σ) (s : CEzspDongle σ) (d : List Nat) :
    rxMessagesOf (ashSendDataFrame env s d).2.trace = rxMessagesOf s.trace := by
  rw [ashSendDataFrame_trace, rxMessagesOf_append]
  split_ifs <;> simp [rxMessagesOf]

theorem sendNextMsg_rxMessages (env : Env σ) (s : CEzspDongle σ) :
    rxMessagesOf (sendNextMsg env s).trace = rxMessagesOf s.trace := by
  rcases sendNextMsg_cases env s with h | ⟨m, rest, _, _, _, h⟩
  · rw [h]
  · rw [h]
    split_ifs <;> exact ashSendDataFrame_rxMessages env s _

theorem setMode_wait_dataFrames (s : CEzspDongle σ) (r : Mode) :
    (setMode s r).wait_rsp = s.wait_rsp
    ∧ dataFramesOf (setMode s r).trace = dataFramesOf s.trace := by
  unfold setMode
  split_ifs
  · exact ⟨rfl, by simp [dataFramesOf]⟩
  · exact ⟨rfl, by simp [dataFramesOf]⟩
  · exact ⟨rfl, rfl⟩

end TraceProjections

/-! ## Theorems: one DATA frame in flight -/

section Flow

variable {σ : Type}

open CEzspDongle

theorem sendCommand_waiting (env : Env σ) (s : CEzspDongle σ) (c : Nat) (p : List Nat)
    (hw : s.wait_rsp = true) :
    sendCommand env s c p = { s with sendingMsgQueue := s.sendingMsgQueue ++ [⟨c, p⟩] } := by
  unfold sendCommand
  exact sendNextMsg_blocked env _ (Or.inr (Or.inl hw))

theorem ashCbInfo_waiting (env : Env σ) (s : CEzspDongle σ) (i : EAshInfo)
    (hi : i ≠ EAshInfo.ASH_NACK) :
    (ashCbInfo env s i).wait_rsp = s.wait_rsp
    ∧ dataFramesOf (ashCbInfo env s i).trace = dataFramesOf s.trace := by
  cases i with
  | ASH_NACK => exact absurd rfl hi
  | ASH_STATE_CONNECTED =>
    refine ⟨rfl, ?_⟩
    show dataFramesOf (s.trace ++ _) = _
    rw [dataFramesOf_append, dataFramesOf_map_state, List.append_nil]
  | ASH_STATE_DISCONNECTED =>
    refine ⟨rfl, ?_⟩
    show dataFramesOf (s.trace ++ _) = _
    rw [dataFramesOf_append, dataFramesOf_map_state, List.append_nil]
  | OTHER => exact ⟨rfl, rfl⟩
  | ASH_RESET_FAILED =>
    unfold ashCbInfo
    dsimp only
    split_ifs
    · exact setMode_wait_dataFrames s _
    · exact setMode_wait_dataFrames s _
    · refine ⟨rfl, ?_⟩
      show dataFramesOf (s.trace ++ _) = _
      rw [dataFramesOf_append, dataFramesOf_map_state, List.append_nil]

theorem handleInputData_waiting (env : Env σ) (s : CEzspDongle σ) (f : List Nat)
    (hf : (DongleEvent.handleInputData f).wellFormed = true)
    (hq : endsWait env s (DongleEvent.handleInputData f) = false) :
    ∃ s1, handleInputData env s f = Except.ok s1 ∧ s1.wait_rsp = s.wait_rsp
      ∧ dataFramesOf s1.trace = dataFramesOf s.trace := by
  by_cases hm : s.lastKnownMode = Mode.EZSP_NCP ∨ s.lastKnownMode = Mode.UNKNOWN
  · by_cases he : f = []
    · refine ⟨s, ?_, rfl, rfl⟩
      rw [he]
      unfold handleInputData
      simp
    · have h5 : 5 ≤ f.length := by
        cases f with
        | nil => exact absurd rfl he
        | cons a t => simpa [DongleEvent.wellFormed] using hf
      rw [handleInputData_accept env s _ hm h5]
      refine ⟨_, rfl, ?_⟩
      by_cases hl : f.getD 2 0 = env.EZSP_LAUNCH_STANDALONE_BOOTLOADER
      · rw [if_neg (not_not.mpr hl)]
        refine ⟨rfl, ?_⟩
        show dataFramesOf (s.trace ++ _) = _
        rw [dataFramesOf_append, dataFramesOf_map_rx, List.append_nil]
      · rw [if_pos hl]
        have hasync : handleResponse env (ashSendAckFrame env s) (f.getD 2 0)
            = ashSendAckFrame env s := by
          apply handleResponse_async
          cases hs : s.sendingMsgQueue with
          | nil => exact Or.inl hs
          | cons m rest =>
            refine Or.inr ⟨m, rest, hs, ?_⟩
            intro hc
            simp only [endsWait, hs] at hq
            rw [decide_eq_true hm, decide_eq_true h5, decide_eq_true hl,
              decide_eq_true hc] at hq
            exact Bool.noConfusion hq
        rw [hasync]
        refine ⟨rfl, ?_⟩
        show dataFramesOf ((ashSendAckFrame env s).trace ++ _) = _
        rw [dataFramesOf_append, dataFramesOf_map_rx, List.append_nil,
          ashSendAckFrame_dataFrames]
  · have hm2 : s.lastKnownMode ≠ Mode.EZSP_NCP ∧ s.lastKnownMode ≠ Mode.UNKNOWN :=
      ⟨fun h => hm (Or.inl h), fun h => hm (Or.inr h)⟩
    exact ⟨s, handleInputData_discard env s f hm2, rfl, rfl⟩

theorem step_waiting (env : Env σ) (s : CEzspDongle σ) (e : DongleEvent)
    (hw : s.wait_rsp = true) (hf : e.wellFormed = true) (hq : endsWait env s e = false) :
    ∃ s1, step env s e = Except.ok s1 ∧ s1.wait_rsp = true
      ∧ dataFramesOf s1.trace = dataFramesOf s.trace := by
  cases e with
  | sendCommand c p =>
    refine ⟨_, rfl, ?_⟩
    rw [sendCommand_waiting env s c p hw]
    exact ⟨hw, rfl⟩
  | handleInputData f =>
    obtain ⟨s1, h1, h2, h3⟩ := handleInputData_waiting env s f hf hq
    exact ⟨s1, h1, h2.trans hw, h3⟩
  | ashCbInfo i =>
    have hi : i ≠ EAshInfo.ASH_NACK := by
      intro h
      rw [h] at hq
      simp [endsWait] at hq
    have h := ashCbInfo_waiting env s i hi
    exact ⟨_, rfl, h.1.trans hw, h.2⟩

theorem run_waiting (env : Env σ) (es : List DongleEvent) :
    ∀ s : CEzspDongle σ, s.wait_rsp = true → (∀ e ∈ es, e.wellFormed = true) →
      keepsWaiting env s es = true →
      ∃ s1, run env s es = Except.ok s1 ∧ s1.wait_rsp = true
        ∧ dataFramesOf s1.trace = dataFramesOf s.trace := by
  induction es with
  | nil =>
    intro s hw _ _
    exact ⟨s, rfl, hw, rfl⟩
  | cons e es ih =>
    intro s hw hf hk
    have hq : endsWait env s e = false := by
      simp only [keepsWaiting, Bool.and_eq_true, Bool.not_eq_true'] at hk
      exact hk.1
    obtain ⟨s1, h1, h2, h3⟩ := step_waiting env s e hw (hf e (List.mem_cons_self e es)) hq
    have hk2 : keepsWaiting env s1 es = true := by
      simp only [keepsWaiting, h1, Bool.and_eq_true] at hk
      exact hk.2
    obtain ⟨s2, g1, g2, g3⟩ := ih s1 h2 (fun x hx => hf x (List.mem_cons_of_mem e hx)) hk2
    refine ⟨s2, ?_, g2, g3.trans h3⟩
    simp only [run, h1]
    exact g1

/-- C6 (counterexample): after `sendCommand(0x00, [0x08])` on a connected dispatcher the DATA
frame `[0x00, 0x08]` has been sent with success (`wait_rsp` is true, the ACK timer runs). The
single further event `ASH_NACK`, with no frame received in between, issues a second
`sendDataFrame`. -/
theorem nack_sends_again_before_ack :
    (sendCommand (Env.sample 0) sampleConnected 0x00 [0x08]).wait_rsp = true
    ∧ (sendCommand (Env.sample 0) sampleConnected 0x00 [0x08]).ash.ackTimer = some T_RX_ACK_INIT
    ∧ dataFramesOf (sendCommand (Env.sample 0) sampleConnected 0x00 [0x08]).trace
        = [[0x00, 0x08]]
    ∧ run (Env.sample 0) (sendCommand (Env.sample 0) sampleConnected 0x00 [0x08])
        [DongleEvent.ashCbInfo EAshInfo.ASH_NACK]
      = Except.ok (ashCbInfo (Env.sample 0)
          (sendCommand (Env.sample 0) sampleConnected 0x00 [0x08]) EAshInfo.ASH_NACK)
    ∧ dataFramesOf (ashCbInfo (Env.sample 0)
          (sendCommand (Env.sample 0) sampleConnected 0x00 [0x08]) EAshInfo.ASH_NACK).trace
        = [[0x00, 0x08], [0x00, 0x08]] :=
  ⟨by decide, by decide, by decide, rfl, by decide⟩

/-- C6 (amended): at most one DATA frame is in flight until a response or a NAK. From every
dispatcher state in which `wait_rsp` is true (the value `sendNextMsg` sets exactly after a
successful `sendDataFrame`), every sequence of dispatcher events (`sendCommand` calls,
received EZSP frames that are empty or at least 5 bytes long, ASH notifications) that
contains neither an `ASH_NACK` nor a response that pops the head of the queue runs to
completion without any `sendDataFrame` call and leaves `wait_rsp` true. In particular a
`sendCommand` made while `wait_rsp` is true only appends to the queue. -/
theorem one_data_frame_in_flight (env : Env σ) (s : CEzspDongle σ) (es : List DongleEvent)
    (hw : s.wait_rsp = true) (hf : ∀ e ∈ es, e.wellFormed = true)
    (hk : keepsWaiting env s es = true) :
    (∃ s1, run env s es = Except.ok s1 ∧ s1.wait_rsp = true
        ∧ dataFramesOf s1.trace = dataFramesOf s.trace)
    ∧ (∀ (c : Nat) (p : List Nat),
        sendCommand env s c p = { s with sendingMsgQueue := s.sendingMsgQueue ++ [⟨c, p⟩] })
    ∧ (∀ (s0 : CEzspDongle σ) (m : SMsg) (rest : List SMsg),
        (s0.lastKnownMode = Mode.EZSP_NCP ∨ s0.lastKnownMode = Mode.UNKNOWN) →
        s0.wait_rsp = false → s0.sendingMsgQueue = m :: rest →
        ((sendNextMsg env s0).wait_rsp = true
          ↔ (ashSendDataFrame env s0 ([m.i_cmd % 256] ++ m.payload)).1 = true)) := by
  refine ⟨run_waiting env es s hw hf hk, fun c p => sendCommand_waiting env s c p hw, ?_⟩
  intro s0 m rest hm hw0 hq0
  rw [sendNextMsg_send env s0 m rest hm hw0 hq0]
  constructor
  · intro h
    by_contra hn
    rw [if_neg hn] at h
    have h0 : (ashSendDataFrame env s0 ([m.i_cmd % 256] ++ m.payload)).2.wait_rsp
        = s0.wait_rsp := rfl
    rw [h0, hw0] at h
    exact Bool.noConfusion h
  · intro h
    rw [if_pos h]

/-- Witness of `one_data_frame_in_flight`: after `sendCommand(0x00, [0x08])` has sent its frame,
a second `sendCommand`, an asynchronous frame with cmdId `0x19`, and `ASH_STATE_CONNECTED`
issue no `sendDataFrame`. -/
theorem one_data_frame_in_flight_witness :
    ∃ s1, run (Env.sample 0) (sendCommand (Env.sample 0) sampleConnected 0x00 [0x08])
        [DongleEvent.sendCommand 0x02 [], DongleEvent.handleInputData [0x00, 0x80, 0x19, 0x01, 0x02],
          DongleEvent.ashCbInfo EAshInfo.ASH_STATE_CONNECTED] = Except.ok s1
      ∧ s1.wait_rsp = true
      ∧ dataFramesOf s1.trace
        = dataFramesOf (sendCommand (Env.sample 0) sampleConnected 0x00 [0x08]).trace :=
  (one_data_frame_in_flight (Env.sample 0) (sendCommand (Env.sample 0) sampleConnected 0x00 [0x08])
    [DongleEvent.sendCommand 0x02 [], DongleEvent.handleInputData [0x00, 0x80, 0x19, 0x01, 0x02],
      DongleEvent.ashCbInfo EAshInfo.ASH_STATE_CONNECTED]
    rfl (by decide) rfl).1

end Flow

/-! ## Theorems: delivery of received frames to the observers -/

section Delivery

variable {σ : Type}

open CEzspDongle

theorem handleResponse_cases (env : Env σ) (s : CEzspDongle σ) (c : Nat) :
    handleResponse env s c = s ∨
    ∃ m rest, s.sendingMsgQueue = m :: rest ∧ m.i_cmd = c
      ∧ handleResponse env s c
        = sendNextMsg env { s with sendingMsgQueue := rest, wait_rsp := false } := by
  cases hs : s.sendingMsgQueue with
  | nil => exact Or.inl (handleResponse_async env s c (Or.inl hs))
  | cons m rest =>
    by_cases hc : m.i_cmd = c
    · refine Or.inr ⟨m, rest, rfl, hc, ?_⟩
      rw [← hc]
      exact handleResponse_match env s m rest hs
    · exact Or.inl (handleResponse_async env s c (Or.inr ⟨m, rest, hs, hc⟩))

theorem sendNextMsg_trace_ext (env : Env σ) (s : CEzspDongle σ) :
    ∃ ext, (sendNextMsg env s).trace = s.trace ++ ext ∧ rxMessagesOf ext = [] := by
  rcases sendNextMsg_cases env s with h | ⟨m, rest, _, _, _, h⟩
  · exact ⟨[], by rw [h, List.append_nil], rfl⟩
  · have ht := ashSendDataFrame_trace env s ([m.i_cmd % 256] ++ m.payload)
    have htr : (sendNextMsg env s).trace
        = (ashSendDataFrame env s ([m.i_cmd % 256] ++ m.payload)).2.trace := by
      rw [h]
      split_ifs <;> rfl
    refine ⟨_, htr.trans ht, ?_⟩
    split_ifs <;> simp [rxMessagesOf]

theorem handleResponse_trace_ext (env : Env σ) (s : CEzspDongle σ) (c : Nat) :
    ∃ ext, (handleResponse env s c).trace = s.trace ++ ext ∧ rxMessagesOf ext = [] := by
  rcases handleResponse_cases env s c with h | ⟨m, rest, _, _, h⟩
  · exact ⟨[], by rw [h, List.append_nil], rfl⟩
  · rw [h]
    exact sendNextMsg_trace_ext env _

theorem handleResponse_observers (env : Env σ) (s : CEzspDongle σ) (c : Nat) :
    (handleResponse env s c).observers = s.observers := by
  rcases handleResponse_cases env s c with h | ⟨m, rest, _, _, h⟩
  · rw [h]
  · rw [h]
    exact sendNextMsg_observers env _

theorem rxCallsTo_rxMessagesOf (o : Nat) (tr : List Event) :
    rxCallsTo o tr = rxCallsTo o (rxMessagesOf tr) := by
  induction tr with
  | nil => rfl
  | cons e tr ih =>
    unfold rxCallsTo rxMessagesOf at ih ⊢
    cases e <;> simp only [List.filter_cons, List.filterMap_cons, if_true] <;>
      first
      | exact ih
      | rw [ih]

theorem rxCallsTo_map_of_not_mem (o : Nat) (c : Nat) (p : List Nat) (l : List Nat)
    (ho : o ∉ l) :
    rxCallsTo o (l.map (fun x => Event.handleEzspRxMessage x c p)) = [] := by
  induction l with
  | nil => rfl
  | cons a l ih =>
    have ha : a ≠ o := fun h => ho (h ▸ List.mem_cons_self a l)
    have hl : o ∉ l := fun h => ho (List.mem_cons_of_mem a h)
    have := ih hl
    simp_all [rxCallsTo]

theorem rxCallsTo_map_of_mem (o : Nat) (c : Nat) (p : List Nat) (l : List Nat)
    (hn : l.Nodup) (ho : o ∈ l) :
    rxCallsTo o (l.map (fun x => Event.handleEzspRxMessage x c p)) = [(c, p)] := by
  induction l with
  | nil => exact absurd ho (List.not_mem_nil o)
  | cons a l ih =>
    rw [List.nodup_cons] at hn
    by_cases ha : a = o
    · subst ha
      have := rxCallsTo_map_of_not_mem a c p l hn.1
      simp_all [rxCallsTo]
    · have hl : o ∈ l := by
        rcases List.mem_cons.mp ho with h | h
        · exact absurd h.symm ha
        · exact h
      have := ih hn.2 hl
      simp_all [rxCallsTo]

theorem handleInputData_accept_trace (env : Env σ) (s : CEzspDongle σ) (f : List Nat)
    (hm : s.lastKnownMode = Mode.EZSP_NCP ∨ s.lastKnownMode = Mode.UNKNOWN)
    (hf : 5 ≤ f.length) :
    ∃ s1 new, handleInputData env s f = Except.ok s1 ∧ s1.trace = s.trace ++ new
      ∧ rxMessagesOf new = s.observers.map
          (fun o => Event.handleEzspRxMessage o (f.getD 2 0) ((f.drop 3).take (f.length - 5)))
      ∧ s1.observers = s.observers := by
  rw [handleInputData_accept env s f hm hf]
  have hx : ∃ ext,
      (if f.getD 2 0 ≠ env.EZSP_LAUNCH_STANDALONE_BOOTLOADER
        then handleResponse env (ashSendAckFrame env s) (f.getD 2 0) else s).trace
        = s.trace ++ ext
      ∧ rxMessagesOf ext = []
      ∧ (if f.getD 2 0 ≠ env.EZSP_LAUNCH_STANDALONE_BOOTLOADER
        then handleResponse env (ashSendAckFrame env s) (f.getD 2 0) else s).observers
        = s.observers := by
    split_ifs with hl
    · obtain ⟨ext, h1, h2⟩ := handleResponse_trace_ext env (ashSendAckFrame env s) (f.getD 2 0)
      refine ⟨(Event.sendAckFrame ::
          (if s.ash.serialWriteFunc then
            [Event.serialWrite (env.forgeAckFrame s.ash.ashCodec).1] else [])) ++ ext,
        ?_, ?_, handleResponse_observers env (ashSendAckFrame env s) (f.getD 2 0)⟩
      · rw [h1, ashSendAckFrame_trace, List.append_assoc]
      · rw [rxMessagesOf_append, h2]
        split_ifs <;> simp [rxMessagesOf]
    · exact ⟨[], (List.append_nil _).symm, rfl, rfl⟩
  obtain ⟨ext, h1, h2, h3⟩ := hx
  refine ⟨_, ext ++ s.observers.map
      (fun o => Event.handleEzspRxMessage o (f.getD 2 0) ((f.drop 3).take (f.length - 5))),
    rfl, ?_, ?_, h3⟩
  · show _ ++ _ = _
    rw [h1, h3, List.append_assoc]
  · rw [rxMessagesOf_append, h2, rxMessagesOf_map_rx, List.nil_append]

/-- C7: for every decoded EZSP frame `f` of length `n >= 5` received by `handleInputData`
while the mode is `EZSP_NCP` or `UNKNOWN`, `handleInputData` returns, the
`handleEzspRxMessage` calls it makes are one per registered observer, in iteration order,
and each registered observer is called exactly once, with cmdId `f[2]` and payload
`f[3 .. n-2)`; an observer that is not registered is not called. When the mode is a
`BOOTLOADER_*` mode the dispatcher is returned unchanged (no observer call, no ACK, no state
change). -/
theorem handleInputData_delivers (env : Env σ) (s : CEzspDongle σ) (f : List Nat) :
    ((s.lastKnownMode = Mode.EZSP_NCP ∨ s.lastKnownMode = Mode.UNKNOWN) → 5 ≤ f.length →
      s.observers.Nodup →
      ∃ s1 new, handleInputData env s f = Except.ok s1 ∧ s1.trace = s.trace ++ new
        ∧ rxMessagesOf new = s.observers.map
            (fun o => Event.handleEzspRxMessage o (f.getD 2 0)
              ((f.drop 3).take (f.length - 5)))
        ∧ (∀ o ∈ s.observers,
            rxCallsTo o new = [(f.getD 2 0, (f.drop 3).take (f.length - 5))])
        ∧ (∀ o, o ∉ s.observers → rxCallsTo o new = [])
        ∧ (f.drop 3).take (f.length - 5) = (f.take (f.length - 2)).drop 3
        ∧ ((f.drop 3).take (f.length - 5)).length = f.length - 5)
    ∧ ((s.lastKnownMode = Mode.BOOTLOADER_FIRMWARE_UPGRADE
        ∨ s.lastKnownMode = Mode.BOOTLOADER_EXIT_TO_EZSP_NCP) →
      handleInputData env s f = Except.ok s) := by
  constructor
  · intro hm hf hn
    obtain ⟨s1, new, h1, h2, h3, _⟩ := handleInputData_accept_trace env s f hm hf
    refine ⟨s1, new, h1, h2, h3, ?_, ?_, ?_, ?_⟩
    · intro o ho
      rw [rxCallsTo_rxMessagesOf, h3]
      exact rxCallsTo_map_of_mem o _ _ _ hn ho
    · intro o ho
      rw [rxCallsTo_rxMessagesOf, h3]
      exact rxCallsTo_map_of_not_mem o _ _ _ ho
    · rw [List.drop_take, Nat.sub_sub]
    · rw [List.length_take, List.length_drop]
      omega
  · intro hb
    apply handleInputData_discard
    rcases hb with hb | hb <;> rw [hb] <;> exact ⟨by decide, by decide⟩

/-- Witness of `handleInputData_delivers`: a connected dispatcher with the single observer `1`
receives `[0x00, 0x80, 0x19, 0x0A, 0x0B, 0xC1, 0xC2]`; a dispatcher waiting for the
bootloader prompt receives the same frame. -/
theorem handleInputData_delivers_witness :
    (∃ s1 new, handleInputData (Env.sample 0) sampleConnected
          [0x00, 0x80, 0x19, 0x0A, 0x0B, 0xC1, 0xC2] = Except.ok s1
        ∧ s1.trace = sampleConnected.trace ++ new
        ∧ rxMessagesOf new = sampleConnected.observers.map
            (fun o => Event.handleEzspRxMessage o
              ([0x00, 0x80, 0x19, 0x0A, 0x0B, 0xC1, 0xC2].getD 2 0)
              (([0x00, 0x80, 0x19, 0x0A, 0x0B, 0xC1, 0xC2].drop 3).take
                ([0x00, 0x80, 0x19, 0x0A, 0x0B, 0xC1, 0xC2].length - 5))))
    ∧ handleInputData (Env.sample 0)
        (setMode (ctor (0 : Nat) (some 1)) Mode.BOOTLOADER_EXIT_TO_EZSP_NCP)
        [0x00, 0x80, 0x19, 0x0A, 0x0B, 0xC1, 0xC2]
      = Except.ok (setMode (ctor (0 : Nat) (some 1)) Mode.BOOTLOADER_EXIT_TO_EZSP_NCP) :=
  ⟨(((handleInputData_delivers (Env.sample 0) sampleConnected
        [0x00, 0x80, 0x19, 0x0A, 0x0B, 0xC1, 0xC2]).1
      (Or.inl rfl) (by decide) (by decide)).imp
      (fun _ h => h.imp (fun _ h2 => ⟨h2.1, h2.2.1, h2.2.2.1⟩))),
   (handleInputData_delivers (Env.sample 0)
      (setMode (ctor (0 : Nat) (some 1)) Mode.BOOTLOADER_EXIT_TO_EZSP_NCP)
      [0x00, 0x80, 0x19, 0x0A, 0x0B, 0xC1, 0xC2]).2 (Or.inr rfl)⟩

/-- C9: for every dispatcher state in mode `EZSP_NCP` or `UNKNOWN` and every received frame of
at least 5 bytes whose cmdId is `EZSP_LAUNCH_STANDALONE_BOOTLOADER`, `handleInputData` returns
the dispatcher with one `handleEzspRxMessage(cmdId, payload)` call per observer appended to
the trace and nothing else changed: no `sendAckFrame`, no `sendDataFrame`, no serial write,
and the same queue and `wait_rsp` (whatever the head of the queue is). -/
theorem handleInputData_launch_bootloader (env : Env σ) (s : CEzspDongle σ) (f : List Nat)
    (hm : s.lastKnownMode = Mode.EZSP_NCP ∨ s.lastKnownMode = Mode.UNKNOWN)
    (hf : 5 ≤ f.length) (hl : f.getD 2 0 = env.EZSP_LAUNCH_STANDALONE_BOOTLOADER) :
    handleInputData env s f = Except.ok
        { s with trace := (s.trace ++ s.observers.map
            (fun o => Event.handleEzspRxMessage o env.EZSP_LAUNCH_STANDALONE_BOOTLOADER
              ((f.drop 3).take (f.length - 5)))) }
    ∧ ackFramesOf (s.trace ++ s.observers.map
            (fun o => Event.handleEzspRxMessage o env.EZSP_LAUNCH_STANDALONE_BOOTLOADER
              ((f.drop 3).take (f.length - 5)))) = ackFramesOf s.trace
    ∧ dataFramesOf (s.trace ++ s.observers.map
            (fun o => Event.handleEzspRxMessage o env.EZSP_LAUNCH_STANDALONE_BOOTLOADER
              ((f.drop 3).take (f.length - 5)))) = dataFramesOf s.trace
    ∧ serialWrites (s.trace ++ s.observers.map
            (fun o => Event.handleEzspRxMessage o env.EZSP_LAUNCH_STANDALONE_BOOTLOADER
              ((f.drop 3).take (f.length - 5)))) = serialWrites s.trace := by
  refine ⟨?_, ?_, ?_, ?_⟩
  · rw [handleInputData_accept env s f hm hf, if_neg (not_not.mpr hl), hl]
    rfl
  · induction s.observers with
    | nil => simp
    | cons o l _ => simp [ackFramesOf, List.filter_append]
  · rw [dataFramesOf_append, dataFramesOf_map_rx, List.append_nil]
  · induction s.observers with
    | nil => simp
    | cons o l _ => simp [serialWrites, List.filter_append]

/-- Witness of `handleInputData_launch_bootloader`: the launch command `0x8F` is at the head of
the queue of a connected dispatcher and the frame `[0x00, 0x80, 0x8F, 0x00, 0xC1, 0xC2]`
arrives. -/
theorem handleInputData_launch_bootloader_witness :
    handleInputData (Env.sample 0) (sendCommand (Env.sample 0) sampleConnected 0x8F [])
        [0x00, 0x80, 0x8F, 0x00, 0xC1, 0xC2] = Except.ok
        { sendCommand (Env.sample 0) sampleConnected 0x8F [] with
          trace := ((sendCommand (Env.sample 0) sampleConnected 0x8F []).trace
            ++ (sendCommand (Env.sample 0) sampleConnected 0x8F []).observers.map
              (fun o => Event.handleEzspRxMessage o
                (Env.sample 0).EZSP_LAUNCH_STANDALONE_BOOTLOADER
                (([0x00, 0x80, 0x8F, 0x00, 0xC1, 0xC2].drop 3).take
                  ([0x00, 0x80, 0x8F, 0x00, 0xC1, 0xC2].length - 5)))) } :=
  (handleInputData_launch_bootloader (Env.sample 0)
    (sendCommand (Env.sample 0) sampleConnected 0x8F [])
    [0x00, 0x80, 0x8F, 0x00, 0xC1, 0xC2] (Or.inl rfl) (by decide) rfl).1

theorem handleInputData_response (env : Env σ) (s : CEzspDongle σ) (f : List Nat)
    (m : SMsg) (rest : List SMsg)
    (hm : s.lastKnownMode = Mode.EZSP_NCP ∨ s.lastKnownMode = Mode.UNKNOWN)
    (hf : 5 ≤ f.length) (hl : f.getD 2 0 ≠ env.EZSP_LAUNCH_STANDALONE_BOOTLOADER)
    (hq : s.sendingMsgQueue = m :: rest) (hc : m.i_cmd = f.getD 2 0) :
    handleInputData env s f = Except.ok
      (notifyObserversOfEzspRxMessage
        (sendNextMsg env
          { ashSendAckFrame env s with sendingMsgQueue := rest, wait_rsp := false })
        (f.getD 2 0) ((f.drop 3).take (f.length - 5))) := by
  rw [handleInputData_accept env s f hm hf, if_pos hl, ← hc,
    handleResponse_match env (ashSendAckFrame env s) m rest hq]

theorem handleInputData_asynchronous (env : Env σ) (s : CEzspDongle σ) (f : List Nat)
    (hm : s.lastKnownMode = Mode.EZSP_NCP ∨ s.lastKnownMode = Mode.UNKNOWN)
    (hf : 5 ≤ f.length) (hl : f.getD 2 0 ≠ env.EZSP_LAUNCH_STANDALONE_BOOTLOADER)
    (hq : s.sendingMsgQueue = []
      ∨ ∃ m rest, s.sendingMsgQueue = m :: rest ∧ m.i_cmd ≠ f.getD 2 0) :
    handleInputData env s f = Except.ok
      (notifyObserversOfEzspRxMessage (ashSendAckFrame env s)
        (f.getD 2 0) ((f.drop 3).take (f.length - 5))) := by
  rw [handleInputData_accept env s f hm hf, if_pos hl,
    handleResponse_async env (ashSendAckFrame env s) (f.getD 2 0) hq]

theorem handleInputData_response_rx (env : Env σ) (s : CEzspDongle σ) (f : List Nat)
    (m : SMsg) (rest : List SMsg)
    (hm : s.lastKnownMode = Mode.EZSP_NCP ∨ s.lastKnownMode = Mode.UNKNOWN)
    (hf : 5 ≤ f.length) (hl : f.getD 2 0 ≠ env.EZSP_LAUNCH_STANDALONE_BOOTLOADER)
    (hq : s.sendingMsgQueue = m :: rest) (hc : m.i_cmd = f.getD 2 0) :
    ∃ s1, handleInputData env s f = Except.ok s1
      ∧ s1.sendingMsgQueue = rest
      ∧ rxMessagesOf s1.trace = rxMessagesOf s.trace ++ s.observers.map
          (fun o => Event.handleEzspRxMessage o (f.getD 2 0)
            ((f.drop 3).take (f.length - 5))) := by
  refine ⟨_, handleInputData_response env s f m rest hm hf hl hq hc, ?_, ?_⟩
  · exact sendNextMsg_queue env _
  · show rxMessagesOf (_ ++ _) = _
    rw [rxMessagesOf_append, rxMessagesOf_map_rx, sendNextMsg_rxMessages, sendNextMsg_observers]
    show rxMessagesOf (ashSendAckFrame env s).trace ++ _ = _
    rw [ashSendAckFrame_rxMessages]
    rfl

/-- C8 (counterexample): after `sendCommand(EZSP_VERSION, [0x08])` on a connected dispatcher
with the single observer `1`, the 7-byte frame `[0x00, 0x80, 0x00, 0x30, 0x67, 0x08, 0x02]`
pops the queue, and the only `handleEzspRxMessage` call carries the payload `[0x30, 0x67]`,
not `[0x30, 0x67, 0x08, 0x02]`: the last two bytes are removed as the trailing CRC. -/
theorem version_frame_payload_loses_two_bytes :
    ∃ s1, handleInputData (Env.sample 0) (sendCommand (Env.sample 0) sampleConnected 0x00 [0x08])
        [0x00, 0x80, 0x00, 0x30, 0x67, 0x08, 0x02] = Except.ok s1
      ∧ s1.sendingMsgQueue = []
      ∧ rxMessagesOf s1.trace = [Event.handleEzspRxMessage 1 0x00 [0x30, 0x67]]
      ∧ rxMessagesOf s1.trace ≠ [Event.handleEzspRxMessage 1 0x00 [0x30, 0x67, 0x08, 0x02]] :=
  ⟨_, rfl, by decide, by decide, by decide⟩

/-- C8 (amended): with `EZSP_VERSION` (`0x00`) at the head of the queue and mode `EZSP_NCP`
(`EZSP_LAUNCH_STANDALONE_BOOTLOADER` being another command than `0x00`), when
`handleInputData` receives the decoded frame
`[seq, frameCtrl, 0x00, stackVer_lo, stackVer_hi, proto, stackType, crc_hi, crc_lo]`, that is
the seven fields followed by the two trailing bytes that the dispatcher strips, it pops the
queue and the `handleEzspRxMessage` calls it makes are one per observer with cmdId `0x00` and
payload `[stackVer_lo, stackVer_hi, proto, stackType]`. When it receives the seven bytes
alone, it pops the queue and the payload handed to each observer is
`[stackVer_lo, stackVer_hi]`. -/
theorem handleInputData_version_response (env : Env σ) (s : CEzspDongle σ)
    (m : SMsg) (rest : List SMsg)
    (seq frameCtrl stackVer_lo stackVer_hi proto stackType crc_hi crc_lo : Nat)
    (hL : env.EZSP_LAUNCH_STANDALONE_BOOTLOADER ≠ 0x00)
    (hm : s.lastKnownMode = Mode.EZSP_NCP)
    (hq : s.sendingMsgQueue = m :: rest) (hc : m.i_cmd = 0x00) :
    (∃ s1, handleInputData env s
        [seq, frameCtrl, 0x00, stackVer_lo, stackVer_hi, proto, stackType, crc_hi, crc_lo]
          = Except.ok s1
      ∧ s1.sendingMsgQueue = rest
      ∧ rxMessagesOf s1.trace = rxMessagesOf s.trace ++ s.observers.map
          (fun o => Event.handleEzspRxMessage o 0x00
            [stackVer_lo, stackVer_hi, proto, stackType]))
    ∧ (∃ s1, handleInputData env s
        [seq, frameCtrl, 0x00, stackVer_lo, stackVer_hi, proto, stackType] = Except.ok s1
      ∧ s1.sendingMsgQueue = rest
      ∧ rxMessagesOf s1.trace = rxMessagesOf s.trace ++ s.observers.map
          (fun o => Event.handleEzspRxMessage o 0x00 [stackVer_lo, stackVer_hi])) :=
  ⟨handleInputData_response_rx env s
      [seq, frameCtrl, 0x00, stackVer_lo, stackVer_hi, proto, stackType, crc_hi, crc_lo] m rest
      (Or.inl hm) (by simp) (fun h => hL h.symm) hq hc,
   handleInputData_response_rx env s
      [seq, frameCtrl, 0x00, stackVer_lo, stackVer_hi, proto, stackType] m rest
      (Or.inl hm) (by simp) (fun h => hL h.symm) hq hc⟩

/-- Witness of `handleInputData_version_response`: `sendCommand(EZSP_VERSION, [0x08])` on a
connected dispatcher, then the frame `[0x00, 0x80, 0x00, 0x30, 0x67, 0x08, 0x02, 0xC1, 0xC2]`. -/
theorem handleInputData_version_response_witness :
    ∃ s1, handleInputData (Env.sample 0) (sendCommand (Env.sample 0) sampleConnected 0x00 [0x08])
        [0x00, 0x80, 0x00, 0x30, 0x67, 0x08, 0x02, 0xC1, 0xC2] = Except.ok s1
      ∧ s1.sendingMsgQueue = []
      ∧ rxMessagesOf s1.trace
        = rxMessagesOf (sendCommand (Env.sample 0) sampleConnected 0x00 [0x08]).trace
          ++ (sendCommand (Env.sample 0) sampleConnected 0x00 [0x08]).observers.map
            (fun o => Event.handleEzspRxMessage o 0x00 [0x30, 0x67, 0x08, 0x02]) :=
  (handleInputData_version_response (Env.sample 0)
    (sendCommand (Env.sample 0) sampleConnected 0x00 [0x08]) ⟨0x00, [0x08]⟩ []
    0x00 0x80 0x30 0x67 0x08 0x02 0xC1 0xC2 (by decide) rfl rfl rfl).1

theorem ackFramesOf_append (a b : List Event) :
    ackFramesOf (a ++ b) = ackFramesOf a + ackFramesOf b := by
  simp [ackFramesOf]

theorem ackFramesOf_map_rx (l : List Nat) (c : Nat) (p : List Nat) :
    ackFramesOf (l.map (fun o => Event.handleEzspRxMessage o c p)) = 0 := by
  induction l with
  | nil => rfl
  | cons o l _ => simp [ackFramesOf]

theorem ashSendAckFrame_ackFrames (env : Env σ) (s : CEzspDongle σ) :
    ackFramesOf (ashSendAckFrame env s).trace = ackFramesOf s.trace + 1 := by
  rw [ashSendAckFrame_trace, ackFramesOf_append]
  split_ifs <;> simp [ackFramesOf]

theorem sendNextMsg_ackFrames (env : Env σ) (s : CEzspDongle σ) :
    ackFramesOf (sendNextMsg env s).trace = ackFramesOf s.trace := by
  rcases sendNextMsg_cases env s with h | ⟨m, rest, _, _, _, h⟩
  · rw [h]
  · have htr : (sendNextMsg env s).trace
        = (ashSendDataFrame env s ([m.i_cmd % 256] ++ m.payload)).2.trace := by
      rw [h]
      split_ifs <;> rfl
    rw [htr, ashSendDataFrame_trace, ackFramesOf_append]
    split_ifs <;> simp [ackFramesOf]

theorem handleResponse_ackFrames (env : Env σ) (s : CEzspDongle σ) (c : Nat) :
    ackFramesOf (handleResponse env s c).trace = ackFramesOf s.trace := by
  rcases handleResponse_cases env s c with h | ⟨m, rest, _, _, h⟩
  · rw [h]
  · rw [h]
    exact sendNextMsg_ackFrames env _

theorem sendNextMsg_drain (env : Env σ) (s : CEzspDongle σ)
    (hm : s.lastKnownMode = Mode.EZSP_NCP ∨ s.lastKnownMode = Mode.UNKNOWN)
    (hw : s.wait_rsp = false) :
    dataFramesOf (sendNextMsg env s).trace = dataFramesOf s.trace ++
        (match s.sendingMsgQueue with
          | [] => []
          | n :: _ => [[n.i_cmd % 256] ++ n.payload])
    ∧ (sendNextMsg env s).wait_rsp =
        (match s.sendingMsgQueue with
          | [] => false
          | n :: _ => (ashSendDataFrame env s ([n.i_cmd % 256] ++ n.payload)).1) := by
  cases hq : s.sendingMsgQueue with
  | nil =>
    rw [sendNextMsg_blocked env s (Or.inr (Or.inr hq))]
    exact ⟨(List.append_nil _).symm, hw⟩
  | cons n rest =>
    rw [sendNextMsg_send env s n rest hm hw hq]
    constructor
    · have ht := ashSendDataFrame_dataFrames env s ([n.i_cmd % 256] ++ n.payload)
      split_ifs <;> exact ht
    · show _ = (ashSendDataFrame env s ([n.i_cmd % 256] ++ n.payload)).1
      by_cases hr : (ashSendDataFrame env s ([n.i_cmd % 256] ++ n.payload)).1 = true
      · rw [if_pos hr, hr]
      · rw [if_neg hr, Bool.eq_false_iff.mpr hr]
        exact hw

/-- C10: response correlation. For every received frame `f` of at least 5 bytes, in mode
`EZSP_NCP` or `UNKNOWN`, whose cmdId `f[2]` is not `EZSP_LAUNCH_STANDALONE_BOOTLOADER`,
`handleInputData` returns and: the first thing it does is one `sendAckFrame` call, and it
makes no other; if the queue is `m :: rest` and `m` has the cmdId of the frame, the result is
the drain step `sendNextMsg` run on the state with queue `rest` and `wait_rsp` cleared,
followed by the delivery to the observers, so the queue becomes `rest`, the head of `rest`,
if any, is handed to `sendDataFrame` (one call, none when `rest` is empty), and `wait_rsp`
ends as the result of that send (false when `rest` is empty); if the queue is empty or its
head has another cmdId, the queue and `wait_rsp` are unchanged and no `sendDataFrame` call is
made; in both cases the last events are the `handleEzspRxMessage` calls, one per observer,
with cmdId `f[2]` and payload `f[3 .. n-2)`. -/
theorem handleInputData_correlation (env : Env σ) (s : CEzspDongle σ) (f : List Nat)
    (hm : s.lastKnownMode = Mode.EZSP_NCP ∨ s.lastKnownMode = Mode.UNKNOWN)
    (hf : 5 ≤ f.length) (hl : f.getD 2 0 ≠ env.EZSP_LAUNCH_STANDALONE_BOOTLOADER) :
    ∃ s1, handleInputData env s f = Except.ok s1
      ∧ (∃ new, s1.trace = s.trace ++ Event.sendAckFrame :: new)
      ∧ ackFramesOf s1.trace = ackFramesOf s.trace + 1
      ∧ (∀ (m : SMsg) (rest : List SMsg), s.sendingMsgQueue = m :: rest →
          m.i_cmd = f.getD 2 0 →
          s1 = notifyObserversOfEzspRxMessage
              (sendNextMsg env
                { ashSendAckFrame env s with sendingMsgQueue := rest, wait_rsp := false })
              (f.getD 2 0) ((f.drop 3).take (f.length - 5))
          ∧ s1.sendingMsgQueue = rest
          ∧ dataFramesOf s1.trace = dataFramesOf s.trace ++
              (match rest with
                | [] => []
                | n :: _ => [[n.i_cmd % 256] ++ n.payload])
          ∧ s1.wait_rsp =
              (match rest with
                | [] => false
                | n :: _ =>
                  (ashSendDataFrame env
                    { ashSendAckFrame env s with sendingMsgQueue := rest, wait_rsp := false }
                    ([n.i_cmd % 256] ++ n.payload)).1))
      ∧ ((s.sendingMsgQueue = []
            ∨ ∃ m rest, s.sendingMsgQueue = m :: rest ∧ m.i_cmd ≠ f.getD 2 0) →
          s1.sendingMsgQueue = s.sendingMsgQueue ∧ s1.wait_rsp = s.wait_rsp
          ∧ dataFramesOf s1.trace = dataFramesOf s.trace)
      ∧ (∃ pre, s1.trace = pre ++ s.observers.map
            (fun o => Event.handleEzspRxMessage o (f.getD 2 0)
              ((f.drop 3).take (f.length - 5)))
          ∧ rxMessagesOf pre = rxMessagesOf s.trace) := by
  have hacc := handleInputData_accept env s f hm hf
  rw [if_pos hl] at hacc
  obtain ⟨ext, hx1, hx2⟩ := handleResponse_trace_ext env (ashSendAckFrame env s) (f.getD 2 0)
  have hobs := handleResponse_observers env (ashSendAckFrame env s) (f.getD 2 0)
  refine ⟨_, hacc, ?_, ?_, ?_, ?_, ?_⟩
  · refine ⟨(if s.ash.serialWriteFunc then
        [Event.serialWrite (env.forgeAckFrame s.ash.ashCodec).1] else []) ++ ext
      ++ s.observers.map (fun o => Event.handleEzspRxMessage o (f.getD 2 0)
          ((f.drop 3).take (f.length - 5))), ?_⟩
    show (handleResponse env (ashSendAckFrame env s) (f.getD 2 0)).trace ++ _ = _
    rw [hx1, ashSendAckFrame_trace, hobs]
    simp [ashSendAckFrame]
  · show ackFramesOf ((handleResponse env (ashSendAckFrame env s) (f.getD 2 0)).trace ++ _) = _
    rw [ackFramesOf_append, ackFramesOf_map_rx, handleResponse_ackFrames,
      ashSendAckFrame_ackFrames]
  · intro m rest hq hc
    have hX : handleResponse env (ashSendAckFrame env s) (f.getD 2 0)
        = sendNextMsg env
            { ashSendAckFrame env s with sendingMsgQueue := rest, wait_rsp := false } := by
      rw [← hc]
      exact handleResponse_match env (ashSendAckFrame env s) m rest hq
    have hd := sendNextMsg_drain env
      { ashSendAckFrame env s with sendingMsgQueue := rest, wait_rsp := false } hm rfl
    refine ⟨by rw [hX], ?_, ?_, ?_⟩
    · rw [hX]
      exact sendNextMsg_queue env _
    · rw [hX]
      show dataFramesOf (_ ++ _) = _
      rw [dataFramesOf_append, dataFramesOf_map_rx, List.append_nil, hd.1]
      show dataFramesOf (ashSendAckFrame env s).trace ++ _ = _
      rw [ashSendAckFrame_dataFrames]
    · rw [hX]
      exact hd.2
  · intro hq
    have hX : handleResponse env (ashSendAckFrame env s) (f.getD 2 0)
        = ashSendAckFrame env s :=
      handleResponse_async env (ashSendAckFrame env s) (f.getD 2 0) hq
    rw [hX]
    refine ⟨rfl, rfl, ?_⟩
    show dataFramesOf (_ ++ _) = _
    rw [dataFramesOf_append, dataFramesOf_map_rx, List.append_nil,
      ashSendAckFrame_dataFrames]
  · refine ⟨(handleResponse env (ashSendAckFrame env s) (f.getD 2 0)).trace, ?_, ?_⟩
    · show _ ++ _ = _
      rw [hobs]
      rfl
    · rw [hx1, rxMessagesOf_append, hx2, List.append_nil, ashSendAckFrame_rxMessages]

/-- Witness of `handleInputData_correlation`: two commands are queued on a connected
dispatcher (`0x00` sent, `0x02` waiting), and the response to `0x00` arrives. -/
theorem handleInputData_correlation_witness :
    ∃ s1, handleInputData (Env.sample 0)
        (sendCommand (Env.sample 0) (sendCommand (Env.sample 0) sampleConnected 0x00 [0x08])
          0x02 [])
        [0x00, 0x80, 0x00, 0x30, 0x67, 0x08, 0x02, 0xC1, 0xC2] = Except.ok s1
      ∧ ackFramesOf s1.trace = ackFramesOf
          (sendCommand (Env.sample 0) (sendCommand (Env.sample 0) sampleConnected 0x00 [0x08])
            0x02 []).trace + 1 :=
  (handleInputData_correlation (Env.sample 0)
    (sendCommand (Env.sample 0) (sendCommand (Env.sample 0) sampleConnected 0x00 [0x08]) 0x02 [])
    [0x00, 0x80, 0x00, 0x30, 0x67, 0x08, 0x02, 0xC1, 0xC2]
    (Or.inl rfl) (by decide) (by decide)).imp (fun _ h => ⟨h.1, h.2.2.1⟩)

end Delivery

/-! ## Theorems: the send pipeline -/

section Send

variable {σ : Type}

open CEzspDongle

theorem sendNextMsg_head (env : Env σ) (s : CEzspDongle σ) (m : SMsg) (rest : List SMsg)
    (hm : s.lastKnownMode = Mode.EZSP_NCP ∨ s.lastKnownMode = Mode.UNKNOWN)
    (hw : s.wait_rsp = false) (hq : s.sendingMsgQueue = m :: rest) (hb : m.i_cmd < 256) :
    dataFramesOf (sendNextMsg env s).trace = dataFramesOf s.trace ++ [[m.i_cmd] ++ m.payload]
    ∧ (sendNextMsg env s).sendingMsgQueue = m :: rest
    ∧ ((sendNextMsg env s).wait_rsp = true
        ↔ (ashSendDataFrame env s ([m.i_cmd] ++ m.payload)).1 = true) := by
  have hmod : m.i_cmd % 256 = m.i_cmd := Nat.mod_eq_of_lt hb
  have hsend := sendNextMsg_send env s m rest hm hw hq
  rw [hmod] at hsend
  refine ⟨?_, ?_, ?_⟩
  · rw [hsend]
    have ht := ashSendDataFrame_dataFrames env s ([m.i_cmd] ++ m.payload)
    split_ifs <;> exact ht
  · rw [sendNextMsg_queue, hq]
  · rw [hsend]
    by_cases hr : (ashSendDataFrame env s ([m.i_cmd] ++ m.payload)).1 = true
    · rw [if_pos hr]
      exact ⟨fun _ => hr, fun _ => rfl⟩
    · rw [if_neg hr]
      constructor
      · intro h
        have h0 : (ashSendDataFrame env s ([m.i_cmd] ++ m.payload)).2.wait_rsp = s.wait_rsp :=
          rfl
        rw [h0, hw] at h
        exact Bool.noConfusion h
      · intro h
        exact absurd h hr

/-- C11: `sendCommand(cmdId, payload)` always appends the record `{cmdId, payload}` at the tail
of the queue. If the mode is neither `EZSP_NCP` nor `UNKNOWN`, or `wait_rsp` is true, the
result is the input state with only the longer queue (nothing is sent, `wait_rsp` is
unchanged). Otherwise, with `m` the head of the queue after the append (its cmdId being a
byte), `[m.cmdId] ++ m.payload` is handed to `sendDataFrame` in exactly one call, the head
stays in the queue, and `wait_rsp` is true afterwards exactly when that `sendDataFrame`
returned true. -/
theorem sendCommand_drain (env : Env σ) (s : CEzspDongle σ) (c : Nat) (p : List Nat) :
    (sendCommand env s c p).sendingMsgQueue = s.sendingMsgQueue ++ [⟨c, p⟩]
    ∧ s.sendingMsgQueue ++ [(⟨c, p⟩ : SMsg)] ≠ []
    ∧ (((s.lastKnownMode ≠ Mode.EZSP_NCP ∧ s.lastKnownMode ≠ Mode.UNKNOWN)
          ∨ s.wait_rsp = true) →
        sendCommand env s c p = { s with sendingMsgQueue := s.sendingMsgQueue ++ [⟨c, p⟩] })
    ∧ ((s.lastKnownMode = Mode.EZSP_NCP ∨ s.lastKnownMode = Mode.UNKNOWN) →
        s.wait_rsp = false →
        ∀ (m : SMsg) (rest : List SMsg), s.sendingMsgQueue ++ [⟨c, p⟩] = m :: rest →
          m.i_cmd < 256 →
          dataFramesOf (sendCommand env s c p).trace
            = dataFramesOf s.trace ++ [[m.i_cmd] ++ m.payload]
          ∧ (sendCommand env s c p).sendingMsgQueue = m :: rest
          ∧ ((sendCommand env s c p).wait_rsp = true
              ↔ (ashSendDataFrame env
                  { s with sendingMsgQueue := s.sendingMsgQueue ++ [⟨c, p⟩] }
                  ([m.i_cmd] ++ m.payload)).1 = true)) := by
  refine ⟨?_, by simp, ?_, ?_⟩
  · unfold sendCommand
    exact sendNextMsg_queue env _
  · intro h
    unfold sendCommand
    apply sendNextMsg_blocked
    rcases h with h | h
    · exact Or.inl h
    · exact Or.inr (Or.inl h)
  · intro hm hw m rest hq hb
    unfold sendCommand
    exact sendNextMsg_head env { s with sendingMsgQueue := s.sendingMsgQueue ++ [⟨c, p⟩] }
      m rest hm hw hq hb

/-- Witness of `sendCommand_drain`: `sendCommand(0x00, [0x08])` on a connected dispatcher with
an empty queue sends `[0x00, 0x08]`; a second `sendCommand(0x02, [])` only enqueues. -/
theorem sendCommand_drain_witness :
    (dataFramesOf (sendCommand (Env.sample 0) sampleConnected 0x00 [0x08]).trace
        = dataFramesOf sampleConnected.trace ++ [[0x00] ++ [0x08]]
      ∧ (sendCommand (Env.sample 0) sampleConnected 0x00 [0x08]).sendingMsgQueue
        = [⟨0x00, [0x08]⟩]
      ∧ ((sendCommand (Env.sample 0) sampleConnected 0x00 [0x08]).wait_rsp = true
          ↔ (ashSendDataFrame (Env.sample 0)
              { sampleConnected with
                sendingMsgQueue := sampleConnected.sendingMsgQueue ++ [⟨0x00, [0x08]⟩] }
              ([0x00] ++ [0x08])).1 = true))
    ∧ sendCommand (Env.sample 0) (sendCommand (Env.sample 0) sampleConnected 0x00 [0x08]) 0x02 []
      = { sendCommand (Env.sample 0) sampleConnected 0x00 [0x08] with
          sendingMsgQueue :=
            (sendCommand (Env.sample 0) sampleConnected 0x00 [0x08]).sendingMsgQueue
              ++ [⟨0x02, []⟩] } :=
  ⟨(sendCommand_drain (Env.sample 0) sampleConnected 0x00 [0x08]).2.2.2 (Or.inl rfl) rfl
      ⟨0x00, [0x08]⟩ [] rfl (by decide),
   (sendCommand_drain (Env.sample 0) (sendCommand (Env.sample 0) sampleConnected 0x00 [0x08])
      0x02 []).2.2.1 (Or.inr rfl)⟩

/-- C12: for every dispatcher state with a non-empty queue `m :: rest` (the cmdId of `m` being
a byte) in mode `EZSP_NCP` or `UNKNOWN`, handling `ASH_NACK` clears `wait_rsp` and calls
`sendDataFrame` exactly once, with `[m.cmdId] ++ m.payload`; the queue is unchanged, and
afterwards `wait_rsp` is true exactly when that send returned true. -/
theorem ashCbInfo_nack_resends (env : Env σ) (s : CEzspDongle σ) (m : SMsg)
    (rest : List SMsg)
    (hm : s.lastKnownMode = Mode.EZSP_NCP ∨ s.lastKnownMode = Mode.UNKNOWN)
    (hq : s.sendingMsgQueue = m :: rest) (hb : m.i_cmd < 256) :
    ashCbInfo env s EAshInfo.ASH_NACK = sendNextMsg env { s with wait_rsp := false }
    ∧ dataFramesOf (ashCbInfo env s EAshInfo.ASH_NACK).trace
      = dataFramesOf s.trace ++ [[m.i_cmd] ++ m.payload]
    ∧ (ashCbInfo env s EAshInfo.ASH_NACK).sendingMsgQueue = m :: rest
    ∧ ((ashCbInfo env s EAshInfo.ASH_NACK).wait_rsp = true
        ↔ (ashSendDataFrame env { s with wait_rsp := false }
            ([m.i_cmd] ++ m.payload)).1 = true) :=
  ⟨rfl, sendNextMsg_head env { s with wait_rsp := false } m rest hm rfl hq hb⟩

/-- Witness of `ashCbInfo_nack_resends`: the frame of `sendCommand(0x00, [0x08])` is in flight
on a connected dispatcher when `ASH_NACK` arrives. -/
theorem ashCbInfo_nack_resends_witness :
    ashCbInfo (Env.sample 0) (sendCommand (Env.sample 0) sampleConnected 0x00 [0x08])
        EAshInfo.ASH_NACK
      = sendNextMsg (Env.sample 0)
          { sendCommand (Env.sample 0) sampleConnected 0x00 [0x08] with wait_rsp := false }
    ∧ dataFramesOf (ashCbInfo (Env.sample 0)
          (sendCommand (Env.sample 0) sampleConnected 0x00 [0x08]) EAshInfo.ASH_NACK).trace
      = dataFramesOf (sendCommand (Env.sample 0) sampleConnected 0x00 [0x08]).trace
        ++ [[0x00] ++ [0x08]]
    ∧ (ashCbInfo (Env.sample 0) (sendCommand (Env.sample 0) sampleConnected 0x00 [0x08])
        EAshInfo.ASH_NACK).sendingMsgQueue = [⟨0x00, [0x08]⟩]
    ∧ ((ashCbInfo (Env.sample 0) (sendCommand (Env.sample 0) sampleConnected 0x00 [0x08])
          EAshInfo.ASH_NACK).wait_rsp = true
        ↔ (ashSendDataFrame (Env.sample 0)
            { sendCommand (Env.sample 0) sampleConnected 0x00 [0x08] with wait_rsp := false }
            ([0x00] ++ [0x08])).1 = true) :=
  ashCbInfo_nack_resends (Env.sample 0) (sendCommand (Env.sample 0) sampleConnected 0x00 [0x08])
    ⟨0x00, [0x08]⟩ [] (Or.inl rfl) rfl (by decide)

end Send

/-! ## Theorems: the startup fallback -/

section Startup

variable {σ : Type}

open CEzspDongle

theorem sendNextMsg_firstStartup (env : Env σ) (s : CEzspDongle σ) :
    (sendNextMsg env s).firstStartup = s.firstStartup := by
  rcases sendNextMsg_cases env s with h | ⟨m, rest, _, _, _, h⟩
  · rw [h]
  · rw [h]
    split_ifs <;> rfl

theorem handleResponse_firstStartup (env : Env σ) (s : CEzspDongle σ) (c : Nat) :
    (handleResponse env s c).firstStartup = s.firstStartup := by
  rcases handleResponse_cases env s c with h | ⟨m, rest, _, _, h⟩
  · rw [h]
  · rw [h]
    exact sendNextMsg_firstStartup env _

theorem reset_firstStartup (env : Env σ) (s : CEzspDongle σ) :
    (reset env s).2.firstStartup = s.firstStartup := by
  unfold reset
  split_ifs
  · rfl
  · dsimp only
    split_ifs <;> rfl

theorem setMode_firstStartup (s : CEzspDongle σ) (r : Mode) :
    (setMode s r).firstStartup = s.firstStartup := by
  unfold setMode
  split_ifs <;> rfl

theorem promptDetected_firstStartup (env : Env σ) (s : CEzspDongle σ) :
    (promptDetected env s).firstStartup = s.firstStartup := by
  unfold promptDetected
  cases s.blp.promptDetectCallback with
  | none => rfl
  | some cb =>
    cases cb with
    | exitToEzspNcp => exact reset_firstStartup env _
    | firmwareUpgrade => rfl

theorem handleInputData_firstStartup (env : Env σ) (s : CEzspDongle σ) (f : List Nat)
    (hf : (f.isEmpty || decide (5 ≤ f.length)) = true) :
    ∃ s1, handleInputData env s f = Except.ok s1 ∧ s1.firstStartup = s.firstStartup := by
  by_cases hm : s.lastKnownMode = Mode.EZSP_NCP ∨ s.lastKnownMode = Mode.UNKNOWN
  · by_cases he : f = []
    · refine ⟨s, ?_, rfl⟩
      rw [he]
      unfold handleInputData
      simp
    · have h5 : 5 ≤ f.length := by
        cases f with
        | nil => exact absurd rfl he
        | cons a t => simpa using hf
      rw [handleInputData_accept env s f hm h5]
      refine ⟨_, rfl, ?_⟩
      show (if f.getD 2 0 ≠ env.EZSP_LAUNCH_STANDALONE_BOOTLOADER
        then handleResponse env (ashSendAckFrame env s) (f.getD 2 0) else s).firstStartup = _
      split_ifs
      · exact handleResponse_firstStartup env _ _
      · rfl
  · have hm2 : s.lastKnownMode ≠ Mode.EZSP_NCP ∧ s.lastKnownMode ≠ Mode.UNKNOWN :=
      ⟨fun h => hm (Or.inl h), fun h => hm (Or.inr h)⟩
    exact ⟨s, handleInputData_discard env s f hm2, rfl⟩

theorem ashCbInfo_firstStartup (env : Env σ) (s : CEzspDongle σ) (i : EAshInfo) :
    (i ≠ EAshInfo.ASH_RESET_FAILED → (ashCbInfo env s i).firstStartup = s.firstStartup)
    ∧ (s.firstStartup = false → (ashCbInfo env s i).firstStartup = false)
    ∧ (i = EAshInfo.ASH_RESET_FAILED → (ashCbInfo env s i).firstStartup = false) := by
  cases i with
  | ASH_RESET_FAILED =>
    refine ⟨fun h => absurd rfl h, ?_, ?_⟩
    · intro h
      unfold ashCbInfo
      simp [h, notifyObserversOfDongleState]
    · intro _
      unfold ashCbInfo
      cases h : s.firstStartup
      · simp [h, notifyObserversOfDongleState]
      · simp
  | ASH_NACK =>
    have h := sendNextMsg_firstStartup env { s with wait_rsp := false }
    exact ⟨fun _ => h, fun h0 => h.trans h0, fun h0 => EAshInfo.noConfusion h0⟩
  | ASH_STATE_CONNECTED =>
    exact ⟨fun _ => rfl, fun h0 => h0, fun h0 => EAshInfo.noConfusion h0⟩
  | ASH_STATE_DISCONNECTED =>
    exact ⟨fun _ => rfl, fun h0 => h0, fun h0 => EAshInfo.noConfusion h0⟩
  | OTHER => exact ⟨fun _ => rfl, fun h0 => h0, fun h0 => EAshInfo.noConfusion h0⟩

theorem call_firstStartup (env : Env σ) (s : CEzspDongle σ) (c : DongleCall)
    (hf : c.wellFormed = true) :
    ∃ s1, call env s c = Except.ok s1
      ∧ (c ≠ DongleCall.ashCbInfo EAshInfo.ASH_RESET_FAILED →
          s1.firstStartup = s.firstStartup)
      ∧ (s.firstStartup = false → s1.firstStartup = false)
      ∧ (c = DongleCall.ashCbInfo EAshInfo.ASH_RESET_FAILED → s1.firstStartup = false) := by
  cases c with
  | registerObserver o =>
    have h : (registerObserver s o).2.firstStartup = s.firstStartup := by
      unfold registerObserver
      split_ifs <;> rfl
    exact ⟨_, rfl, fun _ => h, fun h0 => h.trans h0, fun h0 => DongleCall.noConfusion h0⟩
  | unregisterObserver o =>
    exact ⟨_, rfl, fun _ => rfl, fun h0 => h0, fun h0 => DongleCall.noConfusion h0⟩
  | setUart => exact ⟨_, rfl, fun _ => rfl, fun h0 => h0, fun h0 => DongleCall.noConfusion h0⟩
  | reset =>
    have h := reset_firstStartup env s
    exact ⟨_, rfl, fun _ => h, fun h0 => h.trans h0, fun h0 => DongleCall.noConfusion h0⟩
  | forceFirmwareUpgradeOnInitTimeout =>
    exact ⟨_, rfl, fun _ => rfl, fun h0 => h0, fun h0 => DongleCall.noConfusion h0⟩
  | sendCommand cmd p =>
    have h : (sendCommand env s cmd p).firstStartup = s.firstStartup := by
      unfold sendCommand
      exact sendNextMsg_firstStartup env _
    exact ⟨_, rfl, fun _ => h, fun h0 => h.trans h0, fun h0 => DongleCall.noConfusion h0⟩
  | handleInputData f =>
    obtain ⟨s1, h1, h2⟩ := handleInputData_firstStartup env s f hf
    exact ⟨s1, h1, fun _ => h2, fun h0 => h2.trans h0, fun h0 => DongleCall.noConfusion h0⟩
  | ashCbInfo i =>
    have h := ashCbInfo_firstStartup env s i
    refine ⟨_, rfl, ?_, h.2.1, ?_⟩
    · intro hne
      apply h.1
      intro hi
      exact hne (by rw [hi])
    · intro hc
      apply h.2.2
      exact DongleCall.ashCbInfo.inj hc
  | setMode r =>
    have h := setMode_firstStartup s r
    exact ⟨_, rfl, fun _ => h, fun h0 => h.trans h0, fun h0 => DongleCall.noConfusion h0⟩
  | promptDetected =>
    have h := promptDetected_firstStartup env s
    exact ⟨_, rfl, fun _ => h, fun h0 => h.trans h0, fun h0 => DongleCall.noConfusion h0⟩

theorem calls_firstStartup (env : Env σ) (cs : List DongleCall) :
    ∀ s : CEzspDongle σ, (∀ c ∈ cs, c.wellFormed = true) →
      ∃ s1, calls env s cs = Except.ok s1
        ∧ ((∀ c ∈ cs, c ≠ DongleCall.ashCbInfo EAshInfo.ASH_RESET_FAILED) →
            s1.firstStartup = s.firstStartup)
        ∧ (s.firstStartup = false → s1.firstStartup = false)
        ∧ (DongleCall.ashCbInfo EAshInfo.ASH_RESET_FAILED ∈ cs → s1.firstStartup = false) := by
  induction cs with
  | nil =>
    intro s _
    exact ⟨s, rfl, fun _ => rfl, fun h => h, fun h => absurd h (List.not_mem_nil _)⟩
  | cons c cs ih =>
    intro s hf
    obtain ⟨s1, h1, h2, h3, h4⟩ := call_firstStartup env s c (hf c (List.mem_cons_self c cs))
    obtain ⟨s2, g1, g2, g3, g4⟩ := ih s1 (fun x hx => hf x (List.mem_cons_of_mem c hx))
    refine ⟨s2, ?_, ?_, ?_, ?_⟩
    · simp only [calls, h1]
      exact g1
    · intro hall
      rw [g2 (fun x hx => hall x (List.mem_cons_of_mem c hx)),
        h2 (hall c (List.mem_cons_self c cs))]
    · intro h0
      exact g3 (h3 h0)
    · intro hmem
      rcases List.mem_cons.mp hmem with h | h
      · exact g3 (h4 h.symm)
      · exact g4 h

/-- C13: startup fallback. `firstStartup` is true after construction. Over every sequence of
well-formed dispatcher calls, the flag keeps its value as long as no `ASH_RESET_FAILED` is
handled, is false once one has been handled, and stays false once it is false. Handling
`ASH_RESET_FAILED` while `firstStartup` is true is `setMode(BOOTLOADER_FIRMWARE_UPGRADE)` if
`switchToFirmwareUpgradeOnInitTimeout` is set and `setMode(BOOTLOADER_EXIT_TO_EZSP_NCP)`
otherwise, followed by clearing `firstStartup`; the trace gains at most the reset of the
bootloader prompt driver, so no `DONGLE_NOT_RESPONDING` is emitted. Handling it while
`firstStartup` is false appends one `handleDongleState(DONGLE_NOT_RESPONDING)` call per
observer and changes nothing else (mode, queue and `wait_rsp` included). -/
theorem firstStartup_fallback (env : Env σ) :
    (∀ (codec : σ) (obs : Option Nat), (ctor codec obs).firstStartup = true)
    ∧ (∀ (s : CEzspDongle σ) (cs : List DongleCall), (∀ c ∈ cs, c.wellFormed = true) →
        ∃ s1, calls env s cs = Except.ok s1
          ∧ ((∀ c ∈ cs, c ≠ DongleCall.ashCbInfo EAshInfo.ASH_RESET_FAILED) →
              s1.firstStartup = s.firstStartup)
          ∧ (s.firstStartup = false → s1.firstStartup = false)
          ∧ (DongleCall.ashCbInfo EAshInfo.ASH_RESET_FAILED ∈ cs → s1.firstStartup = false))
    ∧ (∀ s : CEzspDongle σ, s.firstStartup = true →
        ashCbInfo env s EAshInfo.ASH_RESET_FAILED =
          { setMode s (if s.switchToFirmwareUpgradeOnInitTimeout
              then Mode.BOOTLOADER_FIRMWARE_UPGRADE
              else Mode.BOOTLOADER_EXIT_TO_EZSP_NCP) with firstStartup := false }
        ∧ ((ashCbInfo env s EAshInfo.ASH_RESET_FAILED).trace = s.trace
          ∨ (ashCbInfo env s EAshInfo.ASH_RESET_FAILED).trace = s.trace ++ [Event.blpReset]))
    ∧ (∀ s : CEzspDongle σ, s.firstStartup = false →
        ashCbInfo env s EAshInfo.ASH_RESET_FAILED =
          { s with trace := (s.trace ++ s.observers.map
              (fun o => Event.handleDongleState o EDongleState.DONGLE_NOT_RESPONDING)) }) := by
  refine ⟨?_, fun s cs hf => calls_firstStartup env cs s hf, ?_, ?_⟩
  · intro codec obs
    cases obs with
    | none => rfl
    | some o => rfl
  · intro s h
    have he : ashCbInfo env s EAshInfo.ASH_RESET_FAILED =
        { setMode s (if s.switchToFirmwareUpgradeOnInitTimeout
            then Mode.BOOTLOADER_FIRMWARE_UPGRADE
            else Mode.BOOTLOADER_EXIT_TO_EZSP_NCP) with firstStartup := false } := by
      unfold ashCbInfo
      simp only [h, if_true]
      cases s.switchToFirmwareUpgradeOnInitTimeout <;> rfl
    refine ⟨he, ?_⟩
    rw [he]
    show (setMode s _).trace = s.trace ∨ (setMode s _).trace = s.trace ++ [Event.blpReset]
    unfold setMode
    split_ifs
    · exact Or.inr rfl
    · exact Or.inr rfl
    · exact Or.inl rfl
    · exact Or.inr rfl
    · exact Or.inr rfl
    · exact Or.inl rfl
  · intro s h
    have e : ashCbInfo env s EAshInfo.ASH_RESET_FAILED
        = notifyObserversOfDongleState s EDongleState.DONGLE_NOT_RESPONDING := by
      unfold ashCbInfo
      simp only [h, Bool.false_eq_true, if_false]
    rw [e]
    rfl

/-- Witness of `firstStartup_fallback`: from the constructed dispatcher, `setUart`, `reset`
and a `sendCommand` keep `firstStartup`; the first `ASH_RESET_FAILED` requests the exit from
the bootloader; a second one reports `DONGLE_NOT_RESPONDING` to observer `1`. -/
theorem firstStartup_fallback_witness :
    (∃ s1, calls (Env.sample 0) (ctor (0 : Nat) (some 1))
          [DongleCall.setUart, DongleCall.reset, DongleCall.sendCommand 0x00 [0x08]]
          = Except.ok s1
        ∧ s1.firstStartup = true)
    ∧ ashCbInfo (Env.sample 0) sampleReset EAshInfo.ASH_RESET_FAILED =
        { setMode sampleReset (if sampleReset.switchToFirmwareUpgradeOnInitTimeout
            then Mode.BOOTLOADER_FIRMWARE_UPGRADE
            else Mode.BOOTLOADER_EXIT_TO_EZSP_NCP) with firstStartup := false }
    ∧ ashCbInfo (Env.sample 0)
        (ashCbInfo (Env.sample 0) sampleReset EAshInfo.ASH_RESET_FAILED)
        EAshInfo.ASH_RESET_FAILED =
        { ashCbInfo (Env.sample 0) sampleReset EAshInfo.ASH_RESET_FAILED with
          trace := ((ashCbInfo (Env.sample 0) sampleReset EAshInfo.ASH_RESET_FAILED).trace
            ++ (ashCbInfo (Env.sample 0) sampleReset EAshInfo.ASH_RESET_FAILED).observers.map
              (fun o => Event.handleDongleState o EDongleState.DONGLE_NOT_RESPONDING)) } :=
  ⟨((firstStartup_fallback (Env.sample 0)).2.1 (ctor (0 : Nat) (some 1))
        [DongleCall.setUart, DongleCall.reset, DongleCall.sendCommand 0x00 [0x08]]
        (by decide)).imp (fun _ h => ⟨h.1, h.2.1 (by decide)⟩),
   ((firstStartup_fallback (Env.sample 0)).2.2.1 sampleReset rfl).1,
   (firstStartup_fallback (Env.sample 0)).2.2.2
      (ashCbInfo (Env.sample 0) sampleReset EAshInfo.ASH_RESET_FAILED) rfl⟩

end Startup

/-! ## Theorems: the adapter-mode transitions -/

section ModeTransitions

variable {σ : Type}

open CEzspDongle

theorem reset_trace (env : Env σ) (s : CEzspDongle σ) (hu : s.uartHandle = true) :
    (reset env s).2.trace =
      s.trace ++ Event.sendResetNCPFrame :: Event.timerStop ::
        ((if s.ash.serialWriteFunc then
          [Event.serialWrite (env.forgeResetNCPFrame s.ash.ashCodec).1] else [])
         ++ (if (reset env s).1 then [Event.timerStart T_ACK_ASH_RESET] else [])) := by
  simp only [reset, hu, AshDriver.sendResetNCPFrame, AshDriver.enable]
  simp only [Bool.not_true, Bool.false_eq_true, if_false]
  split <;> simp_all [sendAshFrame_trace]

theorem reset_fields (env : Env σ) (s : CEzspDongle σ) :
    (reset env s).2.lastKnownMode = s.lastKnownMode
    ∧ (reset env s).2.sendingMsgQueue = s.sendingMsgQueue
    ∧ (reset env s).2.wait_rsp = s.wait_rsp
    ∧ (reset env s).2.observers = s.observers := by
  unfold reset
  split_ifs
  · exact ⟨rfl, rfl, rfl, rfl⟩
  · dsimp only
    split_ifs <;> exact ⟨rfl, rfl, rfl, rfl⟩

theorem ashCbInfo_reset_failed_exit (env : Env σ) (s : CEzspDongle σ)
    (hmode : s.lastKnownMode ≠ Mode.EZSP_NCP) (hfs : s.firstStartup = true)
    (hsw : s.switchToFirmwareUpgradeOnInitTimeout = false) :
    ashCbInfo env s EAshInfo.ASH_RESET_FAILED =
      { s with
        firstStartup := false
        lastKnownMode := Mode.BOOTLOADER_EXIT_TO_EZSP_NCP
        blp := { enabled := true,
                 promptDetectCallback := some PromptDetectCallback.exitToEzspNcp }
        trace := s.trace ++ [Event.blpReset] } := by
  unfold ashCbInfo
  simp only [hfs, hsw, if_true, Bool.false_eq_true, if_false]
  unfold setMode
  simp [hmode, hsw]

theorem promptDetected_exit (env : Env σ) (s : CEzspDongle σ)
    (hcb : s.blp.promptDetectCallback = some PromptDetectCallback.exitToEzspNcp) :
    promptDetected env s =
      (reset env
        { s with
          trace := (s.trace ++ s.observers.map (fun o => Event.handleBootloaderPrompt o))
            ++ [Event.blpSelectModeRun]
          lastKnownMode := Mode.EZSP_NCP
          ash := s.ash.enable
          blp := { s.blp with enabled := false } }).2 := by
  unfold promptDetected
  rw [hcb]
  rfl

theorem reset_trace_tail (env : Env σ) (s : CEzspDongle σ) (hu : s.uartHandle = true) :
    ∃ tail, (reset env s).2.trace
        = s.trace ++ [Event.sendResetNCPFrame, Event.timerStop]
          ++ (if s.ash.serialWriteFunc then
              [Event.serialWrite (env.forgeResetNCPFrame s.ash.ashCodec).1] else [])
          ++ tail
      ∧ (tail = [] ∨ tail = [Event.timerStart T_ACK_ASH_RESET]) := by
  refine ⟨if (reset env s).1 then [Event.timerStart T_ACK_ASH_RESET] else [], ?_, ?_⟩
  · rw [reset_trace env s hu]
    simp only [List.append_assoc, List.cons_append, List.nil_append]
  · split_ifs
    · exact Or.inr rfl
    · exact Or.inl rfl

theorem promptDetected_exit_effects (env : Env σ) (s : CEzspDongle σ)
    (hcb : s.blp.promptDetectCallback = some PromptDetectCallback.exitToEzspNcp)
    (hu : s.uartHandle = true) :
    (promptDetected env s).lastKnownMode = Mode.EZSP_NCP
    ∧ (promptDetected env s).ash.enabled = true
    ∧ (promptDetected env s).blp.enabled = false
    ∧ ∃ tail, (promptDetected env s).trace
        = s.trace ++ s.observers.map (fun o => Event.handleBootloaderPrompt o)
          ++ [Event.blpSelectModeRun]
          ++ [Event.sendResetNCPFrame, Event.timerStop]
          ++ (if s.ash.serialWriteFunc then
              [Event.serialWrite (env.forgeResetNCPFrame s.ash.ashCodec).1] else [])
          ++ tail
      ∧ (tail = [] ∨ tail = [Event.timerStart T_ACK_ASH_RESET]) := by
  obtain ⟨tail, ht, htl⟩ := reset_trace_tail env
    { s with
      trace := (s.trace ++ s.observers.map (fun o => Event.handleBootloaderPrompt o))
        ++ [Event.blpSelectModeRun]
      lastKnownMode := Mode.EZSP_NCP
      ash := s.ash.enable
      blp := { s.blp with enabled := false } } hu
  rw [promptDetected_exit env s hcb]
  refine ⟨?_, ?_, ?_, tail, ht, htl⟩
  · exact (reset_fields env _).1
  · refine (reset_enabled env _ ?_).1
    exact hu
  · refine (reset_enabled env _ ?_).2
    exact hu

/-- C14: from a state after `reset()` (a UART is set, mode `UNKNOWN`, `firstStartup` true,
`switchToFirmwareUpgradeOnInitTimeout` false), handling `ASH_RESET_FAILED` sets the mode to
`BOOTLOADER_EXIT_TO_EZSP_NCP`, enables the bootloader prompt driver and registers the exit
callback. When the prompt-detection callback then fires, the trace gains, in this order, one
`handleBootloaderPrompt` call per observer, the "run" selection, and the calls of
`sendResetNCPFrame` issued by `reset()` (timer stop, write of the forged RST frame when a
writer is registered, timer start when the write succeeded); afterwards the mode is
`EZSP_NCP`, the ASH driver is enabled and the bootloader prompt driver is disabled. -/
theorem reset_timeout_fallback (env : Env σ) (s : CEzspDongle σ)
    (hu : s.uartHandle = true) (hmode : s.lastKnownMode = Mode.UNKNOWN)
    (hfs : s.firstStartup = true) (hsw : s.switchToFirmwareUpgradeOnInitTimeout = false) :
    (ashCbInfo env s EAshInfo.ASH_RESET_FAILED).lastKnownMode
      = Mode.BOOTLOADER_EXIT_TO_EZSP_NCP
    ∧ (ashCbInfo env s EAshInfo.ASH_RESET_FAILED).blp.enabled = true
    ∧ (ashCbInfo env s EAshInfo.ASH_RESET_FAILED).blp.promptDetectCallback
      = some PromptDetectCallback.exitToEzspNcp
    ∧ (promptDetected env (ashCbInfo env s EAshInfo.ASH_RESET_FAILED)).lastKnownMode
      = Mode.EZSP_NCP
    ∧ (promptDetected env (ashCbInfo env s EAshInfo.ASH_RESET_FAILED)).ash.enabled = true
    ∧ (promptDetected env (ashCbInfo env s EAshInfo.ASH_RESET_FAILED)).blp.enabled = false
    ∧ ∃ tail, (promptDetected env (ashCbInfo env s EAshInfo.ASH_RESET_FAILED)).trace
        = (ashCbInfo env s EAshInfo.ASH_RESET_FAILED).trace
          ++ s.observers.map (fun o => Event.handleBootloaderPrompt o)
          ++ [Event.blpSelectModeRun]
          ++ [Event.sendResetNCPFrame, Event.timerStop]
          ++ (if s.ash.serialWriteFunc then
              [Event.serialWrite (env.forgeResetNCPFrame s.ash.ashCodec).1] else [])
          ++ tail
      ∧ (tail = [] ∨ tail = [Event.timerStart T_ACK_ASH_RESET]) := by
  have h1 := ashCbInfo_reset_failed_exit env s (by rw [hmode]; decide) hfs hsw
  have hcb : (ashCbInfo env s EAshInfo.ASH_RESET_FAILED).blp.promptDetectCallback
      = some PromptDetectCallback.exitToEzspNcp := by rw [h1]
  have hu1 : (ashCbInfo env s EAshInfo.ASH_RESET_FAILED).uartHandle = true := by
    rw [h1]
    exact hu
  have hx := promptDetected_exit_effects env _ hcb hu1
  have hobs : (ashCbInfo env s EAshInfo.ASH_RESET_FAILED).observers = s.observers := by
    rw [h1]
  have hash : (ashCbInfo env s EAshInfo.ASH_RESET_FAILED).ash = s.ash := by rw [h1]
  rw [hobs, hash] at hx
  refine ⟨by rw [h1], by rw [h1], hcb, hx⟩

/-- Witness of `reset_timeout_fallback`: the dispatcher with observer `1` after `setUart` and
`reset()`. -/
theorem reset_timeout_fallback_witness :
    (ashCbInfo (Env.sample 0) sampleReset EAshInfo.ASH_RESET_FAILED).lastKnownMode
      = Mode.BOOTLOADER_EXIT_TO_EZSP_NCP
    ∧ (ashCbInfo (Env.sample 0) sampleReset EAshInfo.ASH_RESET_FAILED).blp.enabled = true
    ∧ (ashCbInfo (Env.sample 0) sampleReset EAshInfo.ASH_RESET_FAILED).blp.promptDetectCallback
      = some PromptDetectCallback.exitToEzspNcp
    ∧ (promptDetected (Env.sample 0)
        (ashCbInfo (Env.sample 0) sampleReset EAshInfo.ASH_RESET_FAILED)).lastKnownMode
      = Mode.EZSP_NCP :=
  have h := reset_timeout_fallback (Env.sample 0) sampleReset rfl rfl rfl rfl
  ⟨h.1, h.2.1, h.2.2.1, h.2.2.2.1⟩

/-- C15: for every dispatcher state whose mode is `EZSP_NCP` or `UNKNOWN`,
`setMode(BOOTLOADER_FIRMWARE_UPGRADE)` sets the mode to `BOOTLOADER_FIRMWARE_UPGRADE`,
disables the ASH driver, enables the bootloader prompt driver, registers the firmware-upgrade
callback, resets the prompt driver and changes nothing else (queue and `wait_rsp` included).
When that callback fires, the trace gains one `handleBootloaderPrompt` call per observer
followed by the "upgrade firmware" selection, and nothing else changes: the mode is still
`BOOTLOADER_FIRMWARE_UPGRADE`. -/
theorem setMode_firmware_upgrade (env : Env σ) (s : CEzspDongle σ)
    (hm : s.lastKnownMode = Mode.EZSP_NCP ∨ s.lastKnownMode = Mode.UNKNOWN) :
    setMode s Mode.BOOTLOADER_FIRMWARE_UPGRADE =
      { s with
        lastKnownMode := Mode.BOOTLOADER_FIRMWARE_UPGRADE
        ash := { s.ash with enabled := false }
        blp := { enabled := true,
                 promptDetectCallback := some PromptDetectCallback.firmwareUpgrade }
        trace := s.trace ++ [Event.blpReset] }
    ∧ (setMode s Mode.BOOTLOADER_FIRMWARE_UPGRADE).lastKnownMode
      = Mode.BOOTLOADER_FIRMWARE_UPGRADE
    ∧ (setMode s Mode.BOOTLOADER_FIRMWARE_UPGRADE).ash.enabled = false
    ∧ (setMode s Mode.BOOTLOADER_FIRMWARE_UPGRADE).blp.enabled = true
    ∧ (setMode s Mode.BOOTLOADER_FIRMWARE_UPGRADE).sendingMsgQueue = s.sendingMsgQueue
    ∧ (setMode s Mode.BOOTLOADER_FIRMWARE_UPGRADE).wait_rsp = s.wait_rsp
    ∧ promptDetected env (setMode s Mode.BOOTLOADER_FIRMWARE_UPGRADE) =
      { setMode s Mode.BOOTLOADER_FIRMWARE_UPGRADE with
        trace := (s.trace ++ [Event.blpReset]
          ++ s.observers.map (fun o => Event.handleBootloaderPrompt o)
          ++ [Event.blpSelectModeUpgradeFw]) }
    ∧ (promptDetected env (setMode s Mode.BOOTLOADER_FIRMWARE_UPGRADE)).lastKnownMode
      = Mode.BOOTLOADER_FIRMWARE_UPGRADE := by
  have h : setMode s Mode.BOOTLOADER_FIRMWARE_UPGRADE =
      { s with
        lastKnownMode := Mode.BOOTLOADER_FIRMWARE_UPGRADE
        ash := { s.ash with enabled := false }
        blp := { enabled := true,
                 promptDetectCallback := some PromptDetectCallback.firmwareUpgrade }
        trace := s.trace ++ [Event.blpReset] } := by
    unfold setMode
    rcases hm with hm | hm <;> simp [hm, AshDriver.disable]
  rw [h]
  exact ⟨rfl, rfl, rfl, rfl, rfl, rfl, rfl, rfl⟩

/-- Witness of `setMode_firmware_upgrade`: a connected dispatcher (mode `EZSP_NCP`). -/
theorem setMode_firmware_upgrade_witness :
    (setMode sampleConnected Mode.BOOTLOADER_FIRMWARE_UPGRADE).lastKnownMode
      = Mode.BOOTLOADER_FIRMWARE_UPGRADE
    ∧ (setMode sampleConnected Mode.BOOTLOADER_FIRMWARE_UPGRADE).ash.enabled = false
    ∧ (setMode sampleConnected Mode.BOOTLOADER_FIRMWARE_UPGRADE).blp.enabled = true
    ∧ (promptDetected (Env.sample 0)
        (setMode sampleConnected Mode.BOOTLOADER_FIRMWARE_UPGRADE)).lastKnownMode
      = Mode.BOOTLOADER_FIRMWARE_UPGRADE :=
  have h := setMode_firmware_upgrade (Env.sample 0) sampleConnected (Or.inl rfl)
  ⟨h.2.1, h.2.2.1, h.2.2.2.1, h.2.2.2.2.2.2.2⟩

theorem setMode_rejected_eq (s : CEzspDongle σ) (r : Mode)
    (h1 : ¬ (s.lastKnownMode ≠ Mode.EZSP_NCP
      ∧ (r = Mode.EZSP_NCP ∨ r = Mode.BOOTLOADER_EXIT_TO_EZSP_NCP)))
    (h2 : ¬ ((s.lastKnownMode = Mode.EZSP_NCP ∨ s.lastKnownMode = Mode.UNKNOWN)
      ∧ r = Mode.BOOTLOADER_FIRMWARE_UPGRADE)) :
    setMode s r = s := by
  unfold setMode
  rw [if_neg h1, if_neg h2]

/-- C16: rejected mode requests. For every current mode and requested mode such that neither
(current is not `EZSP_NCP` and the request is `EZSP_NCP` or `BOOTLOADER_EXIT_TO_EZSP_NCP`)
nor (current is `EZSP_NCP` or `UNKNOWN` and the request is `BOOTLOADER_FIRMWARE_UPGRADE`),
`setMode` returns the dispatcher unchanged. In particular every request for `UNKNOWN`, a
request for `EZSP_NCP` or `BOOTLOADER_EXIT_TO_EZSP_NCP` in mode `EZSP_NCP`, and a request for
`BOOTLOADER_FIRMWARE_UPGRADE` in a `BOOTLOADER_*` mode change nothing; and if the mode is
`UNKNOWN` after `setMode`, the call changed nothing and the mode was `UNKNOWN` before. -/
theorem setMode_rejected (s : CEzspDongle σ) :
    (∀ r : Mode,
        ¬ (s.lastKnownMode ≠ Mode.EZSP_NCP
          ∧ (r = Mode.EZSP_NCP ∨ r = Mode.BOOTLOADER_EXIT_TO_EZSP_NCP)) →
        ¬ ((s.lastKnownMode = Mode.EZSP_NCP ∨ s.lastKnownMode = Mode.UNKNOWN)
          ∧ r = Mode.BOOTLOADER_FIRMWARE_UPGRADE) →
        setMode s r = s)
    ∧ setMode s Mode.UNKNOWN = s
    ∧ (s.lastKnownMode = Mode.EZSP_NCP →
        setMode s Mode.EZSP_NCP = s ∧ setMode s Mode.BOOTLOADER_EXIT_TO_EZSP_NCP = s)
    ∧ (s.lastKnownMode = Mode.BOOTLOADER_FIRMWARE_UPGRADE
          ∨ s.lastKnownMode = Mode.BOOTLOADER_EXIT_TO_EZSP_NCP →
        setMode s Mode.BOOTLOADER_FIRMWARE_UPGRADE = s)
    ∧ (∀ r : Mode, (setMode s r).lastKnownMode = Mode.UNKNOWN →
        setMode s r = s ∧ s.lastKnownMode = Mode.UNKNOWN) := by
  refine ⟨fun r h1 h2 => setMode_rejected_eq s r h1 h2, ?_, ?_, ?_, ?_⟩
  · apply setMode_rejected_eq
    · rintro ⟨_, h | h⟩ <;> exact Mode.noConfusion h
    · rintro ⟨_, h⟩
      exact Mode.noConfusion h
  · intro hm
    constructor
    · apply setMode_rejected_eq
      · rintro ⟨h, _⟩
        exact h hm
      · rintro ⟨_, h⟩
        exact Mode.noConfusion h
    · apply setMode_rejected_eq
      · rintro ⟨h, _⟩
        exact h hm
      · rintro ⟨_, h⟩
        exact Mode.noConfusion h
  · intro hm
    apply setMode_rejected_eq
    · rintro ⟨_, h | h⟩ <;> exact Mode.noConfusion h
    · rintro ⟨h | h, _⟩
      · rcases hm with hm | hm <;> rw [hm] at h <;> exact Mode.noConfusion h
      · rcases hm with hm | hm <;> rw [hm] at h <;> exact Mode.noConfusion h
  · intro r hr
    by_cases h1 : s.lastKnownMode ≠ Mode.EZSP_NCP
        ∧ (r = Mode.EZSP_NCP ∨ r = Mode.BOOTLOADER_EXIT_TO_EZSP_NCP)
    · exfalso
      unfold setMode at hr
      rw [if_pos h1] at hr
      rcases h1.2 with h | h <;> rw [h] at hr <;> exact Mode.noConfusion hr
    · by_cases h2 : (s.lastKnownMode = Mode.EZSP_NCP ∨ s.lastKnownMode = Mode.UNKNOWN)
          ∧ r = Mode.BOOTLOADER_FIRMWARE_UPGRADE
      · exfalso
        unfold setMode at hr
        rw [if_neg h1, if_pos h2, h2.2] at hr
        exact Mode.noConfusion hr
      · have e := setMode_rejected_eq s r h1 h2
        rw [e] at hr
        exact ⟨e, hr⟩

/-- Witness of `setMode_rejected`: in mode `EZSP_NCP` the requests for `EZSP_NCP` and
`BOOTLOADER_EXIT_TO_EZSP_NCP` change nothing; while waiting for the bootloader prompt the
request for `BOOTLOADER_FIRMWARE_UPGRADE` changes nothing. -/
theorem setMode_rejected_witness :
    (setMode sampleConnected Mode.EZSP_NCP = sampleConnected
      ∧ setMode sampleConnected Mode.BOOTLOADER_EXIT_TO_EZSP_NCP = sampleConnected)
    ∧ setMode (setMode (ctor (0 : Nat) (some 1)) Mode.BOOTLOADER_EXIT_TO_EZSP_NCP)
        Mode.BOOTLOADER_FIRMWARE_UPGRADE
      = setMode (ctor (0 : Nat) (some 1)) Mode.BOOTLOADER_EXIT_TO_EZSP_NCP :=
  ⟨(setMode_rejected sampleConnected).2.2.1 rfl,
   (setMode_rejected
      (setMode (ctor (0 : Nat) (some 1)) Mode.BOOTLOADER_EXIT_TO_EZSP_NCP)).2.2.2.1
      (Or.inr rfl)⟩

end ModeTransitions

/-! ## Theorems: the ASH driver and its ACK timer -/

section Driver

variable {σ : Type}

open CEzspDongle

theorem sendAshFrame_result (env : Env σ) (d : AshDriver σ) (tr : List Event)
    (frame : List Nat) :
    (AshDriver.sendAshFrame env d tr frame).1 = true ↔
      (d.serialWriteFunc = true
        ∧ 0 ≤ (env.serialWriteFunc (serialWrites tr) frame).1
        ∧ (env.serialWriteFunc (serialWrites tr) frame).2 = frame.length) := by
  unfold AshDriver.sendAshFrame
  cases hw : d.serialWriteFunc
  · simp
  · simp only [Bool.not_true, Bool.false_eq_true, if_false, true_and]
    by_cases h1 : (env.serialWriteFunc (serialWrites tr) frame).1 < 0
    · rw [if_pos h1]
      constructor
      · intro h
        exact Bool.noConfusion h
      · intro h
        omega
    · rw [if_neg h1]
      by_cases h2 : frame.length ≠ (env.serialWriteFunc (serialWrites tr) frame).2
      · rw [if_pos h2]
        constructor
        · intro h
          exact Bool.noConfusion h
        · intro h
          exact absurd h.2.symm h2
      · rw [if_neg h2]
        refine ⟨fun _ => ⟨by omega, ?_⟩, fun _ => rfl⟩
        exact (not_not.mp h2).symm

theorem serialWrites_append (a b : List Event) :
    serialWrites (a ++ b) = serialWrites a + serialWrites b := by
  simp [serialWrites]

theorem timerStartsOf_append (a b : List Event) :
    timerStartsOf (a ++ b) = timerStartsOf a ++ timerStartsOf b := by
  simp [timerStartsOf]

theorem sendResetNCPFrame_spec (env : Env σ) (d : AshDriver σ) (tr : List Event) :
    ((AshDriver.sendResetNCPFrame env d tr).1 = true ↔
      (d.serialWriteFunc = true
        ∧ 0 ≤ (env.serialWriteFunc (serialWrites tr) (env.forgeResetNCPFrame d.ashCodec).1).1
        ∧ (env.serialWriteFunc (serialWrites tr) (env.forgeResetNCPFrame d.ashCodec).1).2
          = (env.forgeResetNCPFrame d.ashCodec).1.length))
    ∧ ((AshDriver.sendResetNCPFrame env d tr).1 = true →
        (AshDriver.sendResetNCPFrame env d tr).2.1.ackTimer = some T_ACK_ASH_RESET
        ∧ timerStartsOf (AshDriver.sendResetNCPFrame env d tr).2.2
          = timerStartsOf tr ++ [T_ACK_ASH_RESET])
    ∧ ((AshDriver.sendResetNCPFrame env d tr).1 = false →
        (AshDriver.sendResetNCPFrame env d tr).2.1.ackTimer = none
        ∧ timerStartsOf (AshDriver.sendResetNCPFrame env d tr).2.2 = timerStartsOf tr)
    ∧ (∃ rest, (AshDriver.sendResetNCPFrame env d tr).2.2
        = tr ++ [Event.sendResetNCPFrame, Event.timerStop] ++ rest) := by
  have hres := sendAshFrame_result env
    { d with ackTimer := none, ashCodec := (env.forgeResetNCPFrame d.ashCodec).2 }
    (tr ++ [Event.sendResetNCPFrame] ++ [Event.timerStop])
    (env.forgeResetNCPFrame d.ashCodec).1
  have hsw : serialWrites (tr ++ [Event.sendResetNCPFrame] ++ [Event.timerStop])
      = serialWrites tr := by
    simp [serialWrites]
  rw [hsw] at hres
  have htr := sendAshFrame_trace env
    { d with ackTimer := none, ashCodec := (env.forgeResetNCPFrame d.ashCodec).2 }
    (tr ++ [Event.sendResetNCPFrame] ++ [Event.timerStop])
    (env.forgeResetNCPFrame d.ashCodec).1
  unfold AshDriver.sendResetNCPFrame
  dsimp only at hres htr ⊢
  by_cases hok : (AshDriver.sendAshFrame env
      { d with ackTimer := none, ashCodec := (env.forgeResetNCPFrame d.ashCodec).2 }
      (tr ++ [Event.sendResetNCPFrame] ++ [Event.timerStop])
      (env.forgeResetNCPFrame d.ashCodec).1).1 = true
  · simp only [hok, Bool.not_true, Bool.false_eq_true, if_false]
    refine ⟨⟨fun _ => hres.mp hok, fun _ => trivial⟩, fun _ => ⟨trivial, ?_⟩,
      fun h => Bool.noConfusion h, ?_⟩
    · rw [htr]
      split_ifs <;> simp [timerStartsOf]
    · rw [htr]
      exact ⟨_, by simp only [List.append_assoc, List.cons_append, List.nil_append]; rfl⟩
  · have hok2 := Bool.eq_false_iff.mpr hok
    simp only [hok2, Bool.not_false, if_true]
    refine ⟨⟨fun h => Bool.noConfusion h, fun h => absurd (hres.mpr h) hok⟩,
      fun h => Bool.noConfusion h, fun _ => ⟨trivial, ?_⟩, ?_⟩
    · rw [htr]
      split_ifs <;> simp [timerStartsOf]
    · rw [htr]
      exact ⟨_, by simp only [List.append_assoc, List.cons_append, List.nil_append]; rfl⟩

theorem sendDataFrame_spec (env : Env σ) (d : AshDriver σ) (tr : List Event)
    (i_data : List Nat) :
    ((AshDriver.sendDataFrame env d tr i_data).1 = true ↔
      (d.serialWriteFunc = true
        ∧ 0 ≤ (env.serialWriteFunc (serialWrites tr)
            (env.forgeDataFrame i_data d.ashCodec).1).1
        ∧ (env.serialWriteFunc (serialWrites tr) (env.forgeDataFrame i_data d.ashCodec).1).2
          = (env.forgeDataFrame i_data d.ashCodec).1.length))
    ∧ ((AshDriver.sendDataFrame env d tr i_data).1 = true →
        (AshDriver.sendDataFrame env d tr i_data).2.1.ackTimer = some T_RX_ACK_INIT
        ∧ timerStartsOf (AshDriver.sendDataFrame env d tr i_data).2.2
          = timerStartsOf tr ++ [T_RX_ACK_INIT])
    ∧ ((AshDriver.sendDataFrame env d tr i_data).1 = false →
        (AshDriver.sendDataFrame env d tr i_data).2.1.ackTimer = none
        ∧ timerStartsOf (AshDriver.sendDataFrame env d tr i_data).2.2 = timerStartsOf tr)
    ∧ (∃ rest, (AshDriver.sendDataFrame env d tr i_data).2.2
        = tr ++ [Event.sendDataFrame i_data, Event.timerStop] ++ rest) := by
  have hres := sendAshFrame_result env
    { d with ackTimer := none, ashCodec := (env.forgeDataFrame i_data d.ashCodec).2 }
    (tr ++ [Event.sendDataFrame i_data] ++ [Event.timerStop])
    (env.forgeDataFrame i_data d.ashCodec).1
  have hsw : serialWrites (tr ++ [Event.sendDataFrame i_data] ++ [Event.timerStop])
      = serialWrites tr := by
    simp [serialWrites]
  rw [hsw] at hres
  have htr := sendAshFrame_trace env
    { d with ackTimer := none, ashCodec := (env.forgeDataFrame i_data d.ashCodec).2 }
    (tr ++ [Event.sendDataFrame i_data] ++ [Event.timerStop])
    (env.forgeDataFrame i_data d.ashCodec).1
  unfold AshDriver.sendDataFrame
  dsimp only at hres htr ⊢
  by_cases hok : (AshDriver.sendAshFrame env
      { d with ackTimer := none, ashCodec := (env.forgeDataFrame i_data d.ashCodec).2 }
      (tr ++ [Event.sendDataFrame i_data] ++ [Event.timerStop])
      (env.forgeDataFrame i_data d.ashCodec).1).1 = true
  · simp only [hok, Bool.not_true, Bool.false_eq_true, if_false]
    refine ⟨⟨fun _ => hres.mp hok, fun _ => trivial⟩, fun _ => ⟨trivial, ?_⟩,
      fun h => Bool.noConfusion h, ?_⟩
    · rw [htr]
      split_ifs <;> simp [timerStartsOf]
    · rw [htr]
      exact ⟨_, by simp only [List.append_assoc, List.cons_append, List.nil_append]; rfl⟩
  · have hok2 := Bool.eq_false_iff.mpr hok
    simp only [hok2, Bool.not_false, if_true]
    refine ⟨⟨fun h => Bool.noConfusion h, fun h => absurd (hres.mpr h) hok⟩,
      fun h => Bool.noConfusion h, fun _ => ⟨trivial, ?_⟩, ?_⟩
    · rw [htr]
      split_ifs <;> simp [timerStartsOf]
    · rw [htr]
      exact ⟨_, by simp only [List.append_assoc, List.cons_append, List.nil_append]; rfl⟩

theorem sendAckFrame_spec (env : Env σ) (d : AshDriver σ) (tr : List Event) :
    (AshDriver.sendAckFrame env d tr).2.1.ackTimer = d.ackTimer
    ∧ (AshDriver.sendAckFrame env d tr).2.2
      = tr ++ Event.sendAckFrame ::
          (if d.serialWriteFunc then
            [Event.serialWrite (env.forgeAckFrame d.ashCodec).1] else []) := by
  refine ⟨rfl, ?_⟩
  simp [AshDriver.sendAckFrame, sendAshFrame_trace]

/-- C17 (counterexample): the ACK timer of the driver runs (1600 ms) after
`sendCommand(0x00, [0x08])` on a connected dispatcher. A `sendAckFrame` whose write fails
(the write functor returns -1) leaves the timer running. -/
theorem sendAckFrame_leaves_timer_running :
    (sendCommand (Env.sample 0) sampleConnected 0x00 [0x08]).ash.ackTimer = some 1600
    ∧ (AshDriver.sendAckFrame (Env.sample (-1))
        (sendCommand (Env.sample 0) sampleConnected 0x00 [0x08]).ash
        (sendCommand (Env.sample 0) sampleConnected 0x00 [0x08]).trace).1 = false
    ∧ (AshDriver.sendAckFrame (Env.sample (-1))
        (sendCommand (Env.sample 0) sampleConnected 0x00 [0x08]).ash
        (sendCommand (Env.sample 0) sampleConnected 0x00 [0x08]).trace).2.1.ackTimer
      = some 1600 := by
  decide

/-- C17 (amended): `sendResetNCPFrame` and `sendDataFrame` stop the ACK timer before forging
and writing their frame (the timer stop is recorded right after the call, before any write),
and after either of them has failed the timer is stopped, whatever its state was.
`sendAckFrame` does not touch the timer: it leaves it as it was and records only the call and
the write. -/
theorem send_stops_timer (env : Env σ) (d : AshDriver σ) (tr : List Event) :
    ((AshDriver.sendResetNCPFrame env d tr).1 = false →
        (AshDriver.sendResetNCPFrame env d tr).2.1.ackTimer = none)
    ∧ (∃ rest, (AshDriver.sendResetNCPFrame env d tr).2.2
        = tr ++ [Event.sendResetNCPFrame, Event.timerStop] ++ rest)
    ∧ (∀ i_data : List Nat,
        ((AshDriver.sendDataFrame env d tr i_data).1 = false →
          (AshDriver.sendDataFrame env d tr i_data).2.1.ackTimer = none)
        ∧ (∃ rest, (AshDriver.sendDataFrame env d tr i_data).2.2
          = tr ++ [Event.sendDataFrame i_data, Event.timerStop] ++ rest))
    ∧ (AshDriver.sendAckFrame env d tr).2.1.ackTimer = d.ackTimer
    ∧ (AshDriver.sendAckFrame env d tr).2.2
      = tr ++ Event.sendAckFrame ::
          (if d.serialWriteFunc then
            [Event.serialWrite (env.forgeAckFrame d.ashCodec).1] else []) :=
  ⟨fun h => ((sendResetNCPFrame_spec env d tr).2.2.1 h).1,
   (sendResetNCPFrame_spec env d tr).2.2.2,
   fun i_data => ⟨fun h => ((sendDataFrame_spec env d tr i_data).2.2.1 h).1,
     (sendDataFrame_spec env d tr i_data).2.2.2⟩,
   sendAckFrame_spec env d tr⟩

/-- Witness of `send_stops_timer`: with the ACK timer running after a `sendCommand`, a
`sendDataFrame` whose write fails leaves the timer stopped. -/
theorem send_stops_timer_witness :
    (AshDriver.sendDataFrame (Env.sample (-1))
        (sendCommand (Env.sample 0) sampleConnected 0x00 [0x08]).ash
        (sendCommand (Env.sample 0) sampleConnected 0x00 [0x08]).trace
        [0x02]).2.1.ackTimer = none :=
  ((send_stops_timer (Env.sample (-1))
      (sendCommand (Env.sample 0) sampleConnected 0x00 [0x08]).ash
      (sendCommand (Env.sample 0) sampleConnected 0x00 [0x08]).trace).2.2.1 [0x02]).1
    (by decide)

/-- C18: `sendResetNCPFrame` and `sendDataFrame` return true if and only if a serial writer
is registered, the write of the forged frame returns a non-negative value and the written
byte count it reports equals the frame length. When they return true the ACK timer runs
with 5000 ms (reset) or 1600 ms (data) and exactly that one timer start was made; when they
return false the timer is stopped and no timer start was made. -/
theorem send_result_and_timer (env : Env σ) (d : AshDriver σ) (tr : List Event)
    (i_data : List Nat) :
    ((AshDriver.sendResetNCPFrame env d tr).1 = true ↔
      (d.serialWriteFunc = true
        ∧ 0 ≤ (env.serialWriteFunc (serialWrites tr) (env.forgeResetNCPFrame d.ashCodec).1).1
        ∧ (env.serialWriteFunc (serialWrites tr) (env.forgeResetNCPFrame d.ashCodec).1).2
          = (env.forgeResetNCPFrame d.ashCodec).1.length))
    ∧ ((AshDriver.sendResetNCPFrame env d tr).1 = true →
        (AshDriver.sendResetNCPFrame env d tr).2.1.ackTimer = some 5000
        ∧ timerStartsOf (AshDriver.sendResetNCPFrame env d tr).2.2 = timerStartsOf tr ++ [5000])
    ∧ ((AshDriver.sendResetNCPFrame env d tr).1 = false →
        (AshDriver.sendResetNCPFrame env d tr).2.1.ackTimer = none
        ∧ timerStartsOf (AshDriver.sendResetNCPFrame env d tr).2.2 = timerStartsOf tr)
    ∧ ((AshDriver.sendDataFrame env d tr i_data).1 = true ↔
      (d.serialWriteFunc = true
        ∧ 0 ≤ (env.serialWriteFunc (serialWrites tr)
            (env.forgeDataFrame i_data d.ashCodec).1).1
        ∧ (env.serialWriteFunc (serialWrites tr) (env.forgeDataFrame i_data d.ashCodec).1).2
          = (env.forgeDataFrame i_data d.ashCodec).1.length))
    ∧ ((AshDriver.sendDataFrame env d tr i_data).1 = true →
        (AshDriver.sendDataFrame env d tr i_data).2.1.ackTimer = some 1600
        ∧ timerStartsOf (AshDriver.sendDataFrame env d tr i_data).2.2
          = timerStartsOf tr ++ [1600])
    ∧ ((AshDriver.sendDataFrame env d tr i_data).1 = false →
        (AshDriver.sendDataFrame env d tr i_data).2.1.ackTimer = none
        ∧ timerStartsOf (AshDriver.sendDataFrame env d tr i_data).2.2 = timerStartsOf tr) :=
  ⟨(sendResetNCPFrame_spec env d tr).1, (sendResetNCPFrame_spec env d tr).2.1,
   (sendResetNCPFrame_spec env d tr).2.2.1, (sendDataFrame_spec env d tr i_data).1,
   (sendDataFrame_spec env d tr i_data).2.1, (sendDataFrame_spec env d tr i_data).2.2.1⟩

/-- Witness of `send_result_and_timer`: on the driver of a constructed dispatcher with a
UART, `sendResetNCPFrame` succeeds when the write returns 0 and fails when it returns -1. -/
theorem send_result_and_timer_witness :
    ((AshDriver.sendResetNCPFrame (Env.sample 0) (setUart (ctor (0 : Nat) (some 1))).ash
          []).2.1.ackTimer = some 5000
      ∧ timerStartsOf (AshDriver.sendResetNCPFrame (Env.sample 0)
          (setUart (ctor (0 : Nat) (some 1))).ash []).2.2 = timerStartsOf [] ++ [5000])
    ∧ ((AshDriver.sendDataFrame (Env.sample (-1)) (setUart (ctor (0 : Nat) (some 1))).ash
          [] [0x00, 0x08]).2.1.ackTimer = none
      ∧ timerStartsOf (AshDriver.sendDataFrame (Env.sample (-1))
          (setUart (ctor (0 : Nat) (some 1))).ash [] [0x00, 0x08]).2.2 = timerStartsOf []) :=
  ⟨(send_result_and_timer (Env.sample 0) (setUart (ctor (0 : Nat) (some 1))).ash []
      [0x00, 0x08]).2.1 (by decide),
   (send_result_and_timer (Env.sample (-1)) (setUart (ctor (0 : Nat) (some 1))).ash []
      [0x00, 0x08]).2.2.2.2.2 (by decide)⟩

/-- C19: when the ACK timer fires, `AshDriver::trigger` hands `ASH_RESET_FAILED` to the
callback of the codec if and only if the codec is not in the connected state and a callback
is registered, and hands it nothing otherwise; in particular nothing when the codec is
connected. In every case the driver state and the trace are unchanged: no frame is sent
and the timer is not started. For the dispatcher, whose driver has the dispatcher itself as
callback, a timer that fires while the codec is connected changes nothing, and one that
fires while it is not connected is `ashCbInfo(ASH_RESET_FAILED)`. -/
theorem trigger_surfaces_reset_failed (env : Env σ) (d : AshDriver σ) (tr : List Event)
    (pCb : Bool) (s : CEzspDongle σ) :
    ((AshDriver.trigger env d tr pCb).1 = some EAshInfo.ASH_RESET_FAILED ↔
      (env.isInConnectedState d.ashCodec = false ∧ pCb = true))
    ∧ ((AshDriver.trigger env d tr pCb).1 ≠ some EAshInfo.ASH_RESET_FAILED →
        (AshDriver.trigger env d tr pCb).1 = none)
    ∧ (env.isInConnectedState d.ashCodec = true → (AshDriver.trigger env d tr pCb).1 = none)
    ∧ (AshDriver.trigger env d tr pCb).2.1 = d
    ∧ (AshDriver.trigger env d tr pCb).2.2 = tr
    ∧ (env.isInConnectedState s.ash.ashCodec = true → ackTimerFired env s = s)
    ∧ (env.isInConnectedState s.ash.ashCodec = false →
        ackTimerFired env s = ashCbInfo env s EAshInfo.ASH_RESET_FAILED) := by
  refine ⟨?_, ?_, ?_, ?_, ?_, ?_, ?_⟩
  · unfold AshDriver.trigger
    cases env.isInConnectedState d.ashCodec <;> cases pCb <;> simp
  · unfold AshDriver.trigger
    cases env.isInConnectedState d.ashCodec <;> cases pCb <;> simp
  · intro h
    unfold AshDriver.trigger
    simp [h]
  · unfold AshDriver.trigger
    split_ifs <;> rfl
  · unfold AshDriver.trigger
    split_ifs <;> rfl
  · intro h
    unfold ackTimerFired AshDriver.trigger
    simp [h]
  · intro h
    unfold ackTimerFired AshDriver.trigger
    simp [h]

/-- Witness of `trigger_surfaces_reset_failed`: the timer started by `reset()` fires while the
codec is not connected, and while it is connected. -/
theorem trigger_surfaces_reset_failed_witness :
    ackTimerFired (Env.sampleDisconnected 0) sampleReset
      = ashCbInfo (Env.sampleDisconnected 0) sampleReset EAshInfo.ASH_RESET_FAILED
    ∧ ackTimerFired (Env.sample 0) sampleReset = sampleReset
    ∧ (AshDriver.trigger (Env.sample 0) sampleReset.ash sampleReset.trace true).1 = none :=
  ⟨(trigger_surfaces_reset_failed (Env.sampleDisconnected 0) sampleReset.ash
      sampleReset.trace true sampleReset).2.2.2.2.2.2 rfl,
   (trigger_surfaces_reset_failed (Env.sample 0) sampleReset.ash
      sampleReset.trace true sampleReset).2.2.2.2.2.1 rfl,
   (trigger_surfaces_reset_failed (Env.sample 0) sampleReset.ash
      sampleReset.trace true sampleReset).2.2.1 rfl⟩

end Driver

/-! ## Theorems: the connected notification -/

section Connected

variable {σ : Type}

open CEzspDongle

theorem stateCallsTo_map_of_not_mem (o : Nat) (st : EDongleState) (l : List Nat)
    (ho : o ∉ l) :
    stateCallsTo o (l.map (fun x => Event.handleDongleState x st)) = [] := by
  induction l with
  | nil => rfl
  | cons a l ih =>
    have ha : a ≠ o := fun h => ho (h ▸ List.mem_cons_self a l)
    have hl : o ∉ l := fun h => ho (List.mem_cons_of_mem a h)
    have := ih hl
    simp_all [stateCallsTo]

theorem stateCallsTo_map_of_mem (o : Nat) (st : EDongleState) (l : List Nat)
    (hn : l.Nodup) (ho : o ∈ l) :
    stateCallsTo o (l.map (fun x => Event.handleDongleState x st)) = [st] := by
  induction l with
  | nil => exact absurd ho (List.not_mem_nil o)
  | cons a l ih =>
    rw [List.nodup_cons] at hn
    by_cases ha : a = o
    · subst ha
      have := stateCallsTo_map_of_not_mem a st l hn.1
      simp_all [stateCallsTo]
    · have hl : o ∈ l := by
        rcases List.mem_cons.mp ho with h | h
        · exact absurd h.symm ha
        · exact h
      have := ih hn.2 hl
      simp_all [stateCallsTo]

/-- C20: on `ASH_STATE_CONNECTED` the dispatcher appends one `handleDongleState(DONGLE_READY)`
call per observer to the trace, sets the mode to `EZSP_NCP` whatever it was, and changes
nothing else: the queue, `wait_rsp` and `firstStartup` are unchanged and no `sendDataFrame`
call is made, whatever the queue holds. Each registered observer receives exactly one call,
with `DONGLE_READY`, and an observer that is not registered receives none. -/
theorem ashCbInfo_connected (env : Env σ) (s : CEzspDongle σ) :
    ashCbInfo env s EAshInfo.ASH_STATE_CONNECTED =
      { s with
        lastKnownMode := Mode.EZSP_NCP
        trace := (s.trace ++ s.observers.map
          (fun o => Event.handleDongleState o EDongleState.DONGLE_READY)) }
    ∧ (ashCbInfo env s EAshInfo.ASH_STATE_CONNECTED).lastKnownMode = Mode.EZSP_NCP
    ∧ (ashCbInfo env s EAshInfo.ASH_STATE_CONNECTED).sendingMsgQueue = s.sendingMsgQueue
    ∧ (ashCbInfo env s EAshInfo.ASH_STATE_CONNECTED).wait_rsp = s.wait_rsp
    ∧ (ashCbInfo env s EAshInfo.ASH_STATE_CONNECTED).firstStartup = s.firstStartup
    ∧ dataFramesOf (ashCbInfo env s EAshInfo.ASH_STATE_CONNECTED).trace = dataFramesOf s.trace
    ∧ (s.observers.Nodup → ∀ o ∈ s.observers,
        stateCallsTo o (s.observers.map
          (fun x => Event.handleDongleState x EDongleState.DONGLE_READY))
          = [EDongleState.DONGLE_READY])
    ∧ (∀ o, o ∉ s.observers →
        stateCallsTo o (s.observers.map
          (fun x => Event.handleDongleState x EDongleState.DONGLE_READY)) = []) := by
  refine ⟨rfl, rfl, rfl, rfl, rfl, ?_, ?_, ?_⟩
  · show dataFramesOf (s.trace ++ _) = _
    rw [dataFramesOf_append, dataFramesOf_map_state, List.append_nil]
  · intro hn o ho
    exact stateCallsTo_map_of_mem o _ _ hn ho
  · intro o ho
    exact stateCallsTo_map_of_not_mem o _ _ ho

/-- Witness of `ashCbInfo_connected`: `ASH_STATE_CONNECTED` arrives while the dispatcher with
observer `1` waits for the bootloader prompt with one command queued. -/
theorem ashCbInfo_connected_witness :
    stateCallsTo 1
        ((sendCommand (Env.sample 0)
          (setMode (setUart (ctor (0 : Nat) (some 1))) Mode.BOOTLOADER_EXIT_TO_EZSP_NCP)
          0x00 [0x08]).observers.map
          (fun x => Event.handleDongleState x EDongleState.DONGLE_READY))
      = [EDongleState.DONGLE_READY] :=
  (ashCbInfo_connected (Env.sample 0)
    (sendCommand (Env.sample 0)
      (setMode (setUart (ctor (0 : Nat) (some 1))) Mode.BOOTLOADER_EXIT_TO_EZSP_NCP)
      0x00 [0x08])).2.2.2.2.2.2.1 (by decide) 1 (by decide)

end Connected

/-! ## Theorems: bounds of the received frame -/

section Bounds

variable {σ : Type}

open CEzspDongle

theorem handleInputData_empty (env : Env σ) (s : CEzspDongle σ) :
    handleInputData env s [] = Except.ok s := by
  unfold handleInputData
  simp

theorem handleInputData_short_at (env : Env σ) (s : CEzspDongle σ) (f : List Nat)
    (hm : s.lastKnownMode = Mode.EZSP_NCP ∨ s.lastKnownMode = Mode.UNKNOWN)
    (h1 : 1 ≤ f.length) (h2 : f.length ≤ 2) :
    handleInputData env s f = Except.error Fault.at_out_of_range := by
  match f, h1, h2 with
  | [a], _, _ =>
    unfold handleInputData
    simp only [if_pos hm]
    simp
  | [a, b], _, _ =>
    unfold handleInputData
    simp only [if_pos hm]
    simp
  | _ :: _ :: _ :: _, _, h => simp at h

theorem handleInputData_short_erase (env : Env σ) (s : CEzspDongle σ) (f : List Nat)
    (hm : s.lastKnownMode = Mode.EZSP_NCP ∨ s.lastKnownMode = Mode.UNKNOWN)
    (h3 : 3 ≤ f.length) (h4 : f.length ≤ 4) :
    handleInputData env s f = Except.error Fault.erase_out_of_range := by
  match f, h3, h4 with
  | [a, b, c], _, _ =>
    unfold handleInputData
    simp only [if_pos hm]
    simp
  | [a, b, c, d], _, _ =>
    unfold handleInputData
    simp only [if_pos hm]
    simp
  | [], h, _ => simp at h
  | [_], h, _ => simp at h
  | [_, _], h, _ => simp at h
  | _ :: _ :: _ :: _ :: _ :: _, _, h => simp at h

/-- C23: bounds of `handleInputData` in mode `EZSP_NCP` or `UNKNOWN`. For every frame of at
least 5 bytes the call returns without a fault: index 2 exists, the 3 leading bytes exist,
and at least 2 bytes are left for the trailing erase. For the empty frame the call returns
the dispatcher unchanged (no ACK, no observer call, no state change). For every frame of 1
or 2 bytes the read `at(2)` is out of range, and for every frame of 3 or 4 bytes the trailing
erase goes beyond the buffer. -/
theorem handleInputData_bounds (env : Env σ) (s : CEzspDongle σ) (f : List Nat)
    (hm : s.lastKnownMode = Mode.EZSP_NCP ∨ s.lastKnownMode = Mode.UNKNOWN) :
    (5 ≤ f.length →
        (∃ s1, handleInputData env s f = Except.ok s1)
        ∧ f[2]? = some (f.getD 2 0)
        ∧ 3 ≤ f.length
        ∧ 2 ≤ (f.drop 3).length)
    ∧ (f = [] → handleInputData env s f = Except.ok s)
    ∧ (1 ≤ f.length → f.length ≤ 2 →
        handleInputData env s f = Except.error Fault.at_out_of_range)
    ∧ (3 ≤ f.length → f.length ≤ 4 →
        handleInputData env s f = Except.error Fault.erase_out_of_range) := by
  refine ⟨?_, ?_, handleInputData_short_at env s f hm, handleInputData_short_erase env s f hm⟩
  · intro h5
    refine ⟨⟨_, handleInputData_accept env s f hm h5⟩, ?_, by omega, ?_⟩
    · have h2 : 2 < f.length := by omega
      simp [List.getD, List.getElem?_eq_getElem h2]
    · rw [List.length_drop]
      omega
  · intro he
    rw [he]
    exact handleInputData_empty env s

/-- Witness of `handleInputData_bounds`: on a connected dispatcher the frame
`[0x00, 0x80, 0x19, 0xC1, 0xC2]` is accepted, `[0x00, 0x80]` fails at `at(2)` and
`[0x00, 0x80, 0x19, 0xC1]` fails at the trailing erase. -/
theorem handleInputData_bounds_witness :
    (∃ s1, handleInputData (Env.sample 0) sampleConnected [0x00, 0x80, 0x19, 0xC1, 0xC2]
        = Except.ok s1)
    ∧ handleInputData (Env.sample 0) sampleConnected [] = Except.ok sampleConnected
    ∧ handleInputData (Env.sample 0) sampleConnected [0x00, 0x80]
      = Except.error Fault.at_out_of_range
    ∧ handleInputData (Env.sample 0) sampleConnected [0x00, 0x80, 0x19, 0xC1]
      = Except.error Fault.erase_out_of_range :=
  ⟨((handleInputData_bounds (Env.sample 0) sampleConnected [0x00, 0x80, 0x19, 0xC1, 0xC2]
        (Or.inl rfl)).1 (by decide)).1,
   (handleInputData_bounds (Env.sample 0) sampleConnected [] (Or.inl rfl)).2.1 rfl,
   (handleInputData_bounds (Env.sample 0) sampleConnected [0x00, 0x80] (Or.inl rfl)).2.2.1
      (by decide) (by decide),
   (handleInputData_bounds (Env.sample 0) sampleConnected [0x00, 0x80, 0x19, 0xC1]
      (Or.inl rfl)).2.2.2 (by decide) (by decide)⟩

end Bounds

/-! ## Theorems: the queue and `wait_rsp` -/

section QueueInvariant

variable {σ : Type}

open CEzspDongle

theorem sendNextMsg_waitInv (env : Env σ) (s : CEzspDongle σ)
    (h : s.wait_rsp = true → s.sendingMsgQueue ≠ []) :
    (sendNextMsg env s).wait_rsp = true → (sendNextMsg env s).sendingMsgQueue ≠ [] := by
  rcases sendNextMsg_cases env s with e | ⟨m, rest, _, _, hq, _⟩
  · rw [e]
    exact h
  · intro _
    rw [sendNextMsg_queue, hq]
    exact List.cons_ne_nil m rest

theorem handleResponse_waitInv (env : Env σ) (s : CEzspDongle σ) (c : Nat)
    (h : s.wait_rsp = true → s.sendingMsgQueue ≠ []) :
    (handleResponse env s c).wait_rsp = true → (handleResponse env s c).sendingMsgQueue ≠ [] := by
  rcases handleResponse_cases env s c with e | ⟨m, rest, _, _, e⟩
  · rw [e]
    exact h
  · rw [e]
    apply sendNextMsg_waitInv
    intro hw
    exact Bool.noConfusion hw

theorem handleInputData_ok_cases (env : Env σ) (s s1 : CEzspDongle σ) (f : List Nat)
    (h : handleInputData env s f = Except.ok s1) :
    s1 = s ∨
    s1 = notifyObserversOfEzspRxMessage
        (if f.getD 2 0 ≠ env.EZSP_LAUNCH_STANDALONE_BOOTLOADER
          then handleResponse env (ashSendAckFrame env s) (f.getD 2 0) else s)
        (f.getD 2 0) ((f.drop 3).take (f.length - 5)) := by
  by_cases hm : s.lastKnownMode = Mode.EZSP_NCP ∨ s.lastKnownMode = Mode.UNKNOWN
  · by_cases he : f = []
    · rw [he, handleInputData_empty] at h
      exact Or.inl (Except.ok.inj h).symm
    · by_cases h5 : 5 ≤ f.length
      · rw [handleInputData_accept env s f hm h5] at h
        exact Or.inr (Except.ok.inj h).symm
      · exfalso
        have h1 : 1 ≤ f.length := by
          cases f with
          | nil => exact absurd rfl he
          | cons a t => simp
        by_cases h2 : f.length ≤ 2
        · rw [handleInputData_short_at env s f hm h1 h2] at h
          exact Except.noConfusion h
        · rw [handleInputData_short_erase env s f hm (by omega) (by omega)] at h
          exact Except.noConfusion h
  · have hm2 : s.lastKnownMode ≠ Mode.EZSP_NCP ∧ s.lastKnownMode ≠ Mode.UNKNOWN :=
      ⟨fun h => hm (Or.inl h), fun h => hm (Or.inr h)⟩
    rw [handleInputData_discard env s f hm2] at h
    exact Or.inl (Except.ok.inj h).symm

theorem handleInputData_waitInv (env : Env σ) (s s1 : CEzspDongle σ) (f : List Nat)
    (h : s.wait_rsp = true → s.sendingMsgQueue ≠ [])
    (hok : handleInputData env s f = Except.ok s1) :
    s1.wait_rsp = true → s1.sendingMsgQueue ≠ [] := by
  rcases handleInputData_ok_cases env s s1 f hok with e | e
  · rw [e]
    exact h
  · rw [e]
    show (if f.getD 2 0 ≠ env.EZSP_LAUNCH_STANDALONE_BOOTLOADER
        then handleResponse env (ashSendAckFrame env s) (f.getD 2 0) else s).wait_rsp = true →
      (if f.getD 2 0 ≠ env.EZSP_LAUNCH_STANDALONE_BOOTLOADER
        then handleResponse env (ashSendAckFrame env s) (f.getD 2 0) else s).sendingMsgQueue
        ≠ []
    split_ifs
    · exact handleResponse_waitInv env (ashSendAckFrame env s) (f.getD 2 0) h
    · exact h

theorem setMode_wait_queue (s : CEzspDongle σ) (r : Mode) :
    (setMode s r).wait_rsp = s.wait_rsp
    ∧ (setMode s r).sendingMsgQueue = s.sendingMsgQueue := by
  unfold setMode
  split_ifs <;> exact ⟨rfl, rfl⟩

theorem ashCbInfo_waitInv (env : Env σ) (s : CEzspDongle σ) (i : EAshInfo)
    (h : s.wait_rsp = true → s.sendingMsgQueue ≠ []) :
    (ashCbInfo env s i).wait_rsp = true → (ashCbInfo env s i).sendingMsgQueue ≠ [] := by
  cases i with
  | ASH_RESET_FAILED =>
    unfold ashCbInfo
    dsimp only
    split_ifs
    · have e := setMode_wait_queue s Mode.BOOTLOADER_FIRMWARE_UPGRADE
      show (setMode s Mode.BOOTLOADER_FIRMWARE_UPGRADE).wait_rsp = true →
        (setMode s Mode.BOOTLOADER_FIRMWARE_UPGRADE).sendingMsgQueue ≠ []
      rw [e.1, e.2]
      exact h
    · have e := setMode_wait_queue s Mode.BOOTLOADER_EXIT_TO_EZSP_NCP
      show (setMode s Mode.BOOTLOADER_EXIT_TO_EZSP_NCP).wait_rsp = true →
        (setMode s Mode.BOOTLOADER_EXIT_TO_EZSP_NCP).sendingMsgQueue ≠ []
      rw [e.1, e.2]
      exact h
    · exact h
  | ASH_NACK =>
    apply sendNextMsg_waitInv
    intro hw
    exact Bool.noConfusion hw
  | ASH_STATE_CONNECTED => exact h
  | ASH_STATE_DISCONNECTED => exact h
  | OTHER => exact h

theorem promptDetected_wait_queue (env : Env σ) (s : CEzspDongle σ) :
    (promptDetected env s).wait_rsp = s.wait_rsp
    ∧ (promptDetected env s).sendingMsgQueue = s.sendingMsgQueue := by
  unfold promptDetected
  cases s.blp.promptDetectCallback with
  | none => exact ⟨rfl, rfl⟩
  | some cb =>
    cases cb with
    | exitToEzspNcp =>
      unfold promptDetectCallback
      exact ⟨(reset_fields env _).2.2.1, (reset_fields env _).2.1⟩
    | firmwareUpgrade => exact ⟨rfl, rfl⟩

theorem call_waitInv (env : Env σ) (s s1 : CEzspDongle σ) (c : DongleCall)
    (h : s.wait_rsp = true → s.sendingMsgQueue ≠ [])
    (hok : call env s c = Except.ok s1) :
    s1.wait_rsp = true → s1.sendingMsgQueue ≠ [] := by
  cases c with
  | registerObserver o =>
    have e : s1 = (registerObserver s o).2 := (Except.ok.inj hok).symm
    rw [e]
    unfold registerObserver
    split_ifs <;> exact h
  | unregisterObserver o =>
    have e : s1 = (unregisterObserver s o).2 := (Except.ok.inj hok).symm
    rw [e]
    exact h
  | setUart =>
    have e : s1 = setUart s := (Except.ok.inj hok).symm
    rw [e]
    exact h
  | reset =>
    have e : s1 = (reset env s).2 := (Except.ok.inj hok).symm
    rw [e, (reset_fields env s).2.2.1, (reset_fields env s).2.1]
    exact h
  | forceFirmwareUpgradeOnInitTimeout =>
    have e : s1 = forceFirmwareUpgradeOnInitTimeout s := (Except.ok.inj hok).symm
    rw [e]
    exact h
  | sendCommand cmd p =>
    have e : s1 = sendCommand env s cmd p := (Except.ok.inj hok).symm
    rw [e]
    unfold sendCommand
    apply sendNextMsg_waitInv
    intro _
    simp
  | handleInputData f => exact handleInputData_waitInv env s s1 f h hok
  | ashCbInfo i =>
    have e : s1 = ashCbInfo env s i := (Except.ok.inj hok).symm
    rw [e]
    exact ashCbInfo_waitInv env s i h
  | setMode r =>
    have e : s1 = setMode s r := (Except.ok.inj hok).symm
    rw [e, (setMode_wait_queue s r).1, (setMode_wait_queue s r).2]
    exact h
  | promptDetected =>
    have e : s1 = promptDetected env s := (Except.ok.inj hok).symm
    rw [e, (promptDetected_wait_queue env s).1, (promptDetected_wait_queue env s).2]
    exact h

theorem calls_waitInv (env : Env σ) (cs : List DongleCall) :
    ∀ s s1 : CEzspDongle σ, (s.wait_rsp = true → s.sendingMsgQueue ≠ []) →
      calls env s cs = Except.ok s1 → s1.wait_rsp = true → s1.sendingMsgQueue ≠ [] := by
  induction cs with
  | nil =>
    intro s s1 h hok
    have e : s1 = s := (Except.ok.inj hok).symm
    rw [e]
    exact h
  | cons c cs ih =>
    intro s s1 h hok
    cases hc : call env s c with
    | error x =>
      simp only [calls, hc] at hok
      exact Except.noConfusion hok
    | ok s2 =>
      simp only [calls, hc] at hok
      exact ih s2 s1 (call_waitInv env s s2 c h hc) hok

/-- C21 (evaluation of the code): the states reached from construction by `setUart`,
`ASH_STATE_CONNECTED` and `sendCommand(0x00, [0x08])` when the serial write returns -1, and
by `setUart`, `ASH_STATE_CONNECTED`, `setMode(BOOTLOADER_FIRMWARE_UPGRADE)` and the same
`sendCommand` when the serial write works, have the command at the front of the queue and
`wait_rsp` false. In the first the one `sendDataFrame` call was made and failed; in the
second none was made. -/
theorem queue_nonempty_while_not_waiting :
    (∃ s1, calls (Env.sample (-1)) (ctor (0 : Nat) (some 1))
          [DongleCall.setUart, DongleCall.ashCbInfo EAshInfo.ASH_STATE_CONNECTED,
            DongleCall.sendCommand 0x00 [0x08]] = Except.ok s1
        ∧ s1.lastKnownMode = Mode.EZSP_NCP
        ∧ s1.sendingMsgQueue = [⟨0x00, [0x08]⟩]
        ∧ s1.wait_rsp = false
        ∧ dataFramesOf s1.trace = [[0x00, 0x08]])
    ∧ (∃ s1, calls (Env.sample 0) (ctor (0 : Nat) (some 1))
          [DongleCall.setUart, DongleCall.ashCbInfo EAshInfo.ASH_STATE_CONNECTED,
            DongleCall.setMode Mode.BOOTLOADER_FIRMWARE_UPGRADE,
            DongleCall.sendCommand 0x00 [0x08]] = Except.ok s1
        ∧ s1.sendingMsgQueue = [⟨0x00, [0x08]⟩]
        ∧ s1.wait_rsp = false
        ∧ dataFramesOf s1.trace = []) :=
  ⟨⟨_, rfl, by decide, by decide, by decide, by decide⟩,
   ⟨_, rfl, by decide, by decide, by decide⟩⟩

/-- C22: in every dispatcher state reached from construction by a sequence of dispatcher
calls (`sendCommand`, `handleInputData`, `ashCbInfo`, `setMode` and the other public methods
and the prompt callback), `wait_rsp` true implies that the outgoing queue is not empty; a
sequence whose frames are empty or at least 5 bytes long always reaches such a state.
`handleResponse` on an empty queue returns the dispatcher unchanged, so the queue is never
popped when empty. -/
theorem wait_rsp_implies_queue_nonempty (env : Env σ) (codec : σ) (obs : Option Nat)
    (cs : List DongleCall) :
    (∀ s1, calls env (ctor codec obs) cs = Except.ok s1 →
        s1.wait_rsp = true → s1.sendingMsgQueue ≠ [])
    ∧ ((∀ c ∈ cs, c.wellFormed = true) →
        ∃ s1, calls env (ctor codec obs) cs = Except.ok s1
          ∧ (s1.wait_rsp = true → s1.sendingMsgQueue ≠ []))
    ∧ (∀ (s : CEzspDongle σ) (c : Nat), s.sendingMsgQueue = [] →
        handleResponse env s c = s) := by
  have h0 : (ctor codec obs).wait_rsp = true → (ctor codec obs).sendingMsgQueue ≠ [] := by
    intro h
    cases obs with
    | none => exact Bool.noConfusion h
    | some o =>
      have e : (ctor codec (some o)).wait_rsp = false := by
        unfold ctor registerObserver
        simp
      rw [e] at h
      exact Bool.noConfusion h
  refine ⟨fun s1 hok => calls_waitInv env cs _ s1 h0 hok, ?_,
    fun s c hq => handleResponse_async env s c (Or.inl hq)⟩
  intro hf
  obtain ⟨s1, hok, _⟩ := calls_firstStartup env cs (ctor codec obs) hf
  exact ⟨s1, hok, calls_waitInv env cs _ s1 h0 hok⟩

/-- Witness of `wait_rsp_implies_queue_nonempty`: construction, `setUart`,
`ASH_STATE_CONNECTED`, two `sendCommand` calls, the response to the first, and `ASH_NACK`. -/
theorem wait_rsp_implies_queue_nonempty_witness :
    ∃ s1, calls (Env.sample 0) (ctor (0 : Nat) (some 1))
        [DongleCall.setUart, DongleCall.ashCbInfo EAshInfo.ASH_STATE_CONNECTED,
          DongleCall.sendCommand 0x00 [0x08], DongleCall.sendCommand 0x02 [],
          DongleCall.handleInputData [0x00, 0x80, 0x00, 0x30, 0x67, 0x08, 0x02, 0xC1, 0xC2],
          DongleCall.ashCbInfo EAshInfo.ASH_NACK] = Except.ok s1
      ∧ (s1.wait_rsp = true → s1.sendingMsgQueue ≠ []) :=
  (wait_rsp_implies_queue_nonempty (Env.sample 0) (0 : Nat) (some 1)
    [DongleCall.setUart, DongleCall.ashCbInfo EAshInfo.ASH_STATE_CONNECTED,
      DongleCall.sendCommand 0x00 [0x08], DongleCall.sendCommand 0x02 [],
      DongleCall.handleInputData [0x00, 0x80, 0x00, 0x30, 0x67, 0x08, 0x02, 0xC1, 0xC2],
      DongleCall.ashCbInfo EAshInfo.ASH_NACK]).2.1 (by decide)

end QueueInvariant
